import Mathlib

/-!
# learning-tracker: ownership checks and milestone ordering

A shallow embedding of the backend of the learning-goal tracker
(`backend/src/models`, `backend/src/routes`, `backend/src/middleware`,
`backend/src/config`).

The relational store is a record of row lists, one per table of
`config/migrate.js`; every nullable column is an `Option`.  A repository
function takes the store and returns its result together with the store after
its statements.

The store checks the values of a statement against the column types and the
constraints of `config/migrate.js`.  These checks are modelled for the
statements of `Milestone.create`, `Milestone.update`, `Milestone.reorder` and
`Goal.update`: the range of INTEGER, the length of VARCHAR, the DATE input, the
CHECK constraints of `goals` and the foreign key of `milestones.goal_id`.  The
statements of the other functions are taken as accepted.  `Milestone.reorder`
takes in addition a fault plan naming an UPDATE that fails for a reason outside
the statement, such as a cancelled query.
-/

namespace LearningTracker

/-! ## Errors (`middleware/errorHandler.js`) -/

/-- The `ApiError` subclasses, each with the argument given to its constructor,
and `base` for `new ApiError(statusCode, message, details)` itself. -/
inductive ApiError where
  | ValidationError (errors : List String)
  | NotFoundError (resource : String)
  | UnauthorizedError (message : String)
  | ForbiddenError (message : String)
  | base (statusCode : Nat) (message : String) (details : Option (List String))
  deriving DecidableEq, Repr

/-- The field `statusCode` set by each constructor. -/
def ApiError.statusCode : ApiError → Nat
  | .ValidationError _ => 400
  | .NotFoundError _ => 404
  | .UnauthorizedError _ => 401
  | .ForbiddenError _ => 403
  | .base statusCode _ _ => statusCode

/-- The field `message` set by each constructor. -/
def ApiError.message : ApiError → String
  | .ValidationError _ => "Validation failed"
  | .NotFoundError resource => resource ++ " not found"
  | .UnauthorizedError message => message
  | .ForbiddenError message => message
  | .base _ message _ => message

/-- The field `name`: each subclass constructor sets it to the class name; an
instance of `ApiError` itself keeps the name it inherits from `Error`. -/
def ApiError.name : ApiError → String
  | .ValidationError _ => "ValidationError"
  | .NotFoundError _ => "NotFoundError"
  | .UnauthorizedError _ => "UnauthorizedError"
  | .ForbiddenError _ => "ForbiddenError"
  | .base _ _ _ => "Error"

/-- The field `details`: the list given to `ValidationError`, null for the other
subclasses. -/
def ApiError.details : ApiError → Option (List String)
  | .ValidationError errors => some errors
  | .base _ _ details => details
  | _ => none

/-- An error raised by the store for a statement, with its SQLSTATE code. -/
structure DbError where
  code : String
  deriving DecidableEq, Repr

/-- What a rejected handler promise carries: an `ApiError` thrown by the
handler, or a store error that propagated through it. -/
inductive Failure where
  | api (e : ApiError)
  | db (e : DbError)
  deriving DecidableEq, Repr

deriving instance DecidableEq for Except

/-! ## Tables (`config/migrate.js`) -/

/-- A row of table `users`. -/
structure UserRow where
  id : Int
  google_id : String
  email : String
  name : Option String
  avatar_url : Option String
  created_at : Option Nat
  updated_at : Option Nat
  deriving DecidableEq, Repr

/-- A row of table `goals`. -/
structure GoalRow where
  id : Int
  user_id : Option Int
  title : String
  description : Option String
  category : Option String
  target_date : Option String
  status : Option String
  progress : Option Int
  created_at : Option Nat
  updated_at : Option Nat
  deriving DecidableEq, Repr

/-- A row of table `milestones`. -/
structure MilestoneRow where
  id : Int
  goal_id : Option Int
  title : String
  description : Option String
  completed : Option Bool
  completed_at : Option Nat
  order_index : Option Int
  created_at : Option Nat
  updated_at : Option Nat
  deriving DecidableEq, Repr

/-- A row of table `saved_courses`. -/
structure SavedCourseRow where
  id : Int
  user_id : Option Int
  external_id : String
  title : String
  provider : Option String
  url : Option String
  thumbnail_url : Option String
  goal_id : Option Int
  created_at : Option Nat
  deriving DecidableEq, Repr

/-- The state of the relational store: the four tables and the last value
handed out by the SERIAL sequence of each `id` column. -/
structure Store where
  users : List UserRow
  goals : List GoalRow
  milestones : List MilestoneRow
  saved_courses : List SavedCourseRow
  users_id_seq : Int
  goals_id_seq : Int
  milestones_id_seq : Int
  saved_courses_id_seq : Int
  deriving DecidableEq, Repr

/-! ### Schema constraints -/

/-- PRIMARY KEY of `milestones`: no two rows share an id. -/
def Store.milestoneKey (s : Store) : Prop :=
  (s.milestones.map (fun m => m.id)).Nodup

/-- PRIMARY KEY of `goals`: no two rows share an id. -/
def Store.goalKey (s : Store) : Prop :=
  (s.goals.map (fun g => g.id)).Nodup

/-- SERIAL ids of `goals` are handed out from 1 upwards. -/
def Store.goalSerial (s : Store) : Prop :=
  ∀ g ∈ s.goals, 0 < g.id

/-- FOREIGN KEY `milestones.goal_id REFERENCES goals(id)`: a goal id that is
set names a row of `goals`. -/
def Store.milestoneGoalRef (s : Store) : Prop :=
  ∀ m ∈ s.milestones, m.goal_id = none ∨ ∃ goal ∈ s.goals, m.goal_id = some goal.id

instance (s : Store) : Decidable s.milestoneKey := by
  unfold Store.milestoneKey; infer_instance

instance (s : Store) : Decidable s.goalKey := by
  unfold Store.goalKey; infer_instance

instance (s : Store) : Decidable s.goalSerial := by
  unfold Store.goalSerial; infer_instance

instance (s : Store) : Decidable s.milestoneGoalRef := by
  unfold Store.milestoneGoalRef; infer_instance

/-! ## SQL helpers -/

/-- The table after `UPDATE t SET f WHERE p`. -/
def sqlUpdate {α : Type} (rows : List α) (p : α → Bool) (f : α → α) : List α :=
  rows.map (fun r => if p r then f r else r)

/-- The rows listed by `UPDATE t SET f WHERE p RETURNING *`. -/
def sqlReturning {α : Type} (rows : List α) (p : α → Bool) (f : α → α) : List α :=
  (rows.filter p).map f

/-- `COALESCE(param, column)`. -/
def coalesce {α : Type} (param : Option α) (column : Option α) : Option α :=
  match param with
  | some v => some v
  | none => column

/-- ASC comparison `a < b` of a nullable column: NULL sorts after every value. -/
def nullsLastLt {α : Type} [LT α] [DecidableRel (α := α) (· < ·)] :
    Option α → Option α → Bool
  | some a, some b => decide (a < b)
  | some _, none => true
  | none, _ => false

/-- ASC comparison `a ≤ b` of a nullable column: NULL sorts after every value. -/
def nullsLastLe {α : Type} [LE α] [DecidableRel (α := α) (· ≤ ·)] :
    Option α → Option α → Bool
  | some a, some b => decide (a ≤ b)
  | _, none => true
  | none, some _ => false

/-- `ORDER BY order_index, created_at`: row `a` may stand before row `b`. -/
def orderByIndexCreated (a b : MilestoneRow) : Bool :=
  nullsLastLt a.order_index b.order_index ||
    (a.order_index == b.order_index && nullsLastLe a.created_at b.created_at)

/-- The order relation of `ORDER BY order_index, created_at`. -/
def MilestoneRow.le (a b : MilestoneRow) : Prop :=
  orderByIndexCreated a b = true

instance : DecidableRel MilestoneRow.le := fun a b => by
  unfold MilestoneRow.le; infer_instance

instance : IsTotal MilestoneRow MilestoneRow.le where
  total a b := by
    unfold MilestoneRow.le orderByIndexCreated
    rcases ha : a.order_index with _ | i <;> rcases hb : b.order_index with _ | j <;>
      rcases hca : a.created_at with _ | c <;> rcases hcb : b.created_at with _ | d <;>
      simp [nullsLastLt, nullsLastLe] <;> omega

instance : IsTrans MilestoneRow MilestoneRow.le where
  trans a b c hab hbc := by
    unfold MilestoneRow.le orderByIndexCreated at *
    rcases ha : a.order_index with _ | i <;> rcases hb : b.order_index with _ | j <;>
      rcases hc : c.order_index with _ | k <;>
      rcases hca : a.created_at with _ | x <;> rcases hcb : b.created_at with _ | y <;>
      rcases hcc : c.created_at with _ | z <;>
      simp [nullsLastLt, nullsLastLe, ha, hb, hc, hca, hcb, hcc] at hab hbc ⊢ <;> omega

/-! ### Column types and CHECK constraints

A value that does not fit the type of its column rejects the statement before
any row is touched. -/

/-- The range of the column type INTEGER. -/
def int4 (n : Int) : Bool :=
  decide (-2147483648 ≤ n ∧ n ≤ 2147483647)

/-- SQLSTATE 22003, numeric value out of range. -/
def DbError.outOfRange : DbError := { code := "22003" }

/-- SQLSTATE 22001, string data right truncation. -/
def DbError.tooLong : DbError := { code := "22001" }

/-- SQLSTATE 23503, foreign key violation. -/
def DbError.foreignKey : DbError := { code := "23503" }

/-- SQLSTATE 23514, check violation. -/
def DbError.checkViolation : DbError := { code := "23514" }

/-- The error raised for a value sent for an INTEGER column or compared with
one. -/
def integerError (n : Int) : Option DbError :=
  if int4 n then none else some DbError.outOfRange

/-- The error raised for a value assigned to a column VARCHAR(n): the
characters beyond the first `n` must all be spaces. -/
def varcharError (n : Nat) (value : String) : Option DbError :=
  if (value.data.drop n).all (fun c => c == ' ') then none else some DbError.tooLong

/-- The value stored in a column VARCHAR(n): spaces beyond the first `n`
characters are cut off. -/
def varcharValue (n : Nat) (value : String) : String :=
  String.mk (value.data.take n)

/-- A value sent for the column `target_date`: its text, and the error with
which the DATE input of the store rejects the text (none when the store reads
it as a date).  The DATE input is not part of the repository. -/
structure DateParam where
  text : String
  rejection : Option DbError
  deriving DecidableEq, Repr

/-- The first error among the checks of a statement, in the order in which the
store makes them. -/
def firstError : List (Option DbError) → Option DbError
  | [] => none
  | some e :: _ => some e
  | none :: rest => firstError rest

/-- The list of `CHECK (status IN (...))` of `goals`. -/
def statusCheck : List String := ["active", "completed", "paused", "cancelled"]

/-- The CHECK constraints of `goals` on a row; a NULL passes a CHECK. -/
def GoalRow.checks (g : GoalRow) : Bool :=
  (match g.status with
    | none => true
    | some v => decide (v ∈ statusCheck)) &&
  (match g.progress with
    | none => true
    | some p => decide (0 ≤ p ∧ p ≤ 100))

/-- Column type of `milestones.order_index`: an order index that is set is
within the range of INTEGER. -/
def Store.orderIndexColumn (s : Store) : Prop :=
  ∀ m ∈ s.milestones, m.order_index.all int4 = true

/-- CHECK constraints of `goals`: every row passes them. -/
def Store.goalChecks (s : Store) : Prop :=
  ∀ g ∈ s.goals, g.checks = true

instance (s : Store) : Decidable s.orderIndexColumn := by
  unfold Store.orderIndexColumn; infer_instance

instance (s : Store) : Decidable s.goalChecks := by
  unfold Store.goalChecks; infer_instance

/-! ## `models/Milestone.js` -/

/-- `SELECT * FROM milestones WHERE goal_id = $1 ORDER BY order_index, created_at`. -/
def Milestone.findByGoalId (s : Store) (goalId : Int) : List MilestoneRow :=
  (s.milestones.filter (fun m => m.goal_id == some goalId)).insertionSort MilestoneRow.le

/-- `SELECT * FROM milestones WHERE id = $1`, then `rows[0] || null`. -/
def Milestone.findById (s : Store) (id : Int) : Option MilestoneRow :=
  (s.milestones.filter (fun m => m.id == id)).head?

/-- `COALESCE(MAX(order_index), -1)` over the milestones of a goal: the greatest
order index that is set, -1 when none is. -/
def Milestone.maxOrder (s : Store) (goalId : Int) : Int :=
  match ((s.milestones.filter (fun m => m.goal_id == some goalId)).filterMap
      (fun m => m.order_index)).max? with
  | some v => v
  | none => -1

/-- The first statement of `Milestone.create`:
`SELECT COALESCE(MAX(order_index), -1) + 1 as next_order FROM milestones WHERE goal_id = $1`.
The sum is an INTEGER: it is out of range when the maximum is 2147483647. -/
def Milestone.nextOrder (s : Store) (goalId : Int) : Except DbError Int :=
  match integerError goalId with
  | some e => .error e
  | none =>
    match integerError (Milestone.maxOrder s goalId + 1) with
    | some e => .error e
    | none => .ok (Milestone.maxOrder s goalId + 1)

/-- The INSERT of `Milestone.create` with the order index it is sent (none is
NULL): the row takes the next id of the sequence, `created_at` and `updated_at`
default to the current timestamp, `completed` to false.  A goal id without a
goal row violates the foreign key; the sequence has advanced by then. -/
def Milestone.insert (s : Store) (now : Nat) (goalId : Int) (title : String)
    (description : Option String) (orderIndex : Option Int) :
    Except DbError MilestoneRow × Store :=
  match firstError [integerError goalId, orderIndex.bind integerError,
      varcharError 255 title] with
  | some e => (.error e, s)
  | none =>
    if s.goals.any (fun g => g.id == goalId) then
      let row : MilestoneRow :=
        { id := s.milestones_id_seq + 1, goal_id := some goalId,
          title := varcharValue 255 title, description := description,
          completed := some false, completed_at := none, order_index := orderIndex,
          created_at := some now, updated_at := some now }
      (.ok row, { s with milestones := s.milestones ++ [row],
                         milestones_id_seq := s.milestones_id_seq + 1 })
    else
      (.error DbError.foreignKey, { s with milestones_id_seq := s.milestones_id_seq + 1 })

/-- `Milestone.create`.  The argument `orderIndex` is none when it is undefined,
`some none` when it is null and `some (some v)` for a number: the next order
index is computed only under `orderIndex === undefined`, so a null is sent to
the INSERT as it is. -/
def Milestone.create (s : Store) (now : Nat) (goalId : Int) (title : String)
    (description : Option String) (orderIndex : Option (Option Int)) :
    Except DbError MilestoneRow × Store :=
  match orderIndex with
  | none =>
    match Milestone.nextOrder s goalId with
    | .error e => (.error e, s)
    | .ok next => Milestone.insert s now goalId title description (some next)
  | some orderIndex => Milestone.insert s now goalId title description orderIndex

/-- The SET list of `Milestone.update` on a row:
`title = COALESCE($2, title), description = COALESCE($3, description),
order_index = COALESCE($4, order_index)`. -/
def Milestone.updateRow (title : Option String) (description : Option String)
    (orderIndex : Option Int) (m : MilestoneRow) : MilestoneRow :=
  { m with title := (coalesce title (some m.title)).getD m.title,
           description := coalesce description m.description,
           order_index := coalesce orderIndex m.order_index }

/-- `UPDATE milestones SET ... WHERE id = $1 RETURNING *` with the SET list `f`,
then `rows[0] || null`. -/
def Milestone.updateWhere (s : Store) (id : Int) (f : MilestoneRow → MilestoneRow) :
    Except DbError (Option MilestoneRow) × Store :=
  let p := fun (m : MilestoneRow) => m.id == id
  (.ok (sqlReturning s.milestones p f).head?,
    { s with milestones := sqlUpdate s.milestones p f })

/-- `Milestone.update`: each column keeps its value when the parameter is null
(an undefined parameter is sent as null). -/
def Milestone.update (s : Store) (id : Int) (title : Option String)
    (description : Option String) (orderIndex : Option Int) :
    Except DbError (Option MilestoneRow) × Store :=
  match firstError [integerError id, orderIndex.bind integerError,
      title.bind (varcharError 255)] with
  | some e => (.error e, s)
  | none =>
    Milestone.updateWhere s id
      (Milestone.updateRow (title.map (varcharValue 255)) description orderIndex)

/-- `Milestone.complete`: `SET completed = true, completed_at = CURRENT_TIMESTAMP`. -/
def Milestone.complete (s : Store) (now : Nat) (id : Int) : Option MilestoneRow × Store :=
  let p := fun (m : MilestoneRow) => m.id == id
  let f := fun (m : MilestoneRow) => { m with completed := some true, completed_at := some now }
  ((sqlReturning s.milestones p f).head?, { s with milestones := sqlUpdate s.milestones p f })

/-- `Milestone.uncomplete`: `SET completed = false, completed_at = NULL`. -/
def Milestone.uncomplete (s : Store) (id : Int) : Option MilestoneRow × Store :=
  let p := fun (m : MilestoneRow) => m.id == id
  let f := fun (m : MilestoneRow) => { m with completed := some false, completed_at := none }
  ((sqlReturning s.milestones p f).head?, { s with milestones := sqlUpdate s.milestones p f })

/-- `Milestone.toggleComplete`: read the row, then complete or uncomplete it. -/
def Milestone.toggleComplete (s : Store) (now : Nat) (id : Int) : Option MilestoneRow × Store :=
  match Milestone.findById s id with
  | none => (none, s)
  | some milestone =>
    if milestone.completed = some true then Milestone.uncomplete s id
    else Milestone.complete s now id

/-- The row `id, goal_id` listed by `DELETE ... RETURNING id, goal_id`. -/
structure DeletedMilestone where
  id : Int
  goal_id : Option Int
  deriving DecidableEq, Repr

/-- `Milestone.delete`: `DELETE FROM milestones WHERE id = $1 RETURNING id, goal_id`. -/
def Milestone.delete (s : Store) (id : Int) : Option DeletedMilestone × Store :=
  (((s.milestones.filter (fun m => m.id == id)).map
      (fun m => ({ id := m.id, goal_id := m.goal_id } : DeletedMilestone))).head?,
   { s with milestones := s.milestones.filter (fun m => !(m.id == id)) })

/-! ### Reordering -/

/-- A fault plan: the UPDATE issued by the loop of `Milestone.reorder` at
iteration `update` (0-based) fails with `error`, whatever its values. -/
structure Fault where
  update : Nat
  error : DbError
  deriving DecidableEq, Repr

/-- The object statements are sent through. -/
inductive Client where
  /-- The fallback object whose only member is the pool helper `query`: every
  statement is committed on its own. -/
  | pool
  /-- A connection checked out with `pool.connect()`. -/
  | connection
  deriving DecidableEq, Repr

/-- The value of `query.getClient?.()`.  `config/database.js` exports `getClient`
next to `query`; the function object `query` has no property `getClient`, so
the optional call yields undefined. -/
def query_getClient : Option Client := none

/-- The statement of the loop of `Milestone.reorder`:
`UPDATE milestones SET order_index = $1 WHERE id = $2 AND goal_id = $3`. -/
def Milestone.setOrderIndex (s : Store) (orderIndex : Nat) (milestoneId : Int)
    (goalId : Int) : Store :=
  let p := fun (m : MilestoneRow) => m.id == milestoneId && m.goal_id == some goalId
  let f := fun (m : MilestoneRow) => { m with order_index := some (orderIndex : Int) }
  { s with milestones := sqlUpdate s.milestones p f }

/-- The loop of `Milestone.reorder` from iteration `i` on, sending the statement
with `[i, milestoneIds[i], goalId]`; the three values are INTEGER parameters.
Returns the store as left by the statements that ran. -/
def Milestone.reorderLoop (goalId : Int) (fault : Option Fault) :
    List Int → Nat → Store → Except DbError Unit × Store
  | [], _, s => (.ok (), s)
  | milestoneId :: rest, i, s =>
    match fault.filter (fun f => f.update == i) with
    | some f => (.error f.error, s)
    | none =>
      match firstError [integerError (i : Int), integerError milestoneId,
          integerError goalId] with
      | some e => (.error e, s)
      | none =>
        Milestone.reorderLoop goalId fault rest (i + 1)
          (Milestone.setOrderIndex s i milestoneId goalId)

/-- The body of `Milestone.reorder` for a given client.  BEGIN, COMMIT and
ROLLBACK are sent only when `client.query !== query`, that is on a checked-out
connection; ROLLBACK returns the store to its state at BEGIN. -/
def Milestone.reorderOn (client : Client) (s : Store) (fault : Option Fault)
    (goalId : Int) (milestoneIds : List Int) : Except DbError Bool × Store :=
  let transactional := client != Client.pool
  match Milestone.reorderLoop goalId fault milestoneIds 0 s with
  | (.ok _, s') => (.ok true, s')
  | (.error e, s') => (.error e, if transactional then s else s')

/-- `Milestone.reorder`: the client is `await query.getClient?.()`, or the
fallback object around `query` when that is undefined. -/
def Milestone.reorder (s : Store) (fault : Option Fault) (goalId : Int)
    (milestoneIds : List Int) : Except DbError Bool × Store :=
  Milestone.reorderOn (query_getClient.getD Client.pool) s fault goalId milestoneIds

/-- The JavaScript expression `x || null` on a nullable integer: 0 is falsy. -/
def orNull : Option Int → Option Int
  | some 0 => none
  | x => x

/-- `Milestone.getGoalId`: `SELECT goal_id FROM milestones WHERE id = $1`, then
`rows[0]?.goal_id || null`. -/
def Milestone.getGoalId (s : Store) (milestoneId : Int) : Option Int :=
  match (s.milestones.filter (fun m => m.id == milestoneId)).head? with
  | none => none
  | some row => orNull row.goal_id

/-! ## `models/Goal.js` -/

/-- The result of `Goal.findByIdWithMilestones`: the goal row spread together
with the key `milestones`. -/
structure GoalWithMilestones where
  goal : GoalRow
  milestones : List MilestoneRow
  deriving DecidableEq, Repr

/-- `Goal.findByIdWithMilestones`. -/
def Goal.findByIdWithMilestones (s : Store) (id : Int) : Option GoalWithMilestones :=
  match s.goals.filter (fun g => g.id == id) with
  | [] => none
  | goal :: _ =>
    some { goal := goal,
           milestones := (s.milestones.filter (fun m => m.goal_id == some id)).insertionSort
             MilestoneRow.le }

/-- `Goal.create`: status and progress take the column defaults. -/
def Goal.create (s : Store) (now : Nat) (userId : Int) (title : String)
    (description : Option String) (category : Option String) (targetDate : Option String) :
    GoalRow × Store :=
  let row : GoalRow :=
    { id := s.goals_id_seq + 1, user_id := some userId, title := title,
      description := description, category := category, target_date := targetDate,
      status := some "active", progress := some 0, created_at := some now,
      updated_at := some now }
  (row, { s with goals := s.goals ++ [row], goals_id_seq := s.goals_id_seq + 1 })

/-- The SET list of `Goal.update` on a row: `title = COALESCE($2, title)`, and
likewise description, category, target_date and status. -/
def Goal.updateRow (title description category targetDate status : Option String)
    (g : GoalRow) : GoalRow :=
  { g with title := (coalesce title (some g.title)).getD g.title,
           description := coalesce description g.description,
           category := coalesce category g.category,
           target_date := coalesce targetDate g.target_date,
           status := coalesce status g.status }

/-- `UPDATE goals SET ... WHERE id = $1 RETURNING *` with the SET list `f`, then
`rows[0] || null`.  The CHECK constraints are tested on each row the UPDATE
writes; a row that fails them rejects the statement. -/
def Goal.updateWhere (s : Store) (id : Int) (f : GoalRow → GoalRow) :
    Except DbError (Option GoalRow) × Store :=
  let p := fun (g : GoalRow) => g.id == id
  if (sqlReturning s.goals p f).all GoalRow.checks then
    (.ok (sqlReturning s.goals p f).head?, { s with goals := sqlUpdate s.goals p f })
  else (.error DbError.checkViolation, s)

/-- `Goal.update`: each column keeps its value when the parameter is null (an
undefined parameter is sent as null).  The parameters are read first (the id
as INTEGER, the target date as DATE), then the lengths of title, category and
status are checked; the CHECK constraints are tested on each row the UPDATE
writes, so they reject the statement only when a row has the id. -/
def Goal.update (s : Store) (id : Int) (title : Option String) (description : Option String)
    (category : Option String) (targetDate : Option DateParam) (status : Option String) :
    Except DbError (Option GoalRow) × Store :=
  match firstError [integerError id, targetDate.bind (fun d => d.rejection),
      title.bind (varcharError 255), category.bind (varcharError 100),
      status.bind (varcharError 50)] with
  | some e => (.error e, s)
  | none =>
    Goal.updateWhere s id (Goal.updateRow (title.map (varcharValue 255)) description
      (category.map (varcharValue 100)) (targetDate.map (fun d => d.text))
      (status.map (varcharValue 50)))

/-- `Goal.delete`: `DELETE FROM goals WHERE id = $1`; `rowCount > 0`.  The
foreign keys delete the goal's milestones (ON DELETE CASCADE) and clear the goal
reference of saved courses (ON DELETE SET NULL). -/
def Goal.delete (s : Store) (id : Int) : Bool × Store :=
  (decide ((s.goals.filter (fun g => g.id == id)).length > 0),
   { s with goals := s.goals.filter (fun g => !(g.id == id)),
            milestones := s.milestones.filter (fun m => !(m.goal_id == some id)),
            saved_courses := s.saved_courses.map
              (fun c => if c.goal_id == some id then { c with goal_id := none } else c) })

/-- `Goal.isOwner`: `SELECT id FROM goals WHERE id = $1 AND user_id = $2`;
`rows.length > 0`. -/
def Goal.isOwner (s : Store) (goalId : Int) (userId : Int) : Bool :=
  decide ((s.goals.filter (fun g => g.id == goalId && g.user_id == some userId)).length > 0)

/-! ## Ownership helpers (`routes/milestones.js`) -/

/-- `checkGoalOwnership`. -/
def checkGoalOwnership (s : Store) (goalId : Int) (userId : Int) : Except ApiError Unit :=
  if !Goal.isOwner s goalId userId then
    .error (.ForbiddenError "You do not have access to this goal")
  else .ok ()

/-- `checkMilestoneOwnership`, its two awaited queries reading the store at
different moments: `atLookup` when `Milestone.getGoalId` runs, `atCheck` when
`checkGoalOwnership` runs.  Each query is a statement of its own on the pool,
so statements of other requests can be committed in between. -/
def checkMilestoneOwnershipAt (atLookup atCheck : Store) (milestoneId : Int) (userId : Int) :
    Except ApiError Int :=
  match Milestone.getGoalId atLookup milestoneId with
  | none => .error (.NotFoundError "Milestone")
  | some goalId =>
    match checkGoalOwnership atCheck goalId userId with
    | .error e => .error e
    | .ok _ => .ok goalId

/-- `checkMilestoneOwnership` with no statement of another request in between. -/
def checkMilestoneOwnership (s : Store) (milestoneId : Int) (userId : Int) :
    Except ApiError Int :=
  checkMilestoneOwnershipAt s s milestoneId userId

/-! ## Route handlers (`routes/milestones.js`, `routes/goals.js`)

Both routers run `authenticate` first, so a handler sees the acting user in
`req.user.id`.  The validation chains run before the handler and leave their
findings in the request; the handler reads them with `validationResult(req)`. -/

/-- What a handler reads from the request. -/
structure Request where
  /-- The array `validationResult(req).array()`. -/
  validationErrors : List String
  /-- The acting user, `req.user.id`. -/
  userId : Int
  /-- The route parameter, `req.params.id` or `req.params.goalId`. -/
  id : Int
  title : String
  description : Option String
  /-- The key `orderIndex` of the body: none when the body has no such key. -/
  orderIndex : Option Int
  category : Option String
  targetDate : Option DateParam
  status : Option String
  milestoneIds : List Int
  /-- The array `req.body.milestones` of POST `/api/goals`: title and description
  of each entry. -/
  milestones : List (String × Option String) := []
  deriving DecidableEq, Repr

/-- A row listed by `Goal.findByUserId`: the goal with the number of its
milestones and of its completed milestones. -/
structure GoalListItem where
  goal : GoalRow
  milestone_count : Nat
  completed_milestone_count : Nat
  deriving DecidableEq, Repr

/-- An entry of the course catalog `mockCourses` of `routes/courses.js`, with
the fields the save route reads. -/
structure Course where
  id : String
  title : String
  provider : Option String
  url : Option String
  thumbnailUrl : Option String
  deriving DecidableEq, Repr

/-- The resource carried by a JSON response. -/
inductive Payload where
  | empty
  | goal (g : GoalRow)
  | goalWithMilestones (g : GoalWithMilestones)
  | milestone (m : MilestoneRow)
  | milestones (ms : List MilestoneRow)
  | goals (gs : List GoalListItem)
  | course (c : Course)
  deriving DecidableEq, Repr

/-- A JSON response: status, the key `message`, the resource, the key `count`. -/
structure Response where
  status : Nat
  message : Option String
  payload : Payload
  count : Option Nat
  deriving DecidableEq, Repr

/-- The outcome of a handler: its response or the error passed to `next`,
and the store it leaves. -/
abbrev Outcome := Except Failure Response × Store

/-- GET `/api/milestones/goal/:goalId`. -/
def milestonesRouter.list (s : Store) (req : Request) : Outcome :=
  if !req.validationErrors.isEmpty then
    (.error (.api (.ValidationError req.validationErrors)), s)
  else
    match checkGoalOwnership s req.id req.userId with
    | .error e => (.error (.api e), s)
    | .ok _ =>
      let milestones := Milestone.findByGoalId s req.id
      (.ok { status := 200, message := none, payload := .milestones milestones,
             count := some milestones.length }, s)

/-- POST `/api/milestones/goal/:goalId`. -/
def milestonesRouter.create (s : Store) (now : Nat) (req : Request) : Outcome :=
  if !req.validationErrors.isEmpty then
    (.error (.api (.ValidationError req.validationErrors)), s)
  else
    match checkGoalOwnership s req.id req.userId with
    | .error e => (.error (.api e), s)
    | .ok _ =>
      match Milestone.create s now req.id req.title req.description
        (req.orderIndex.map some) with
      | (.error e, s') => (.error (.db e), s')
      | (.ok milestone, s') =>
        (.ok { status := 201, message := some "Milestone created successfully",
               payload := .milestone milestone, count := none }, s')

/-- PUT `/api/milestones/:id`. -/
def milestonesRouter.update (s : Store) (req : Request) : Outcome :=
  if !req.validationErrors.isEmpty then
    (.error (.api (.ValidationError req.validationErrors)), s)
  else
    match checkMilestoneOwnership s req.id req.userId with
    | .error e => (.error (.api e), s)
    | .ok _ =>
      match Milestone.update s req.id (some req.title) req.description req.orderIndex with
      | (.error e, s') => (.error (.db e), s')
      | (.ok none, s') => (.error (.api (.NotFoundError "Milestone")), s')
      | (.ok (some milestone), s') =>
        (.ok { status := 200, message := some "Milestone updated successfully",
               payload := .milestone milestone, count := none }, s')

/-- PATCH `/api/milestones/:id/complete`. -/
def milestonesRouter.complete (s : Store) (now : Nat) (req : Request) : Outcome :=
  if !req.validationErrors.isEmpty then
    (.error (.api (.ValidationError req.validationErrors)), s)
  else
    match checkMilestoneOwnership s req.id req.userId with
    | .error e => (.error (.api e), s)
    | .ok _ =>
      match Milestone.complete s now req.id with
      | (none, s') => (.error (.api (.NotFoundError "Milestone")), s')
      | (some milestone, s') =>
        (.ok { status := 200, message := some "Milestone marked as complete",
               payload := .milestone milestone, count := none }, s')

/-- PATCH `/api/milestones/:id/uncomplete`. -/
def milestonesRouter.uncomplete (s : Store) (req : Request) : Outcome :=
  if !req.validationErrors.isEmpty then
    (.error (.api (.ValidationError req.validationErrors)), s)
  else
    match checkMilestoneOwnership s req.id req.userId with
    | .error e => (.error (.api e), s)
    | .ok _ =>
      match Milestone.uncomplete s req.id with
      | (none, s') => (.error (.api (.NotFoundError "Milestone")), s')
      | (some milestone, s') =>
        (.ok { status := 200, message := some "Milestone marked as incomplete",
               payload := .milestone milestone, count := none }, s')

/-- PATCH `/api/milestones/:id/toggle`. -/
def milestonesRouter.toggle (s : Store) (now : Nat) (req : Request) : Outcome :=
  if !req.validationErrors.isEmpty then
    (.error (.api (.ValidationError req.validationErrors)), s)
  else
    match checkMilestoneOwnership s req.id req.userId with
    | .error e => (.error (.api e), s)
    | .ok _ =>
      match Milestone.toggleComplete s now req.id with
      | (none, s') => (.error (.api (.NotFoundError "Milestone")), s')
      | (some milestone, s') =>
        (.ok { status := 200,
               message := some ("Milestone marked as " ++
                 (if milestone.completed = some true then "complete" else "incomplete")),
               payload := .milestone milestone, count := none }, s')

/-- DELETE `/api/milestones/:id`. -/
def milestonesRouter.delete (s : Store) (req : Request) : Outcome :=
  if !req.validationErrors.isEmpty then
    (.error (.api (.ValidationError req.validationErrors)), s)
  else
    match checkMilestoneOwnership s req.id req.userId with
    | .error e => (.error (.api e), s)
    | .ok _ =>
      match Milestone.delete s req.id with
      | (none, s') => (.error (.api (.NotFoundError "Milestone")), s')
      | (some _, s') =>
        (.ok { status := 200, message := some "Milestone deleted successfully",
               payload := .empty, count := none }, s')

/-- PUT `/api/milestones/goal/:goalId/reorder`. -/
def milestonesRouter.reorder (s : Store) (fault : Option Fault) (req : Request) : Outcome :=
  if !req.validationErrors.isEmpty then
    (.error (.api (.ValidationError req.validationErrors)), s)
  else
    match checkGoalOwnership s req.id req.userId with
    | .error e => (.error (.api e), s)
    | .ok _ =>
      match Milestone.reorder s fault req.id req.milestoneIds with
      | (.error e, s') => (.error (.db e), s')
      | (.ok _, s') =>
        (.ok { status := 200, message := some "Milestones reordered successfully",
               payload := .milestones (Milestone.findByGoalId s' req.id), count := none }, s')

/-- GET `/api/goals/:id`. -/
def goalsRouter.get (s : Store) (req : Request) : Outcome :=
  if !req.validationErrors.isEmpty then
    (.error (.api (.ValidationError req.validationErrors)), s)
  else
    match Goal.findByIdWithMilestones s req.id with
    | none => (.error (.api (.NotFoundError "Goal")), s)
    | some goal =>
      if goal.goal.user_id ≠ some req.userId then
        (.error (.api (.ForbiddenError "You do not have access to this goal")), s)
      else
        (.ok { status := 200, message := none, payload := .goalWithMilestones goal,
               count := none }, s)

/-- PUT `/api/goals/:id`. -/
def goalsRouter.update (s : Store) (req : Request) : Outcome :=
  if !req.validationErrors.isEmpty then
    (.error (.api (.ValidationError req.validationErrors)), s)
  else if !Goal.isOwner s req.id req.userId then
    (.error (.api (.ForbiddenError "You do not have access to this goal")), s)
  else
    match Goal.update s req.id (some req.title) req.description req.category req.targetDate
      req.status with
    | (.error e, s') => (.error (.db e), s')
    | (.ok none, s') => (.error (.api (.NotFoundError "Goal")), s')
    | (.ok (some goal), s') =>
      (.ok { status := 200, message := some "Goal updated successfully",
             payload := .goal goal, count := none }, s')

/-- DELETE `/api/goals/:id`. -/
def goalsRouter.delete (s : Store) (req : Request) : Outcome :=
  if !req.validationErrors.isEmpty then
    (.error (.api (.ValidationError req.validationErrors)), s)
  else if !Goal.isOwner s req.id req.userId then
    (.error (.api (.ForbiddenError "You do not have access to this goal")), s)
  else
    match Goal.delete s req.id with
    | (false, s') => (.error (.api (.NotFoundError "Goal")), s')
    | (true, s') =>
      (.ok { status := 200, message := some "Goal deleted successfully",
             payload := .empty, count := none }, s')

/-- PATCH `/api/goals/:id/status`. -/
def goalsRouter.status (s : Store) (req : Request) : Outcome :=
  if !req.validationErrors.isEmpty then
    (.error (.api (.ValidationError req.validationErrors)), s)
  else if !Goal.isOwner s req.id req.userId then
    (.error (.api (.ForbiddenError "You do not have access to this goal")), s)
  else
    match Goal.update s req.id none none none none req.status with
    | (.error e, s') => (.error (.db e), s')
    | (.ok none, s') => (.error (.api (.NotFoundError "Goal")), s')
    | (.ok (some goal), s') =>
      (.ok { status := 200, message := some "Goal status updated",
             payload := .goal goal, count := none }, s')

/-- The handlers that authorize the acting user against a goal, named by the
operation they serve. -/
inductive Route where
  | goalUpdate
  | goalDelete
  | goalStatus
  | milestoneList
  | milestoneCreate
  | milestoneReorder
  | milestoneUpdate
  | milestoneComplete
  | milestoneUncomplete
  | milestoneToggle
  | milestoneDelete
  deriving DecidableEq, Repr

/-- The route writes to the store when it succeeds. -/
def Route.mutating : Route → Bool
  | .milestoneList => false
  | _ => true

/-- The route parameter is a goal id (`/api/goals/:id`, `/api/milestones/goal/:goalId`);
otherwise it is a milestone id (`/api/milestones/:id`). -/
def Route.byGoalId : Route → Bool
  | .goalUpdate | .goalDelete | .goalStatus => true
  | .milestoneList | .milestoneCreate | .milestoneReorder => true
  | _ => false

/-- The handler registered for each route. -/
def Route.handle (r : Route) (s : Store) (now : Nat) (fault : Option Fault)
    (req : Request) : Outcome :=
  match r with
  | .goalUpdate => goalsRouter.update s req
  | .goalDelete => goalsRouter.delete s req
  | .goalStatus => goalsRouter.status s req
  | .milestoneList => milestonesRouter.list s req
  | .milestoneCreate => milestonesRouter.create s now req
  | .milestoneReorder => milestonesRouter.reorder s fault req
  | .milestoneUpdate => milestonesRouter.update s req
  | .milestoneComplete => milestonesRouter.complete s now req
  | .milestoneUncomplete => milestonesRouter.uncomplete s req
  | .milestoneToggle => milestonesRouter.toggle s now req
  | .milestoneDelete => milestonesRouter.delete s req

/-! ## Goal listing and creation (`models/Goal.js`, `models/Milestone.js`) -/

/-- `ORDER BY g.created_at DESC`: row `a` may stand before row `b` (NULL sorts
first in descending order). -/
def GoalRow.createdDesc (a b : GoalRow) : Prop :=
  nullsLastLe b.created_at a.created_at = true

instance : DecidableRel GoalRow.createdDesc := fun a b => by
  unfold GoalRow.createdDesc; infer_instance

instance : IsTotal GoalRow GoalRow.createdDesc where
  total a b := by
    unfold GoalRow.createdDesc
    rcases ha : a.created_at with _ | x <;> rcases hb : b.created_at with _ | y <;>
      simp [nullsLastLe]
    omega

instance : IsTrans GoalRow GoalRow.createdDesc where
  trans a b c hab hbc := by
    unfold GoalRow.createdDesc at *
    rcases ha : a.created_at with _ | x <;> rcases hb : b.created_at with _ | y <;>
      rcases hc : c.created_at with _ | z <;>
      simp [nullsLastLe, ha, hb, hc] at hab hbc ⊢
    omega

/-- `Goal.findByUserId(userId, options)` with the options status, limit and
offset.  The clauses for
status, limit and offset are added under `if (status)`, `if (limit)` and
`if (offset)`: an empty status and a limit or offset of 0 add none. -/
def Goal.findByUserId (s : Store) (userId : Int) (status : Option String)
    (limit : Option Nat) (offset : Option Nat) : List GoalListItem :=
  let owned := s.goals.filter (fun g => g.user_id == some userId)
  let matching :=
    match status with
    | none => owned
    | some st => if st = "" then owned else owned.filter (fun g => g.status == some st)
  let ordered := matching.insertionSort GoalRow.createdDesc
  let skipped :=
    match offset with
    | none => ordered
    | some n => if n = 0 then ordered else ordered.drop n
  let limited :=
    match limit with
    | none => skipped
    | some n => if n = 0 then skipped else skipped.take n
  limited.map (fun g =>
    { goal := g,
      milestone_count := (s.milestones.filter (fun m => m.goal_id == some g.id)).length,
      completed_milestone_count :=
        (s.milestones.filter
          (fun m => m.goal_id == some g.id && m.completed == some true)).length })

/-- The loop of `Milestone.bulkCreate` from iteration `i` on: each entry is
created with `orderIndex: i`; an error of a create ends the loop, the rows
created before stay. -/
def Milestone.bulkCreateFrom (now : Nat) (goalId : Int) :
    List (String × Option String) → Nat → Store → Except DbError (List MilestoneRow) × Store
  | [], _, s => (.ok [], s)
  | (title, description) :: rest, i, s =>
    match Milestone.create s now goalId title description (some (some (i : Int))) with
    | (.error e, s1) => (.error e, s1)
    | (.ok milestone, s1) =>
      match Milestone.bulkCreateFrom now goalId rest (i + 1) s1 with
      | (.error e, s2) => (.error e, s2)
      | (.ok results, s2) => (.ok (milestone :: results), s2)

/-- `Milestone.bulkCreate`. -/
def Milestone.bulkCreate (s : Store) (now : Nat) (goalId : Int)
    (milestones : List (String × Option String)) :
    Except DbError (List MilestoneRow) × Store :=
  Milestone.bulkCreateFrom now goalId milestones 0 s

/-! ## Validation chains (`routes/goals.js`, `routes/milestones.js`) -/

/-- The characters matched by `\s` in a JavaScript regular expression. -/
def isJsWhitespace (c : Char) : Bool :=
  c.toNat ∈ [0x09, 0x0A, 0x0B, 0x0C, 0x0D, 0x20, 0xA0, 0x1680, 0x2028, 0x2029, 0x202F,
    0x205F, 0x3000, 0xFEFF] || (0x2000 ≤ c.toNat && c.toNat ≤ 0x200A)

/-- The sanitizer `trim()`: whitespace removed at both ends. -/
def jsTrim (value : String) : String :=
  String.mk ((value.data.dropWhile isJsWhitespace).reverse.dropWhile isJsWhitespace).reverse

/-- The closed set of goal statuses in `isIn([...])`. -/
def goalStatuses : List String := ["active", "completed", "paused", "cancelled"]

/-- The findings of `notEmpty()` and `isLength` with `max: 255` on a trimmed
title, with their messages. -/
def titleFindings (title : String) : List String :=
  (if title = "" then ["Title is required"] else []) ++
    (if title.length > 255 then ["Title must be less than 255 characters"] else [])

/-- The finding of `optional()...isLength` with the given `max` on a trimmed
optional field. -/
def lengthFinding (max : Nat) (message : String) (value : Option String) : List String :=
  match value with
  | none => []
  | some v => if v.length > max then [message] else []

/-- The finding of `isIn([...])` on the status, skipped for a missing status
when the chain is `optional()`. -/
def statusFinding (optional : Bool) (status : Option String) : List String :=
  match status with
  | none => if optional then [] else ["Invalid status"]
  | some v => if v ∈ goalStatuses then [] else ["Invalid status"]

/-- The chains of `goalValidation` run on a request: title, description and
category are trimmed, and the findings are added to those already in the
request (those of the route parameter).  `isISO8601` is the library check of the
target date. -/
def goalValidation (isISO8601 : String → Bool) (req : Request) : Request :=
  let title := jsTrim req.title
  let description := req.description.map jsTrim
  let category := req.category.map jsTrim
  { req with
    title := title, description := description, category := category,
    validationErrors := req.validationErrors ++ titleFindings title ++
      lengthFinding 2000 "Description must be less than 2000 characters" description ++
      lengthFinding 100 "Category must be less than 100 characters" category ++
      (match req.targetDate with
        | none => []
        | some d => if isISO8601 d.text then [] else ["Invalid date format"]) ++
      statusFinding true req.status }

/-- The chains of `milestoneValidation` run on a request. -/
def milestoneValidation (req : Request) : Request :=
  let title := jsTrim req.title
  let description := req.description.map jsTrim
  { req with
    title := title, description := description,
    validationErrors := req.validationErrors ++ titleFindings title ++
      lengthFinding 1000 "Description must be less than 1000 characters" description ++
      (match req.orderIndex with
        | none => []
        | some i => if 0 ≤ i then [] else ["Order index must be a positive integer"]) }

/-- The chain `body('status').isIn([...])` of PATCH `/api/goals/:id/status`. -/
def statusValidation (req : Request) : Request :=
  { req with validationErrors := req.validationErrors ++ statusFinding false req.status }

/-- POST `/api/goals`, the handler. -/
def goalsRouter.create (s : Store) (now : Nat) (req : Request) : Outcome :=
  if !req.validationErrors.isEmpty then
    (.error (.api (.ValidationError req.validationErrors)), s)
  else
    match Goal.create s now req.userId req.title req.description req.category
      (req.targetDate.map (fun d => d.text)) with
    | (goal, s1) =>
      if req.milestones.length > 0 then
        match Milestone.bulkCreate s1 now goal.id req.milestones with
        | (.error e, s2) => (.error (.db e), s2)
        | (.ok createdMilestones, s2) =>
          (.ok { status := 201, message := some "Goal created successfully",
                 payload := .goalWithMilestones
                   { goal := goal, milestones := createdMilestones },
                 count := none }, s2)
      else
        (.ok { status := 201, message := some "Goal created successfully",
               payload := .goal goal, count := none }, s1)

/-- A request to one of the goal routes that write, as it arrives (before the
validation chains of the route run). -/
inductive GoalCall where
  | create (now : Nat) (req : Request)
  | update (req : Request)
  | status (req : Request)
  | delete (req : Request)
  deriving DecidableEq, Repr

/-- The route serving a call: its validation chains, then its handler. -/
def GoalCall.serve (isISO8601 : String → Bool) (call : GoalCall) (s : Store) : Outcome :=
  match call with
  | .create now req => goalsRouter.create s now (goalValidation isISO8601 req)
  | .update req => goalsRouter.update s (goalValidation isISO8601 req)
  | .status req => goalsRouter.status s (statusValidation req)
  | .delete req => goalsRouter.delete s req

/-- The store after a sequence of calls to the goal routes. -/
def serveAll (isISO8601 : String → Bool) : List GoalCall → Store → Store
  | [], s => s
  | call :: rest, s => serveAll isISO8601 rest (call.serve isISO8601 s).2

/-- The query of GET `/api/goals` as it arrives, with the findings of its
chains: status in the closed set, limit an integer from 1 to 100, offset an
integer from 0. -/
structure ListRequest where
  validationErrors : List String
  userId : Int
  status : Option String
  limit : Option Int
  offset : Option Int
  deriving DecidableEq, Repr

/-- The chains of GET `/api/goals`. -/
def listValidation (req : ListRequest) : ListRequest :=
  { req with
    validationErrors := req.validationErrors ++
      (match req.status with
        | none => []
        | some v => if v ∈ goalStatuses then [] else ["Invalid value"]) ++
      (match req.limit with
        | none => []
        | some n => if 1 ≤ n ∧ n ≤ 100 then [] else ["Invalid value"]) ++
      (match req.offset with
        | none => []
        | some n => if 0 ≤ n then [] else ["Invalid value"]) }

/-- GET `/api/goals`, the handler: limit and offset are parsed when present. -/
def goalsRouter.index (s : Store) (req : ListRequest) : Outcome :=
  if !req.validationErrors.isEmpty then
    (.error (.api (.ValidationError req.validationErrors)), s)
  else
    let goals := Goal.findByUserId s req.userId req.status
      (req.limit.map Int.toNat) (req.offset.map Int.toNat)
    (.ok { status := 200, message := none, payload := .goals goals,
           count := some goals.length }, s)

/-! ## The error handler (`middleware/errorHandler.js`) -/

/-- An `Error` object that is not an `ApiError`: its `name`, its `message` and
its `code` when it has one (store errors carry their SQLSTATE there). -/
structure JsError where
  name : String
  message : String
  code : Option String
  deriving DecidableEq, Repr

/-- A value passed to `next` or thrown in a handler. -/
inductive Thrown where
  | api (e : ApiError)
  | error (e : JsError)
  deriving DecidableEq, Repr

/-- The JSON body of an error response.  The key `details` is written for an
`ApiError` only (`some none` is the JSON value null). -/
structure ErrorBody where
  error : String
  message : String
  details : Option (Option (List String))
  deriving DecidableEq, Repr

/-- An error response: `res.status(status).json(body)`. -/
structure ErrorResponse where
  status : Nat
  body : ErrorBody
  deriving DecidableEq, Repr

/-- `errorHandler`, as a function of `process.env.NODE_ENV` and the error. -/
def errorHandler (nodeEnv : Option String) (err : Thrown) : ErrorResponse :=
  match err with
  | .api e =>
    { status := e.statusCode,
      body := { error := if e.name = "" then "Error" else e.name,
                message := e.message, details := some e.details } }
  | .error e =>
    if e.code = some "23505" then
      { status := 409,
        body := { error := "Conflict",
                  message := "A resource with this identifier already exists",
                  details := none } }
    else if e.code = some "23503" then
      { status := 400,
        body := { error := "Bad Request", message := "Referenced resource does not exist",
                  details := none } }
    else if e.code = some "22P02" then
      { status := 400,
        body := { error := "Bad Request", message := "Invalid input format", details := none } }
    else if e.name = "JsonWebTokenError" then
      { status := 401,
        body := { error := "Unauthorized", message := "Invalid token", details := none } }
    else if e.name = "TokenExpiredError" then
      { status := 401,
        body := { error := "Unauthorized", message := "Token expired", details := none } }
    else
      { status := 500,
        body := { error := "Internal Server Error",
                  message := if nodeEnv = some "development" then e.message
                             else "An unexpected error occurred",
                  details := none } }

/-- An error the handler does not classify: not an `ApiError`, no recognised
store code, not a JWT error. -/
def JsError.unclassified (e : JsError) : Prop :=
  e.code ≠ some "23505" ∧ e.code ≠ some "23503" ∧ e.code ≠ some "22P02" ∧
    e.name ≠ "JsonWebTokenError" ∧ e.name ≠ "TokenExpiredError"

instance (e : JsError) : Decidable e.unclassified := by
  unfold JsError.unclassified; infer_instance

/-! ## Authentication middleware (`middleware/auth.js`) -/

/-- The decoded payload of a token issued by `generateToken`. -/
structure TokenPayload where
  id : Int
  email : String
  name : Option String
  iat : Nat
  exp : Nat
  deriving DecidableEq, Repr

/-- What `jwt.verify(token, process.env.JWT_SECRET)` does with a token: it
returns the decoded payload or throws. -/
abbrev Verifier := String → Except JsError TokenPayload

/-- What a middleware leaves behind: `req.user` and the arguments of its calls
to `next`, in order (`none` for a call without argument). -/
structure MiddlewareOutcome where
  user : Option TokenPayload
  nextCalls : List (Option Thrown)
  deriving DecidableEq, Repr

/-- The token of an Authorization header:
`authHeader.startsWith('Bearer ') ? authHeader.slice(7) : authHeader`. -/
def bearerToken (authHeader : String) : String :=
  if "Bearer ".data.isPrefixOf authHeader.data then authHeader.drop 7 else authHeader

/-- `authenticate`, as a function of the verifier and the Authorization header
(`none` when the request has none). -/
def authenticate (verify : Verifier) (authorization : Option String) : MiddlewareOutcome :=
  match authorization with
  | none =>
    { user := none,
      nextCalls := [some (.api (.UnauthorizedError "No authorization header provided"))] }
  | some authHeader =>
    if authHeader = "" then
      { user := none,
        nextCalls := [some (.api (.UnauthorizedError "No authorization header provided"))] }
    else if bearerToken authHeader = "" then
      { user := none, nextCalls := [some (.api (.UnauthorizedError "No token provided"))] }
    else
      match verify (bearerToken authHeader) with
      | .ok decoded => { user := some decoded, nextCalls := [none] }
      | .error error =>
        if error.name = "JsonWebTokenError" ∨ error.name = "TokenExpiredError" then
          { user := none,
            nextCalls := [some (.api (.UnauthorizedError "Invalid or expired token"))] }
        else
          { user := none, nextCalls := [some (.error error)] }

/-- `optionalAuth`, as a function of the verifier and the Authorization header. -/
def optionalAuth (verify : Verifier) (authorization : Option String) : MiddlewareOutcome :=
  match authorization with
  | none => { user := none, nextCalls := [none] }
  | some authHeader =>
    if authHeader = "" then { user := none, nextCalls := [none] }
    else if bearerToken authHeader = "" then { user := none, nextCalls := [none] }
    else
      match verify (bearerToken authHeader) with
      | .ok decoded => { user := some decoded, nextCalls := [none] }
      | .error _ => { user := none, nextCalls := [none] }

/-! ## `models/User.js` -/

/-- The columns listed by the statements of `models/User.js`:
`id, google_id, email, name, avatar_url, created_at`. -/
structure UserView where
  id : Int
  google_id : String
  email : String
  name : Option String
  avatar_url : Option String
  created_at : Option Nat
  deriving DecidableEq, Repr

/-- The listed columns of a row of `users`. -/
def UserRow.view (u : UserRow) : UserView :=
  { id := u.id, google_id := u.google_id, email := u.email, name := u.name,
    avatar_url := u.avatar_url, created_at := u.created_at }

/-- PRIMARY KEY of `users`: no two rows share an id. -/
def Store.userKey (s : Store) : Prop :=
  (s.users.map (fun u => u.id)).Nodup

instance (s : Store) : Decidable s.userKey := by
  unfold Store.userKey; infer_instance

/-- `User.findByGoogleId`: `SELECT ... FROM users WHERE google_id = $1`, then
`rows[0] || null`. -/
def User.findByGoogleId (s : Store) (googleId : String) : Option UserView :=
  ((s.users.filter (fun u => u.google_id == googleId)).map UserRow.view).head?

/-- `User.create`: the INSERT takes the next id of the sequence; `created_at`
and `updated_at` default to the current timestamp. -/
def User.create (s : Store) (now : Nat) (googleId : String) (email : String)
    (name : Option String) (avatarUrl : Option String) : UserView × Store :=
  let row : UserRow :=
    { id := s.users_id_seq + 1, google_id := googleId, email := email, name := name,
      avatar_url := avatarUrl, created_at := some now, updated_at := some now }
  (row.view, { s with users := s.users ++ [row], users_id_seq := s.users_id_seq + 1 })

/-- `User.update`: `SET name = COALESCE($2, name), avatar_url = COALESCE($3, avatar_url)
WHERE id = $1`. -/
def User.update (s : Store) (id : Int) (name : Option String) (avatarUrl : Option String) :
    Option UserView × Store :=
  let p := fun (u : UserRow) => u.id == id
  let f := fun (u : UserRow) =>
    { u with name := coalesce name u.name, avatar_url := coalesce avatarUrl u.avatar_url }
  (((sqlReturning s.users p f).map UserRow.view).head?,
   { s with users := sqlUpdate s.users p f })

/-- `User.findOrCreate`: update the user found by the Google id, or create one. -/
def User.findOrCreate (s : Store) (now : Nat) (googleId : String) (email : String)
    (name : Option String) (avatarUrl : Option String) : Option UserView × Store :=
  match User.findByGoogleId s googleId with
  | some user => User.update s user.id name avatarUrl
  | none =>
    match User.create s now googleId email name avatarUrl with
    | (user, s') => (some user, s')

/-! ## Saved courses (`routes/courses.js`) -/

/-- What the save route reads from the request: the findings of its chain, the
acting user and the route parameter. -/
structure CourseRequest where
  validationErrors : List String
  userId : Int
  id : String
  deriving DecidableEq, Repr

/-- POST `/api/courses/:id/save` over the catalog `mockCourses`.  The INSERT is
`ON CONFLICT (user_id, external_id) DO NOTHING`; the sequence of the id column
advances whether or not the row is inserted. -/
def coursesRouter.save (catalog : List Course) (s : Store) (now : Nat)
    (req : CourseRequest) : Outcome :=
  if !req.validationErrors.isEmpty then
    (.error (.api (.ValidationError req.validationErrors)), s)
  else
    match catalog.find? (fun c => c.id == req.id) with
    | none => (.error (.api (.base 404 "Course not found" none)), s)
    | some course =>
      let conflict := s.saved_courses.any
        (fun c => c.user_id == some req.userId && c.external_id == course.id)
      let row : SavedCourseRow :=
        { id := s.saved_courses_id_seq + 1, user_id := some req.userId,
          external_id := course.id, title := course.title, provider := course.provider,
          url := course.url, thumbnail_url := course.thumbnailUrl, goal_id := none,
          created_at := some now }
      let rows := if conflict then s.saved_courses else s.saved_courses ++ [row]
      (.ok { status := 200, message := some "Course saved successfully",
             payload := .course course, count := none },
       { s with saved_courses := rows, saved_courses_id_seq := s.saved_courses_id_seq + 1 })

/-- The same save request sent once at each of the given times: the responses
and the store left. -/
def coursesRouter.saveTimes (catalog : List Course) (req : CourseRequest) :
    List Nat → Store → List (Except Failure Response) × Store
  | [], s => ([], s)
  | now :: rest, s =>
    match coursesRouter.save catalog s now req with
    | (response, s1) =>
      match coursesRouter.saveTimes catalog req rest s1 with
      | (responses, s2) => (response :: responses, s2)

/-- UNIQUE(user_id, external_id) of `saved_courses`: no two rows share a user
(other than NULL) and an external id. -/
def Store.savedCourseKey (s : Store) : Prop :=
  s.saved_courses.Pairwise
    (fun a b => ¬ (a.user_id ≠ none ∧ a.user_id = b.user_id ∧ a.external_id = b.external_id))

instance (s : Store) : Decidable s.savedCourseKey := by
  unfold Store.savedCourseKey; infer_instance

/-! ## Sequences of repository calls -/

/-- A call to a function of `models/Goal.js` or `models/Milestone.js` that
writes, with its arguments. -/
inductive ModelOp where
  | goalCreate (now : Nat) (userId : Int) (title : String) (description : Option String)
      (category : Option String) (targetDate : Option String)
  | goalUpdate (id : Int) (title : Option String) (description : Option String)
      (category : Option String) (targetDate : Option DateParam) (status : Option String)
  | goalDelete (id : Int)
  | milestoneCreate (now : Nat) (goalId : Int) (title : String) (description : Option String)
      (orderIndex : Option (Option Int))
  | milestoneUpdate (id : Int) (title : Option String) (description : Option String)
      (orderIndex : Option Int)
  | milestoneComplete (now : Nat) (id : Int)
  | milestoneUncomplete (id : Int)
  | milestoneToggle (now : Nat) (id : Int)
  | milestoneDelete (id : Int)
  | milestoneReorder (fault : Option Fault) (goalId : Int) (milestoneIds : List Int)
  deriving DecidableEq, Repr

/-- The store after a call. -/
def ModelOp.apply (op : ModelOp) (s : Store) : Store :=
  match op with
  | .goalCreate now userId title description category targetDate =>
    (Goal.create s now userId title description category targetDate).2
  | .goalUpdate id title description category targetDate status =>
    (Goal.update s id title description category targetDate status).2
  | .goalDelete id => (Goal.delete s id).2
  | .milestoneCreate now goalId title description orderIndex =>
    (Milestone.create s now goalId title description orderIndex).2
  | .milestoneUpdate id title description orderIndex =>
    (Milestone.update s id title description orderIndex).2
  | .milestoneComplete now id => (Milestone.complete s now id).2
  | .milestoneUncomplete id => (Milestone.uncomplete s id).2
  | .milestoneToggle now id => (Milestone.toggleComplete s now id).2
  | .milestoneDelete id => (Milestone.delete s id).2
  | .milestoneReorder fault goalId milestoneIds =>
    (Milestone.reorder s fault goalId milestoneIds).2

/-- The store after a sequence of calls. -/
def runOps : List ModelOp → Store → Store
  | [], s => s
  | op :: rest, s => runOps rest (op.apply s)

/-- Every milestone has `completed_at` set exactly when `completed` is true. -/
def Store.completionConsistent (s : Store) : Prop :=
  ∀ m ∈ s.milestones, (m.completed_at ≠ none ↔ m.completed = some true)

instance (s : Store) : Decidable s.completionConsistent := by
  unfold Store.completionConsistent; infer_instance

/-- Every goal has progress 0. -/
def Store.progressZero (s : Store) : Prop :=
  ∀ g ∈ s.goals, g.progress = some 0

instance (s : Store) : Decidable s.progressZero := by
  unfold Store.progressZero; infer_instance

/-- A status column holds a status of the closed set. -/
def statusInSet (status : Option String) : Bool :=
  match status with
  | some v => decide (v ∈ goalStatuses)
  | none => false

/-- A progress column holds an integer from 0 to 100. -/
def progressInRange (progress : Option Int) : Bool :=
  match progress with
  | some p => decide (0 ≤ p ∧ p ≤ 100)
  | none => false

/-- Every goal has a status of the closed set and a progress from 0 to 100. -/
def Store.goalsInRange (s : Store) : Prop :=
  ∀ g ∈ s.goals, statusInSet g.status = true ∧ progressInRange g.progress = true

instance (s : Store) : Decidable s.goalsInRange := by
  unfold Store.goalsInRange; infer_instance

/-! ## Frontend: route guard (`frontend/src/App.jsx`) -/

/-- The user object held by the auth context. -/
structure ClientUser where
  id : Int
  email : String
  name : Option String
  avatarUrl : Option String
  deriving DecidableEq, Repr

/-- The pages of the application. -/
inductive Page where
  | landing
  | dashboard
  | goals
  | createGoal
  | goalDetail
  | courses
  | profile
  deriving DecidableEq, Repr

/-- What a route element renders: the loading spinner, a `Navigate` to a
path, a page on its own, or a page inside `Layout`. -/
inductive View where
  | spinner
  | navigate (path : String)
  | page (p : Page)
  | layout (p : Page)
  deriving DecidableEq, Repr

/-- `ProtectedRoute`, for the user and the loading flag of `useAuth()`. -/
def ProtectedRoute (user : Option ClientUser) (loading : Bool) (children : View) : View :=
  if loading then View.spinner
  else if user.isNone then View.navigate "/"
  else children

/-- `PublicRoute`. -/
def PublicRoute (user : Option ClientUser) (loading : Bool) (children : View) : View :=
  if loading then View.spinner
  else if user.isSome then View.navigate "/dashboard"
  else children

/-- The route patterns of `App`, and `unmatched` for a path that matches none. -/
inductive Location where
  | root
  | dashboard
  | goals
  | goalsNew
  | goalsId (id : String)
  | courses
  | profile
  | unmatched (path : String)
  deriving DecidableEq, Repr

/-- The routes nested under the `ProtectedRoute` element, with their pages. -/
def Location.protectedPage : Location → Option Page
  | .dashboard => some Page.dashboard
  | .goals => some Page.goals
  | .goalsNew => some Page.createGoal
  | .goalsId _ => some Page.goalDetail
  | .courses => some Page.courses
  | .profile => some Page.profile
  | _ => none

/-- `App`: what is rendered at a location. -/
def App (user : Option ClientUser) (loading : Bool) (location : Location) : View :=
  match location with
  | .root => PublicRoute user loading (View.page Page.landing)
  | .unmatched _ => View.navigate "/"
  | .dashboard => ProtectedRoute user loading (View.layout Page.dashboard)
  | .goals => ProtectedRoute user loading (View.layout Page.goals)
  | .goalsNew => ProtectedRoute user loading (View.layout Page.createGoal)
  | .goalsId _ => ProtectedRoute user loading (View.layout Page.goalDetail)
  | .courses => ProtectedRoute user loading (View.layout Page.courses)
  | .profile => ProtectedRoute user loading (View.layout Page.profile)

/-! ## Frontend: the create-goal wizard (`frontend/src/pages/CreateGoal.jsx`) -/

/-- A milestone of the form. -/
structure DraftMilestone where
  id : Nat
  title : String
  description : String
  deriving DecidableEq, Repr

/-- The scalar fields `updateField` is called with. -/
inductive FormField where
  | title
  | description
  | category
  | targetDate
  deriving DecidableEq, Repr

/-- The milestone fields UPDATE_MILESTONE is dispatched with. -/
inductive DraftField where
  | title
  | description
  deriving DecidableEq, Repr

/-- The key `formData` of the form state. -/
structure FormData where
  title : String
  description : String
  category : String
  targetDate : String
  milestones : List DraftMilestone
  deriving DecidableEq, Repr

/-- The state of the wizard.  `errors` is an object from keys to messages
or null. -/
structure FormState where
  currentStep : Int
  totalSteps : Int
  formData : FormData
  errors : List (String × Option String)
  isSubmitting : Bool
  deriving DecidableEq, Repr

/-- The constant `initialState`. -/
def initialState : FormState :=
  { currentStep := 1, totalSteps := 3,
    formData := { title := "", description := "", category := "", targetDate := "",
                  milestones := [] },
    errors := [], isSubmitting := false }

/-- The actions of `ACTIONS` with their payloads (`Date.now()` is carried by
ADD_MILESTONE), and `unknown` for any other action type. -/
inductive FormAction where
  | NEXT_STEP
  | PREV_STEP
  | UPDATE_FIELD (field : FormField) (value : String)
  | ADD_MILESTONE (now : Nat)
  | REMOVE_MILESTONE (payload : Nat)
  | UPDATE_MILESTONE (id : Nat) (field : DraftField) (value : String)
  | SET_ERRORS (payload : List (String × Option String))
  | CLEAR_ERRORS
  | SET_SUBMITTING (payload : Bool)
  | RESET
  | unknown (kind : String)
  deriving DecidableEq, Repr

/-- The key of a scalar field in `formData` and `errors`. -/
def FormField.key : FormField → String
  | .title => "title"
  | .description => "description"
  | .category => "category"
  | .targetDate => "targetDate"

/-- An object with one key set: the value of an existing key is replaced, a
new key is added at the end. -/
def setKey (object : List (String × Option String)) (key : String) (value : Option String) :
    List (String × Option String) :=
  if object.any (fun entry => entry.1 == key) then
    object.map (fun entry => if entry.1 == key then (key, value) else entry)
  else object ++ [(key, value)]

/-- `formData` with one scalar field set. -/
def FormData.set (formData : FormData) (field : FormField) (value : String) : FormData :=
  match field with
  | .title => { formData with title := value }
  | .description => { formData with description := value }
  | .category => { formData with category := value }
  | .targetDate => { formData with targetDate := value }

/-- A milestone of the form with one field set. -/
def DraftMilestone.set (m : DraftMilestone) (field : DraftField) (value : String) :
    DraftMilestone :=
  match field with
  | .title => { m with title := value }
  | .description => { m with description := value }

/-- `formReducer`. -/
def formReducer (state : FormState) (action : FormAction) : FormState :=
  match action with
  | .NEXT_STEP => { state with currentStep := min (state.currentStep + 1) state.totalSteps }
  | .PREV_STEP => { state with currentStep := max (state.currentStep - 1) 1 }
  | .UPDATE_FIELD field value =>
    { state with formData := state.formData.set field value,
                 errors := setKey state.errors field.key none }
  | .ADD_MILESTONE now =>
    let added := state.formData.milestones ++ [{ id := now, title := "", description := "" }]
    { state with formData := { state.formData with milestones := added } }
  | .REMOVE_MILESTONE payload =>
    let kept := state.formData.milestones.filter (fun m => m.id != payload)
    { state with formData := { state.formData with milestones := kept } }
  | .UPDATE_MILESTONE id field value =>
    let updated := state.formData.milestones.map
      (fun m => if m.id = id then m.set field value else m)
    { state with formData := { state.formData with milestones := updated } }
  | .SET_ERRORS payload => { state with errors := payload }
  | .CLEAR_ERRORS => { state with errors := [] }
  | .SET_SUBMITTING payload => { state with isSubmitting := payload }
  | .RESET => initialState
  | .unknown _ => state

/-- The property `length` of a JavaScript string: its number of UTF-16 code
units. -/
def jsLength (value : String) : Nat :=
  (value.data.map (fun c => if c.toNat < 0x10000 then 1 else 2)).sum

/-- The finding of `validateStep(1)` on the title of the form, if any. -/
def validateStepTitle (title : String) : Option String :=
  if jsTrim title = "" then some "Goal title is required"
  else if jsLength title > 255 then some "Title must be less than 255 characters"
  else none

/-- `validateStep`: the object `newErrors` for a step. -/
def validateStep (step : Int) (formData : FormData) : List (String × Option String) :=
  (if step = 1 then
    match validateStepTitle formData.title with
    | some message => [("title", some message)]
    | none => []
  else []) ++
  (if step = 2 then
    (formData.milestones.filter (fun m => jsTrim m.title == "")).map
      (fun m => ("milestone_" ++ toString m.id, some "Milestone title is required"))
  else [])

/-! ## Example data -/

/-- A milestone row with the given id, goal, order index and creation time. -/
def exampleMilestone (id : Int) (goal : Option Int) (index : Option Int) (created : Nat) :
    MilestoneRow :=
  { id := id, goal_id := goal, title := "step", description := none,
    completed := some false, completed_at := none, order_index := index,
    created_at := some created, updated_at := some created }

/-- A goal row with the given id and owner. -/
def exampleGoal (id : Int) (owner : Int) : GoalRow :=
  { id := id, user_id := some owner, title := "goal", description := none, category := none,
    target_date := none, status := some "active", progress := some 0, created_at := some 0,
    updated_at := some 0 }

/-- Users 1 and 2; goal 1 of user 1 with milestones A = 1, B = 2, C = 3 at
indices 0, 1, 2; goal 2 of user 2 with milestone X = 4 at index 5. -/
def exampleStore : Store :=
  { users := [
      { id := 1, google_id := "g-1", email := "u1@example.org", name := none,
        avatar_url := none, created_at := some 0, updated_at := some 0 },
      { id := 2, google_id := "g-2", email := "u2@example.org", name := none,
        avatar_url := none, created_at := some 0, updated_at := some 0 }],
    goals := [exampleGoal 1 1, exampleGoal 2 2],
    milestones := [exampleMilestone 1 (some 1) (some 0) 10,
                   exampleMilestone 2 (some 1) (some 1) 11,
                   exampleMilestone 3 (some 1) (some 2) 12,
                   exampleMilestone 4 (some 2) (some 5) 13],
    saved_courses := [],
    users_id_seq := 2, goals_id_seq := 2, milestones_id_seq := 4, saved_courses_id_seq := 0 }

/-- A request of `user` for route parameter `id` that passed validation. -/
def exampleRequest (user : Int) (id : Int) : Request :=
  { validationErrors := [], userId := user, id := id, title := "renamed", description := none,
    orderIndex := none, category := none, targetDate := none, status := some "paused",
    milestoneIds := [3, 1, 2] }

/-- The order indices of a milestone table, by id. -/
def indexById (rows : List MilestoneRow) : List (Int × Option Int) :=
  rows.map (fun m => (m.id, m.order_index))

/-! ## Proof devices -/

/-- What the loop of `Milestone.reorder`, started at iteration `i`, does to a
single row. -/
def reorderRow (goalId : Int) : List Int → Nat → MilestoneRow → MilestoneRow
  | [], _, m => m
  | milestoneId :: rest, i, m =>
    reorderRow goalId rest (i + 1)
      (if m.id == milestoneId && m.goal_id == some goalId then
        { m with order_index := some (i : Int) } else m)

/-- The goal a request is aimed at: the goal named by the route parameter, or
the goal of the milestone named by it. -/
def Route.targetsGoal (r : Route) (s : Store) (req : Request) (g : Int) : Prop :=
  if r.byGoalId = true then req.id = g
  else ∃ m ∈ s.milestones, m.id = req.id ∧ m.goal_id = some g

/-- The example store with one more milestone, 5, whose goal reference is unset. -/
def exampleOrphan : Store :=
  { exampleStore with
      milestones := exampleStore.milestones ++ [exampleMilestone 5 none (some 0) 14],
      milestones_id_seq := 5 }

/-- The example store after `Milestone.create` for goal 1 with the order index
2147483647, the greatest INTEGER. -/
def exampleTop : Store :=
  { exampleStore with
      milestones := exampleStore.milestones ++ [
        { id := 5, goal_id := some 1, title := "top", description := none,
          completed := some false, completed_at := none, order_index := some 2147483647,
          created_at := some 14, updated_at := some 14 }],
      milestones_id_seq := 5 }

/-- A fault plan rejecting the second UPDATE with a query-cancelled error. -/
def exampleFault : Fault :=
  { update := 1, error := { code := "57014" } }

/-- Goal 1 of user 1 with milestones 1, 2, 3 created in that order and carrying
the order indices 2, 0, 1. -/
def exampleShuffled : Store :=
  { exampleStore with
      milestones := [exampleMilestone 1 (some 1) (some 2) 10,
                     exampleMilestone 2 (some 1) (some 0) 11,
                     exampleMilestone 3 (some 1) (some 1) 12] }

/-- A COALESCE column: it takes the supplied value when that is non-null and
keeps its value when the parameter is null. -/
def keepsOrSets {α : Type} (param : Option α) (before after : Option α) : Prop :=
  (∀ v, param = some v → after = some v) ∧ (param = none → after = before)

/-- The rows selected by the WHERE clause of `Goal.findByUserId`. -/
def Goal.listMatching (s : Store) (userId : Int) (status : Option String) : List GoalRow :=
  match status with
  | none => s.goals.filter (fun g => g.user_id == some userId)
  | some st =>
    if st = "" then s.goals.filter (fun g => g.user_id == some userId)
    else (s.goals.filter (fun g => g.user_id == some userId)).filter
      (fun g => g.status == some st)

/-- The OFFSET clause as `Goal.findByUserId` adds it. -/
def offsetClause {α : Type} (offset : Option Nat) (rows : List α) : List α :=
  match offset with
  | none => rows
  | some n => if n = 0 then rows else rows.drop n

/-- The LIMIT clause as `Goal.findByUserId` adds it. -/
def limitClause {α : Type} (limit : Option Nat) (rows : List α) : List α :=
  match limit with
  | none => rows
  | some n => if n = 0 then rows else rows.take n

/-- The selected columns of `Goal.findByUserId` for one goal row. -/
def Goal.listItem (s : Store) (g : GoalRow) : GoalListItem :=
  { goal := g,
    milestone_count := (s.milestones.filter (fun m => m.goal_id == some g.id)).length,
    completed_milestone_count :=
      (s.milestones.filter
        (fun m => m.goal_id == some g.id && m.completed == some true)).length }

/-- A valid listing request of `user`. -/
def exampleList (user : Int) (status : Option String) (limit offset : Option Int) :
    ListRequest :=
  { validationErrors := [], userId := user, status := status, limit := limit,
    offset := offset }

/-- The saved rows of user `u` for the course `cid`. -/
def Store.savedFor (s : Store) (u : Int) (cid : String) : List SavedCourseRow :=
  s.saved_courses.filter (fun c => c.user_id == some u && c.external_id == cid)

/-- The response of a successful save of `course`. -/
def savedResponse (course : Course) : Except Failure Response :=
  .ok { status := 200, message := some "Course saved successfully",
        payload := .course course, count := none }

/-- A store in which user 2 has saved the course c-1. -/
def exampleSavedStore : Store :=
  { exampleStore with
    saved_courses := [
      { id := 1, user_id := some 2, external_id := "c-1", title := "Lean for programmers",
        provider := some "Example U", url := some "https://example.org/c-1",
        thumbnail_url := none, goal_id := none, created_at := some 5 }],
    saved_courses_id_seq := 1 }

/-- A catalog of two courses. -/
def exampleCatalog : List Course :=
  [{ id := "c-1", title := "Lean for programmers", provider := some "Example U",
     url := some "https://example.org/c-1", thumbnailUrl := none },
   { id := "c-2", title := "Databases", provider := none, url := none, thumbnailUrl := none }]

/-- A valid save request of `user` for the course `id`. -/
def exampleSave (user : Int) (id : String) : CourseRequest :=
  { validationErrors := [], userId := user, id := id }

/-- A title of 255 characters. -/
def title255 : String := String.mk (List.replicate 255 'a')

/-- A title of 256 characters. -/
def title256 : String := String.mk (List.replicate 256 'a')

/-- UNIQUE constraint on `users.google_id`. -/
def Store.userGoogleKey (s : Store) : Prop :=
  (s.users.map (fun u => u.google_id)).Nodup

instance (s : Store) : Decidable s.userGoogleKey := by
  unfold Store.userGoogleKey; infer_instance

/-- The example store with a name and an avatar on user 1. -/
def exampleNamed : Store :=
  { exampleStore with
      users := [
        { id := 1, google_id := "g-1", email := "u1@example.org", name := some "Ann",
          avatar_url := some "https://example.org/ann.png", created_at := some 0,
          updated_at := some 0 },
        { id := 2, google_id := "g-2", email := "u2@example.org", name := none,
          avatar_url := none, created_at := some 0, updated_at := some 0 }] }

/-- A saved course row of `user` with the given id, course and goal reference. -/
def exampleCourse (id : Int) (user : Int) (externalId : String) (goal : Option Int) :
    SavedCourseRow :=
  { id := id, user_id := some user, external_id := externalId, title := "course",
    provider := none, url := none, thumbnail_url := none, goal_id := goal,
    created_at := some 15 }

/-- The example store with three saved courses: one attached to goal 1, one to
goal 2, one to no goal. -/
def exampleSaved : Store :=
  { exampleStore with
      saved_courses := [exampleCourse 1 1 "c-1" (some 1), exampleCourse 2 2 "c-2" (some 2),
                        exampleCourse 3 1 "c-3" none],
      saved_courses_id_seq := 3 }

/-- The payload of a token of user 1. -/
def examplePayload : TokenPayload :=
  { id := 1, email := "u1@example.org", name := none, iat := 100, exp := 200 }

/-- A verifier that accepts the token `valid`, finds `expired` expired and
every other token malformed. -/
def exampleVerify : Verifier := fun token =>
  if token = "valid" then .ok examplePayload
  else if token = "expired" then
    .error { name := "TokenExpiredError", message := "jwt expired", code := none }
  else .error { name := "JsonWebTokenError", message := "jwt malformed", code := none }

/-! ## Lemmas on the reorder loop -/

theorem setOrderIndex_milestones (s : Store) (i : Nat) (x G : Int) :
    (Milestone.setOrderIndex s i x G).milestones
      = s.milestones.map (fun m => if m.id == x && m.goal_id == some G then
          { m with order_index := some (i : Int) } else m) := rfl

theorem int4_natCast (i : Nat) (h : i < 2147483648) : int4 (i : Int) = true := by
  unfold int4
  rw [decide_eq_true_eq]
  omega

theorem integerError_eq_none (n : Int) (h : int4 n = true) : integerError n = none := by
  simp [integerError, h]

theorem integerError_of_not (n : Int) (h : int4 n = false) :
    integerError n = some DbError.outOfRange := by
  simp [integerError, h]

theorem firstError_integer (i : Nat) (x G : Int) (hi : i < 2147483648) (hx : int4 x = true)
    (hG : int4 G = true) :
    firstError [integerError (i : Int), integerError x, integerError G] = none := by
  simp [firstError, integerError, int4_natCast i hi, hx, hG]

theorem reorderLoop_ok (G : Int) (fault : Option Fault) (ids : List Int)
    (hG : int4 G = true) :
    ∀ (i : Nat) (s : Store),
      (∀ f, fault = some f → f.update < i ∨ i + ids.length ≤ f.update) →
      (∀ x ∈ ids, int4 x = true) → i + ids.length ≤ 2147483648 →
      Milestone.reorderLoop G fault ids i s
        = (.ok (), { s with milestones := s.milestones.map (reorderRow G ids i) }) := by
  induction ids with
  | nil => intro i s _ _ _; simp [Milestone.reorderLoop, reorderRow]
  | cons x rest ih =>
    intro i s h hids hlen
    have hnone : fault.filter (fun f => f.update == i) = none := by
      cases fault with
      | none => rfl
      | some f =>
        have := h f rfl
        simp only [List.length_cons] at this
        have hne : f.update ≠ i := by omega
        simp [Option.filter, hne]
    simp only [List.length_cons] at hlen
    have hfirst := firstError_integer i x G (by omega) (hids x (by simp)) hG
    rw [Milestone.reorderLoop, hnone]
    simp only [hfirst]
    rw [ih (i + 1) _ (by
      intro f hf
      have := h f hf
      simp only [List.length_cons] at this
      omega) (fun y hy => hids y (List.mem_cons_of_mem _ hy)) (by omega)]
    simp [Milestone.setOrderIndex, sqlUpdate, reorderRow, List.map_map, Function.comp_def]

theorem reorderLoop_fault (G : Int) (f : Fault) (ids : List Int) (hG : int4 G = true) :
    ∀ (i : Nat) (s : Store), i ≤ f.update → f.update < i + ids.length →
      (∀ x ∈ ids, int4 x = true) → i + ids.length ≤ 2147483648 →
      Milestone.reorderLoop G (some f) ids i s
        = (.error f.error,
           { s with milestones := s.milestones.map (reorderRow G (ids.take (f.update - i)) i) }) := by
  induction ids with
  | nil => intro i s h1 h2; simp at h2; omega
  | cons x rest ih =>
    intro i s h1 h2 hids hlen
    by_cases hi : f.update = i
    · rw [Milestone.reorderLoop]
      simp [Option.filter, hi, reorderRow]
    · have hnone : (some f).filter (fun f => f.update == i) = none := by
        simp [Option.filter, hi]
      simp only [List.length_cons] at h2 hlen
      have hfirst := firstError_integer i x G (by omega) (hids x (by simp)) hG
      rw [Milestone.reorderLoop, hnone]
      simp only [hfirst]
      rw [ih (i + 1) _ (by omega) (by omega) (fun y hy => hids y (List.mem_cons_of_mem _ hy))
        (by omega)]
      have hk : f.update - i = (f.update - (i + 1)) + 1 := by omega
      rw [hk, List.take_succ_cons]
      simp [Milestone.setOrderIndex, sqlUpdate, reorderRow, List.map_map, Function.comp_def]

/-- Whatever the fault plan and the ids, the loop runs the UPDATEs of a prefix
of the ids, the same prefix and the same result on every store. -/
theorem reorderLoop_spec (G : Int) (fault : Option Fault) (ids : List Int) :
    ∀ i : Nat, ∃ (k : Nat) (r : Except DbError Unit),
      k ≤ ids.length ∧ (r = .ok () → k = ids.length) ∧
      ∀ s : Store, Milestone.reorderLoop G fault ids i s
        = (r, { s with milestones := s.milestones.map (reorderRow G (ids.take k) i) }) := by
  induction ids with
  | nil =>
    intro i
    exact ⟨0, .ok (), Nat.le_refl _, fun _ => rfl,
      fun s => by simp [Milestone.reorderLoop, reorderRow]⟩
  | cons x rest ih =>
    intro i
    cases hf : fault.filter (fun f => f.update == i) with
    | some f =>
      refine ⟨0, .error f.error, Nat.zero_le _, fun h => (by cases h), fun s => ?_⟩
      rw [Milestone.reorderLoop, hf]
      simp [reorderRow]
    | none =>
      cases hr : firstError [integerError (i : Int), integerError x, integerError G] with
      | some e =>
        refine ⟨0, .error e, Nat.zero_le _, fun h => (by cases h), fun s => ?_⟩
        rw [Milestone.reorderLoop, hf]
        simp only [hr]
        simp [reorderRow]
      | none =>
        obtain ⟨k, r, hk, hok, hs⟩ := ih (i + 1)
        refine ⟨k + 1, r, by simpa using hk, fun h => by simp [hok h], fun s => ?_⟩
        rw [Milestone.reorderLoop, hf]
        simp only [hr]
        rw [hs, List.take_succ_cons]
        simp [Milestone.setOrderIndex, sqlUpdate, reorderRow, List.map_map, Function.comp_def]

theorem reorderRow_step (G : Int) (x : Int) (i : Nat) (m : MilestoneRow) :
    (if m.id == x && m.goal_id == some G then
        ({ m with order_index := some (i : Int) } : MilestoneRow) else m).id = m.id ∧
    (if m.id == x && m.goal_id == some G then
        ({ m with order_index := some (i : Int) } : MilestoneRow) else m).goal_id = m.goal_id := by
  split <;> simp

theorem reorderRow_frame (G : Int) (ids : List Int) :
    ∀ (i : Nat) (m : MilestoneRow),
      reorderRow G ids i m = { m with order_index := (reorderRow G ids i m).order_index } := by
  induction ids with
  | nil => intro i m; rfl
  | cons x rest ih =>
    intro i m
    rw [reorderRow]
    by_cases h : (m.id == x && m.goal_id == some G) = true
    · rw [if_pos h]
      conv => lhs; rw [ih]
    · rw [if_neg h]
      exact ih (i + 1) m

theorem reorderRow_id (G : Int) (ids : List Int) (i : Nat) (m : MilestoneRow) :
    (reorderRow G ids i m).id = m.id := by
  rw [reorderRow_frame]

theorem reorderRow_goal_id (G : Int) (ids : List Int) (i : Nat) (m : MilestoneRow) :
    (reorderRow G ids i m).goal_id = m.goal_id := by
  rw [reorderRow_frame]

theorem reorderRow_foreign (G : Int) (ids : List Int) :
    ∀ (i : Nat) (m : MilestoneRow), m.goal_id ≠ some G → reorderRow G ids i m = m := by
  induction ids with
  | nil => intro i m _; rfl
  | cons x rest ih =>
    intro i m h
    rw [reorderRow]
    have : (m.id == x && m.goal_id == some G) = false := by simp [h]
    rw [this]
    exact ih (i + 1) m h

theorem reorderRow_not_mem (G : Int) (ids : List Int) :
    ∀ (i : Nat) (m : MilestoneRow), m.id ∉ ids → reorderRow G ids i m = m := by
  induction ids with
  | nil => intro i m _; rfl
  | cons x rest ih =>
    intro i m h
    rw [reorderRow]
    have hx : m.id ≠ x := fun e => h (by simp [e])
    have : (m.id == x && m.goal_id == some G) = false := by simp [hx]
    rw [this]
    exact ih (i + 1) m (fun hm => h (List.mem_cons_of_mem _ hm))

theorem reorderRow_last (G : Int) (ids : List Int) :
    ∀ (i : Nat) (m : MilestoneRow) (j : Nat) (hj : j < ids.length),
      m.goal_id = some G → ids[j] = m.id →
      (∀ k (hk : k < ids.length), j < k → ids[k] ≠ m.id) →
      (reorderRow G ids i m).order_index = some ((i + j : Nat) : Int) := by
  induction ids with
  | nil => intro i m j hj; simp at hj
  | cons x rest ih =>
    intro i m j hj hG hat hlast
    rw [reorderRow]
    cases j with
    | zero =>
      simp only [List.getElem_cons_zero] at hat
      have hcond : (m.id == x && m.goal_id == some G) = true := by simp [hat, hG]
      rw [if_pos hcond]
      have hnot : m.id ∉ rest := by
        intro hmem
        obtain ⟨k, hk, hkeq⟩ := List.getElem_of_mem hmem
        exact hlast (k + 1) (by simpa using hk) (by omega) (by simpa using hkeq)
      rw [reorderRow_not_mem G rest (i + 1) _ (by simpa using hnot)]
      simp
    | succ j0 =>
      simp only [List.getElem_cons_succ] at hat
      have hj0 : j0 < rest.length := by simpa using hj
      obtain ⟨hid, hgoal⟩ := reorderRow_step G x i m
      have := ih (i + 1)
        (if m.id == x && m.goal_id == some G then
          ({ m with order_index := some (i : Int) } : MilestoneRow) else m) j0 hj0
        (by rw [hgoal]; exact hG) (by rw [hid]; exact hat)
        (by
          intro k hk hlt
          rw [hid]
          have := hlast (k + 1) (by simpa using hk) (by omega)
          simpa using this)
      rw [this]
      congr 2
      omega

theorem reorder_ok (s : Store) (fault : Option Fault) (G : Int) (ids : List Int)
    (h : ∀ f, fault = some f → ids.length ≤ f.update)
    (hG : int4 G = true) (hids : ∀ x ∈ ids, int4 x = true)
    (hlen : ids.length ≤ 2147483648) :
    Milestone.reorder s fault G ids
      = (.ok true, { s with milestones := s.milestones.map (reorderRow G ids 0) }) := by
  unfold Milestone.reorder Milestone.reorderOn
  rw [reorderLoop_ok G fault ids hG 0 s (by
    intro f hf
    have := h f hf
    omega) hids (by omega)]

theorem reorder_fault (s : Store) (f : Fault) (G : Int) (ids : List Int)
    (h : f.update < ids.length)
    (hG : int4 G = true) (hids : ∀ x ∈ ids, int4 x = true)
    (hlen : ids.length ≤ 2147483648) :
    Milestone.reorder s (some f) G ids
      = (.error f.error,
         { s with milestones := s.milestones.map (reorderRow G (ids.take f.update) 0) }) := by
  unfold Milestone.reorder Milestone.reorderOn
  rw [reorderLoop_fault G f ids hG 0 s (by omega) (by omega) hids (by omega)]
  simp [query_getClient]

/-- Whatever the fault plan and the ids, `Milestone.reorder` returns the same
result on every store and leaves the rows as the UPDATEs of a prefix of the ids
leave them; the prefix is all of the ids when it returns true. -/
theorem reorder_spec (fault : Option Fault) (G : Int) (ids : List Int) :
    ∃ (k : Nat) (r : Except DbError Bool),
      k ≤ ids.length ∧ (r = .ok true → k = ids.length) ∧
      ∀ s : Store, Milestone.reorder s fault G ids
        = (r, { s with milestones := s.milestones.map (reorderRow G (ids.take k) 0) }) := by
  obtain ⟨k, r, hk, hok, hs⟩ := reorderLoop_spec G fault ids 0
  cases r with
  | ok u =>
    refine ⟨k, .ok true, hk, fun _ => hok rfl, fun s => ?_⟩
    unfold Milestone.reorder Milestone.reorderOn
    rw [hs]
  | error e =>
    refine ⟨k, .error e, hk, fun h => (by cases h), fun s => ?_⟩
    unfold Milestone.reorder Milestone.reorderOn
    rw [hs]
    simp [query_getClient]

theorem firstError_integer_none (i : Nat) (x G : Int)
    (h : firstError [integerError (i : Int), integerError x, integerError G] = none) :
    int4 (i : Int) = true ∧ int4 x = true ∧ int4 G = true := by
  cases hi : int4 (i : Int) <;> cases hx : int4 x <;> cases hG : int4 G <;>
    simp [firstError, integerError, hi, hx, hG] at h ⊢

theorem reorderLoop_ok_ids (G : Int) (fault : Option Fault) (ids : List Int) :
    ∀ (i : Nat) (s : Store), (Milestone.reorderLoop G fault ids i s).1 = .ok () →
      ∀ x ∈ ids, int4 x = true ∧ int4 G = true := by
  induction ids with
  | nil => intro i s _ x hx; cases hx
  | cons y rest ih =>
    intro i s hok x hx
    rw [Milestone.reorderLoop] at hok
    cases hf : fault.filter (fun f => f.update == i) with
    | some f =>
      rw [hf] at hok
      cases hok
    | none =>
      rw [hf] at hok
      cases hr : firstError [integerError (i : Int), integerError y, integerError G] with
      | some e =>
        simp only [hr] at hok
        cases hok
      | none =>
        simp only [hr] at hok
        obtain ⟨_, hy, hG⟩ := firstError_integer_none i y G hr
        rcases List.mem_cons.mp hx with rfl | hrest
        · exact ⟨hy, hG⟩
        · exact ih (i + 1) _ hok x hrest

/-- A reorder that returns true was sent ids and a goal id within the range of
INTEGER only. -/
theorem reorder_ok_ids (s : Store) (fault : Option Fault) (G : Int) (ids : List Int)
    (hok : (Milestone.reorder s fault G ids).1 = .ok true) :
    ∀ x ∈ ids, int4 x = true ∧ int4 G = true := by
  apply reorderLoop_ok_ids G fault ids 0 s
  unfold Milestone.reorder Milestone.reorderOn at hok
  cases hl : Milestone.reorderLoop G fault ids 0 s with
  | mk r s' =>
    rw [hl] at hok
    cases r with
    | ok u => rfl
    | error e => simp at hok

/-- Under any fault plan the milestones after a reorder are the old rows, each
sent through the loop for the ids whose UPDATE ran. -/
theorem reorder_rows (s : Store) (fault : Option Fault) (G : Int) (ids : List Int) :
    ∃ ran : List Int, (∀ x ∈ ran, x ∈ ids) ∧
      (Milestone.reorder s fault G ids).2
        = { s with milestones := s.milestones.map (reorderRow G ran 0) } := by
  obtain ⟨k, r, _, _, hs⟩ := reorder_spec fault G ids
  exact ⟨ids.take k, fun x hx => List.mem_of_mem_take hx, by rw [hs s]⟩

/-- A reorder that returns true has run the UPDATE of every id. -/
theorem reorder_of_ok (s : Store) (fault : Option Fault) (G : Int) (ids : List Int)
    (hok : (Milestone.reorder s fault G ids).1 = .ok true) :
    Milestone.reorder s fault G ids
      = (.ok true, { s with milestones := s.milestones.map (reorderRow G ids 0) }) := by
  obtain ⟨k, r, _, hall, hs⟩ := reorder_spec fault G ids
  rw [hs s] at hok ⊢
  have hr : r = .ok true := hok
  rw [hr, hall hr, List.take_length]

/-- On a checked-out connection the same body would roll back: a rejected
UPDATE leaves the store as it was at BEGIN. -/
theorem reorderOn_connection_atomic (s : Store) (f : Fault) (G : Int) (ids : List Int)
    (h : f.update < ids.length)
    (hG : int4 G = true) (hids : ∀ x ∈ ids, int4 x = true)
    (hlen : ids.length ≤ 2147483648) :
    Milestone.reorderOn Client.connection s (some f) G ids = (.error f.error, s) := by
  unfold Milestone.reorderOn
  rw [reorderLoop_fault G f ids hG 0 s (by omega) (by omega) hids (by omega)]
  simp

/-- Through the pool helper the updates before the rejected one stay: the
store is left as a successful reorder with the first `f.update` ids leaves it. -/
theorem reorder_fault_keeps_earlier (s : Store) (f : Fault) (G : Int) (ids : List Int)
    (h : f.update < ids.length)
    (hG : int4 G = true) (hids : ∀ x ∈ ids, int4 x = true)
    (hlen : ids.length ≤ 2147483648) :
    Milestone.reorder s (some f) G ids
      = (.error f.error, (Milestone.reorder s none G (ids.take f.update)).2) := by
  rw [reorder_fault s f G ids h hG hids hlen,
    reorder_ok s none G _ (by simp) hG (fun x hx => hids x (List.mem_of_mem_take hx))
      (by simp; omega)]

/-! ## Lemmas on the ordering of milestones -/

theorem findByGoalId_sorted (s : Store) (G : Int) :
    (Milestone.findByGoalId s G).Sorted MilestoneRow.le :=
  List.sorted_insertionSort _ _

theorem findByGoalId_perm (s : Store) (G : Int) :
    (Milestone.findByGoalId s G).Perm (s.milestones.filter (fun m => m.goal_id == some G)) :=
  List.perm_insertionSort _ _

theorem le_index_of_orderBy (a b : MilestoneRow) (i j : Nat)
    (ha : a.order_index = some (i : Int)) (hb : b.order_index = some (j : Int))
    (h : MilestoneRow.le a b) : i ≤ j := by
  unfold MilestoneRow.le orderByIndexCreated at h
  rw [ha, hb] at h
  simp [nullsLastLt] at h
  omega

theorem map_indexOf_self (ids : List Int) (h : ids.Nodup) :
    ids.map (fun x => ids.indexOf x) = List.range ids.length := by
  apply List.ext_getElem
  · simp
  · intro n h1 h2
    simp only [List.getElem_map, List.getElem_range]
    exact List.indexOf_getElem h n (by simpa using h1)

theorem map_getD_range (ids : List Int) :
    (List.range ids.length).map (fun j => ids.getD j 0) = ids := by
  apply List.ext_getElem
  · simp
  · intro n h1 h2
    simp only [List.getElem_map, List.getElem_range]
    rw [List.getD_eq_getElem _ _ h2]

theorem getD_indexOf (ids : List Int) (x : Int) (h : x ∈ ids) :
    ids.getD (ids.indexOf x) 0 = x := by
  have hlt : ids.indexOf x < ids.length := List.indexOf_lt_length.mpr h
  rw [List.getD_eq_getElem _ _ hlt]
  exact List.getElem_indexOf hlt

/-- After a reorder that ran to the end with a duplicate-free list of exactly
the goal's milestone ids, the goal's milestones are listed in that order. -/
theorem findByGoalId_after_reorder (s : Store) (G : Int) (ids : List Int)
    (hperm : ids.Perm ((s.milestones.filter (fun m => m.goal_id == some G)).map (fun m => m.id))) 
    (hnodup : ids.Nodup) :
    (Milestone.findByGoalId
        { s with milestones := s.milestones.map (reorderRow G ids 0) } G).map (fun m => m.id)
      = ids := by
  set rows := s.milestones.filter (fun m => m.goal_id == some G) with hrows
  set L := Milestone.findByGoalId
    { s with milestones := s.milestones.map (reorderRow G ids 0) } G with hL
  have hfilter : (s.milestones.map (reorderRow G ids 0)).filter (fun m => m.goal_id == some G)
      = rows.map (reorderRow G ids 0) := by
    rw [List.filter_map]
    congr 1
    apply List.filter_congr
    intro m _
    simp [reorderRow_goal_id]
  have hLperm : L.Perm (rows.map (reorderRow G ids 0)) := by
    rw [← hfilter]
    exact findByGoalId_perm _ G
  have hLsorted : L.Sorted MilestoneRow.le := findByGoalId_sorted _ G
  -- every listed row carries the position of its id
  have hrow : ∀ r ∈ L, r.id ∈ ids ∧ r.order_index = some ((ids.indexOf r.id : Nat) : Int) := by
    intro r hr
    obtain ⟨m, hm, rfl⟩ := List.mem_map.mp (hLperm.subset hr)
    have hmG : m.goal_id = some G := by
      have := (List.mem_filter.mp hm).2
      simpa using this
    have hmem : m.id ∈ ids := hperm.symm.subset (List.mem_map.mpr ⟨m, hm, rfl⟩)
    have hlt : ids.indexOf m.id < ids.length := List.indexOf_lt_length.mpr hmem
    rw [reorderRow_id]
    refine ⟨hmem, ?_⟩
    have := reorderRow_last G ids 0 m (ids.indexOf m.id) hlt hmG (List.getElem_indexOf hlt)
      (by
        intro k hk hjk heq
        have h1 := List.indexOf_getElem hnodup k hk
        rw [heq] at h1
        omega)
    simpa using this
  have hkeySorted : (L.map (fun r => ids.indexOf r.id)).Sorted (· ≤ ·) := by
    unfold List.Sorted
    rw [List.pairwise_map]
    exact List.Pairwise.imp_of_mem
      (fun {a b} ha hb hab => le_index_of_orderBy a b _ _ (hrow a ha).2 (hrow b hb).2 hab)
      hLsorted
  have hidPerm : (L.map (fun m => m.id)).Perm ids := by
    have h1 := hLperm.map (fun m : MilestoneRow => m.id)
    rw [List.map_map] at h1
    have h2 : ((fun m : MilestoneRow => m.id) ∘ reorderRow G ids 0)
        = (fun m : MilestoneRow => m.id) := by
      funext m; simp [reorderRow_id]
    rw [h2] at h1
    exact h1.trans hperm.symm
  have hkeyPerm : (L.map (fun r => ids.indexOf r.id)).Perm (List.range ids.length) := by
    have h1 := hidPerm.map (fun x => ids.indexOf x)
    rw [List.map_map, map_indexOf_self ids hnodup] at h1
    exact h1
  have hkey : L.map (fun r => ids.indexOf r.id) = List.range ids.length :=
    List.eq_of_perm_of_sorted hkeyPerm hkeySorted (List.sorted_le_range _)
  calc L.map (fun m => m.id)
      = L.map (fun r => ids.getD (ids.indexOf r.id) 0) := by
        apply List.map_congr_left
        intro r hr
        exact (getD_indexOf ids r.id (hrow r hr).1).symm
    _ = (L.map (fun r => ids.indexOf r.id)).map (fun j => ids.getD j 0) := by
        rw [List.map_map]; rfl
    _ = ids := by rw [hkey, map_getD_range]

/-! ## Lemmas on keys and ownership -/

theorem filter_key_eq {α : Type} (key : α → Int) :
    ∀ (l : List α) (a : α), (l.map key).Nodup → a ∈ l →
      l.filter (fun x => key x == key a) = [a] := by
  intro l
  induction l with
  | nil => intro a _ h; simp at h
  | cons x rest ih =>
    intro a hnd hmem
    rw [List.map_cons, List.nodup_cons] at hnd
    rcases List.mem_cons.mp hmem with rfl | hin
    · have hnone : rest.filter (fun x => key x == key a) = [] := by
        rw [List.filter_eq_nil_iff]
        intro y hy hcond
        have : key y = key a := by simpa using hcond
        exact hnd.1 (this ▸ List.mem_map_of_mem key hy)
      simp [List.filter_cons, hnone]
    · have hne : key x ≠ key a := by
        intro e
        exact hnd.1 (e ▸ List.mem_map_of_mem key hin)
      have : (key x == key a) = false := by simp [hne]
      rw [List.filter_cons, this]
      exact ih a hnd.2 hin

theorem findById_of_mem (s : Store) (m : MilestoneRow) (hkey : s.milestoneKey)
    (hm : m ∈ s.milestones) : Milestone.findById s m.id = some m := by
  unfold Milestone.findById
  rw [filter_key_eq (fun m : MilestoneRow => m.id) s.milestones m hkey hm]
  rfl

theorem getGoalId_of_mem (s : Store) (m : MilestoneRow) (hkey : s.milestoneKey)
    (hm : m ∈ s.milestones) : Milestone.getGoalId s m.id = orNull m.goal_id := by
  unfold Milestone.getGoalId
  rw [filter_key_eq (fun m : MilestoneRow => m.id) s.milestones m hkey hm]
  rfl

theorem orNull_of_ne_zero (g : Int) (h : g ≠ 0) : orNull (some g) = some g := by
  unfold orNull
  split
  · next heq => exact absurd (Option.some.inj heq) h
  · rfl

theorem isOwner_iff (s : Store) (g u : Int) :
    Goal.isOwner s g u = true ↔ ∃ goal ∈ s.goals, goal.id = g ∧ goal.user_id = some u := by
  unfold Goal.isOwner
  rw [decide_eq_true_iff, gt_iff_lt, List.length_pos, ne_eq, List.filter_eq_nil_iff]
  simp

theorem isOwner_false_of_no_goal (s : Store) (g u : Int) (h : ∀ goal ∈ s.goals, goal.id ≠ g) :
    Goal.isOwner s g u = false := by
  rw [Bool.eq_false_iff, ne_eq, isOwner_iff]
  rintro ⟨goal, hmem, hid, _⟩
  exact h goal hmem hid

theorem isOwner_false_of_other_owner (s : Store) (g u u1 : Int) (hkey : s.goalKey)
    (howner : ∃ goal ∈ s.goals, goal.id = g ∧ goal.user_id = some u1) (hne : u ≠ u1) :
    Goal.isOwner s g u = false := by
  rw [Bool.eq_false_iff, ne_eq, isOwner_iff]
  rintro ⟨goal', hmem', hid', huser'⟩
  obtain ⟨goal, hmem, hid, huser⟩ := howner
  have heq : goal' = goal :=
    List.inj_on_of_nodup_map hkey hmem' hmem (by rw [hid', hid])
  subst heq
  rw [huser] at huser'
  exact hne (Option.some.inj huser').symm

theorem checkGoalOwnership_ok_iff (s : Store) (g u : Int) :
    checkGoalOwnership s g u = .ok () ↔ Goal.isOwner s g u = true := by
  unfold checkGoalOwnership
  cases Goal.isOwner s g u <;> simp

theorem checkGoalOwnership_of_not_owner (s : Store) (g u : Int) (h : Goal.isOwner s g u = false) :
    checkGoalOwnership s g u = .error (.ForbiddenError "You do not have access to this goal") := by
  unfold checkGoalOwnership
  simp [h]

theorem checkMilestoneOwnership_of_goal (s : Store) (milestoneId g u : Int)
    (h : Milestone.getGoalId s milestoneId = some g) :
    checkMilestoneOwnership s milestoneId u
      = (match checkGoalOwnership s g u with
         | .error e => .error e
         | .ok _ => .ok g) := by
  unfold checkMilestoneOwnership checkMilestoneOwnershipAt
  rw [h]

/-- A milestone whose goal reference is unset resolves to NotFound. -/
theorem checkMilestoneOwnership_unset (s : Store) (m : MilestoneRow) (u : Int)
    (hkey : s.milestoneKey) (hm : m ∈ s.milestones) (hg : m.goal_id = none) :
    checkMilestoneOwnership s m.id u = .error (.NotFoundError "Milestone") := by
  unfold checkMilestoneOwnership checkMilestoneOwnershipAt
  rw [getGoalId_of_mem s m hkey hm, hg]
  rfl

/-- A milestone whose goal reference names no goal row never passes the check:
the goal lookup finds no row and the check fails Forbidden. -/
theorem checkMilestoneOwnership_dangling (s : Store) (m : MilestoneRow) (g u : Int)
    (hkey : s.milestoneKey) (hm : m ∈ s.milestones) (hg : m.goal_id = some g) (hg0 : g ≠ 0)
    (hnone : ∀ goal ∈ s.goals, goal.id ≠ g) :
    checkMilestoneOwnership s m.id u
      = .error (.ForbiddenError "You do not have access to this goal") := by
  rw [checkMilestoneOwnership_of_goal s m.id g u
    (by rw [getGoalId_of_mem s m hkey hm, hg, orNull_of_ne_zero g hg0])]
  rw [checkGoalOwnership_of_not_owner s g u (isOwner_false_of_no_goal s g u hnone)]

/-- GET `/api/goals/:id` answers NotFound for a goal id with no row. -/
theorem goalsRouter_get_missing (s : Store) (req : Request) (hvalid : req.validationErrors = [])
    (hnone : ∀ goal ∈ s.goals, goal.id ≠ req.id) :
    goalsRouter.get s req = (.error (.api (.NotFoundError "Goal")), s) := by
  have hfilter : s.goals.filter (fun g => g.id == req.id) = [] := by
    rw [List.filter_eq_nil_iff]
    intro goal hmem hcond
    exact hnone goal hmem (by simpa using hcond)
  unfold goalsRouter.get Goal.findByIdWithMilestones
  simp [hvalid, hfilter]

/-! ## Lemmas on the handlers -/

theorem handle_invalid (r : Route) (s : Store) (now : Nat) (fault : Option Fault)
    (req : Request) (h : req.validationErrors ≠ []) :
    r.handle s now fault req = (.error (.api (.ValidationError req.validationErrors)), s) := by
  have hne : req.validationErrors.isEmpty = false := by
    cases hv : req.validationErrors with
    | nil => exact absurd hv h
    | cons a l => rfl
  cases r <;>
    simp [Route.handle, goalsRouter.update, goalsRouter.delete, goalsRouter.status,
      milestonesRouter.list, milestonesRouter.create, milestonesRouter.reorder,
      milestonesRouter.update, milestonesRouter.complete, milestonesRouter.uncomplete,
      milestonesRouter.toggle, milestonesRouter.delete, hne]

theorem handle_denied_goal (r : Route) (s : Store) (now : Nat) (fault : Option Fault)
    (req : Request) (hr : r.byGoalId = true) (hvalid : req.validationErrors = [])
    (hdenied : Goal.isOwner s req.id req.userId = false) :
    r.handle s now fault req
      = (.error (.api (.ForbiddenError "You do not have access to this goal")), s) := by
  have hcheck := checkGoalOwnership_of_not_owner s req.id req.userId hdenied
  cases r <;> simp [Route.byGoalId] at hr <;>
    simp [Route.handle, goalsRouter.update, goalsRouter.delete, goalsRouter.status,
      milestonesRouter.list, milestonesRouter.create, milestonesRouter.reorder,
      hvalid, hdenied, hcheck]

theorem handle_denied_milestone (r : Route) (s : Store) (now : Nat) (fault : Option Fault)
    (req : Request) (e : ApiError) (hr : r.byGoalId = false) (hvalid : req.validationErrors = [])
    (hdenied : checkMilestoneOwnership s req.id req.userId = .error e) :
    r.handle s now fault req = (.error (.api e), s) := by
  cases r <;> simp [Route.byGoalId] at hr <;>
    simp [Route.handle, milestonesRouter.update, milestonesRouter.complete,
      milestonesRouter.uncomplete, milestonesRouter.toggle, milestonesRouter.delete,
      hvalid, hdenied]

theorem handle_denied (r : Route) (s : Store) (now : Nat) (fault : Option Fault)
    (req : Request) (g u1 : Int)
    (hkeyM : s.milestoneKey) (hkeyG : s.goalKey) (hserial : s.goalSerial)
    (htarget : r.targetsGoal s req g)
    (howner : ∃ goal ∈ s.goals, goal.id = g ∧ goal.user_id = some u1)
    (hother : req.userId ≠ u1) (hvalid : req.validationErrors = []) :
    r.handle s now fault req
      = (.error (.api (.ForbiddenError "You do not have access to this goal")), s) := by
  have hdenied : Goal.isOwner s g req.userId = false :=
    isOwner_false_of_other_owner s g req.userId u1 hkeyG howner hother
  unfold Route.targetsGoal at htarget
  by_cases hr : r.byGoalId = true
  · rw [if_pos hr] at htarget
    exact handle_denied_goal r s now fault req hr hvalid (by rw [htarget]; exact hdenied)
  · rw [if_neg hr] at htarget
    obtain ⟨m, hm, hid, hg⟩ := htarget
    obtain ⟨goal, hgoal, hgid, _⟩ := howner
    have hg0 : g ≠ 0 := by
      have := hserial goal hgoal
      omega
    have hlookup : Milestone.getGoalId s req.id = some g := by
      rw [← hid, getGoalId_of_mem s m hkeyM hm, hg, orNull_of_ne_zero g hg0]
    have hcheck : checkMilestoneOwnership s req.id req.userId
        = .error (.ForbiddenError "You do not have access to this goal") := by
      rw [checkMilestoneOwnership_of_goal s req.id g req.userId hlookup,
        checkGoalOwnership_of_not_owner s g req.userId hdenied]
    exact handle_denied_milestone r s now fault req _ (by simpa using hr) hvalid hcheck

/-- A handler that authorizes by goal id answers Forbidden for a goal id
with no row, and leaves the store as it was. -/
theorem handle_missing_goal (r : Route) (s : Store) (now : Nat) (fault : Option Fault)
    (req : Request) (hr : r.byGoalId = true) (hvalid : req.validationErrors = [])
    (hnone : ∀ goal ∈ s.goals, goal.id ≠ req.id) :
    r.handle s now fault req
      = (.error (.api (.ForbiddenError "You do not have access to this goal")), s) :=
  handle_denied_goal r s now fault req hr hvalid
    (isOwner_false_of_no_goal s req.id req.userId hnone)

/-! ## Lemmas on completion -/

theorem filter_sqlUpdate {α : Type} (rows : List α) (p : α → Bool) (f : α → α)
    (hp : ∀ r, p (f r) = p r) :
    (sqlUpdate rows p f).filter p = (rows.filter p).map f := by
  unfold sqlUpdate
  induction rows with
  | nil => rfl
  | cons r rest ih =>
    by_cases h : p r = true
    · simp [List.filter_cons, h, hp, ih]
    · simp [List.filter_cons, h, ih]

theorem head?_filter_map {α : Type} (rows : List α) (p : α → Bool) (f : α → α) (m : α)
    (h : (rows.filter p).head? = some m) : ((rows.filter p).map f).head? = some (f m) := by
  rw [List.head?_map, h]
  rfl

theorem complete_of_found (s : Store) (now : Nat) (id : Int) (m : MilestoneRow)
    (h : Milestone.findById s id = some m) :
    (Milestone.complete s now id).1
        = some { m with completed := some true, completed_at := some now } ∧
    Milestone.findById (Milestone.complete s now id).2 id
        = some { m with completed := some true, completed_at := some now } := by
  unfold Milestone.findById at h
  constructor
  · exact head?_filter_map s.milestones _ _ m h
  · unfold Milestone.findById Milestone.complete
    simp only
    rw [filter_sqlUpdate _ _ _ (by intro r; rfl)]
    exact head?_filter_map s.milestones _ _ m h

theorem uncomplete_of_found (s : Store) (id : Int) (m : MilestoneRow)
    (h : Milestone.findById s id = some m) :
    (Milestone.uncomplete s id).1
        = some { m with completed := some false, completed_at := none } := by
  unfold Milestone.findById at h
  exact head?_filter_map s.milestones _ _ m h

theorem uncomplete_findById (s : Store) (id : Int) (m : MilestoneRow)
    (h : Milestone.findById s id = some m) :
    Milestone.findById (Milestone.uncomplete s id).2 id
        = some { m with completed := some false, completed_at := none } := by
  unfold Milestone.findById at h
  unfold Milestone.findById Milestone.uncomplete
  simp only
  rw [filter_sqlUpdate _ _ _ (by intro r; rfl)]
  exact head?_filter_map s.milestones _ _ m h

/-! ## The claims -/

/-- C1, the code at the failing input: goal 1 holds A = 1, B = 2, C = 3 at
indices 0, 1, 2 and `reorder(1, [C, A, B])` has its second UPDATE rejected.  The
call reports the error, yet the first UPDATE stays: C is left at index 0 next to
A, and the milestones table differs from the table before the call. -/
theorem C1_reorder_fault_leaves_earlier_updates :
    (Milestone.reorder exampleStore (some exampleFault) 1 [3, 1, 2]).1
      = .error exampleFault.error ∧
    indexById (Milestone.reorder exampleStore (some exampleFault) 1 [3, 1, 2]).2.milestones
      = [(1, some 0), (2, some 1), (3, some 0), (4, some 5)] ∧
    (Milestone.reorder exampleStore (some exampleFault) 1 [3, 1, 2]).2.milestones
      ≠ exampleStore.milestones := by
  decide

/-- C2: after a successful `Milestone.reorder(G, ids)` with duplicate-free `ids`,
every milestone of goal `G` whose id is `ids[i]` has order index `i`; and when
`ids` is a permutation of the ids of all milestones of `G`,
`Milestone.findByGoalId(G)` lists the milestones in the order of `ids`. -/
theorem C2_reorder_assigns_positions (s : Store) (fault : Option Fault) (G : Int)
    (ids : List Int) (hnodup : ids.Nodup)
    (hok : (Milestone.reorder s fault G ids).1 = .ok true) :
    (∀ m ∈ (Milestone.reorder s fault G ids).2.milestones, ∀ (i : Nat) (hi : i < ids.length),
        m.goal_id = some G → m.id = ids[i] → m.order_index = some (i : Int)) ∧
    (ids.Perm ((s.milestones.filter (fun m => m.goal_id == some G)).map (fun m => m.id)) →
        (Milestone.findByGoalId (Milestone.reorder s fault G ids).2 G).map (fun m => m.id)
          = ids) := by
  rw [reorder_of_ok s fault G ids hok]
  constructor
  · intro m hm i hi hG hid
    obtain ⟨m0, _, rfl⟩ := List.mem_map.mp hm
    rw [reorderRow_goal_id] at hG
    rw [reorderRow_id] at hid
    have := reorderRow_last G ids 0 m0 i hi hG hid.symm (by
      intro k hk hik heq
      have h1 := List.indexOf_getElem hnodup k hk
      have h2 := List.indexOf_getElem hnodup i hi
      rw [heq, hid, h2] at h1
      omega)
    simpa using this
  · intro hperm
    exact findByGoalId_after_reorder s G ids hperm hnodup

/-- C2 at goal 1 with milestones A = 1, B = 2, C = 3 reordered as C, A, B. -/
theorem C2_reorder_assigns_positions_witness :
    ([3, 1, 2] : List Int).Nodup ∧
    (Milestone.reorder exampleStore none 1 [3, 1, 2]).1 = .ok true ∧
    ([3, 1, 2] : List Int).Perm
      ((exampleStore.milestones.filter (fun m => m.goal_id == some 1)).map (fun m => m.id)) ∧
    (Milestone.findByGoalId (Milestone.reorder exampleStore none 1 [3, 1, 2]).2 1).map
      (fun m => m.id) = [3, 1, 2] :=
  ⟨by decide, by decide, by decide,
    (C2_reorder_assigns_positions exampleStore none 1 [3, 1, 2] (by decide) (by decide)).2
      (by decide)⟩

/-- C3 as stated fails for an id outside the range of the column type INTEGER:
no milestone has id 2147483648, and `Milestone.reorder(1, [3, 2147483648])` does
not succeed.  The UPDATE for that id is rejected with SQLSTATE 22003 and the
call throws, after the UPDATE for milestone 3 has been committed; the route,
whose chain is `isInt()` without bounds, passes the error on. -/
theorem C3_reorder_rejects_out_of_range_id :
    (2147483648 : Int) ∈ ([3, 2147483648] : List Int) ∧
    (∀ m ∈ exampleStore.milestones, m.id ≠ 2147483648) ∧
    (Milestone.reorder exampleStore none 1 [3, 2147483648]).1
      = .error DbError.outOfRange ∧
    (Milestone.reorder exampleStore none 1 [3, 2147483648]).1 ≠ .ok true ∧
    indexById (Milestone.reorder exampleStore none 1 [3, 2147483648]).2.milestones
      = [(1, some 0), (2, some 1), (3, some 0), (4, some 5)] ∧
    (Route.milestoneReorder.handle exampleStore 0 none
        { exampleRequest 1 1 with milestoneIds := [3, 2147483648] }).1
      = .error (.db DbError.outOfRange) := by
  decide

/-- C3, amended: let every milestone with id `X` belong to another goal than `G`
(or let there be none), and let `X` be among `ids`.  When the goal id and all
ids are within the range of INTEGER (and there are at most 2147483648 ids, so
that the positions are), `Milestone.reorder(G, ids)` succeeds unless an UPDATE
fails for a reason outside the statement; it succeeds only if the goal id and
all ids are within the range; and in every case, whatever fails, the rows with
id `X` are left as they were. -/
theorem C3_reorder_ignores_foreign_ids (s : Store) (G : Int) (ids : List Int) (X : Int)
    (hX : X ∈ ids) (hforeign : ∀ m ∈ s.milestones, m.id = X → m.goal_id ≠ some G) :
    (int4 G = true → (∀ x ∈ ids, int4 x = true) → ids.length ≤ 2147483648 →
      (Milestone.reorder s none G ids).1 = .ok true) ∧
    (∀ fault, (Milestone.reorder s fault G ids).1 = .ok true →
      int4 G = true ∧ int4 X = true ∧ ∀ x ∈ ids, int4 x = true) ∧
    (∀ fault, (Milestone.reorder s fault G ids).2.milestones.filter (fun m => m.id == X)
      = s.milestones.filter (fun m => m.id == X)) := by
  have hframe : ∀ ids', (s.milestones.map (reorderRow G ids' 0)).filter (fun m => m.id == X)
      = s.milestones.filter (fun m => m.id == X) := by
    intro ids'
    rw [List.filter_map]
    have h1 : s.milestones.filter ((fun m : MilestoneRow => m.id == X) ∘ reorderRow G ids' 0)
        = s.milestones.filter (fun m => m.id == X) := by
      apply List.filter_congr
      intro m _
      simp [reorderRow_id]
    rw [h1]
    conv => rhs; rw [← List.map_id (s.milestones.filter (fun m => m.id == X))]
    apply List.map_congr_left
    intro m hm
    obtain ⟨hmem, hid⟩ := List.mem_filter.mp hm
    simpa using reorderRow_foreign G ids' 0 m (hforeign m hmem (by simpa using hid))
  refine ⟨?_, ?_, ?_⟩
  · intro hG hids hlen
    rw [reorder_ok s none G ids (by intro f hf; cases hf) hG hids hlen]
  · intro fault hok
    have h := reorder_ok_ids s fault G ids hok
    exact ⟨(h X hX).2, (h X hX).1, fun x hx => (h x hx).1⟩
  · intro fault
    obtain ⟨ran, _, hstore⟩ := reorder_rows s fault G ids
    rw [hstore]
    exact hframe ran

/-- C3 amended, at goal 1 with X = 4, a milestone of goal 2 at index 5. -/
theorem C3_reorder_ignores_foreign_ids_witness :
    (4 : Int) ∈ ([4, 1] : List Int) ∧
    (∀ m ∈ exampleStore.milestones, m.id = 4 → m.goal_id ≠ some 1) ∧
    (Milestone.reorder exampleStore none 1 [4, 1]).1 = .ok true ∧
    (Milestone.reorder exampleStore none 1 [4, 1]).2.milestones.filter (fun m => m.id == 4)
      = [exampleMilestone 4 (some 2) (some 5) 13] :=
  ⟨by decide, by decide,
    (C3_reorder_ignores_foreign_ids exampleStore 1 [4, 1] 4 (by decide) (by decide)).1
      (by decide) (by decide) (by decide),
    ((C3_reorder_ignores_foreign_ids exampleStore 1 [4, 1] 4 (by decide) (by decide)).2.2
      none).trans (by decide)⟩

/-- C4 as stated fails: user 2 sends PUT `/api/milestones/1` with an empty title
for a milestone of goal 1, which user 1 owns.  The route mutates and the acting
user is not the owner, yet the handler does not fail with ForbiddenError: the
validation findings are thrown first, as a ValidationError. -/
theorem C4_invalid_request_not_forbidden :
    Route.milestoneUpdate.mutating = true ∧
    Route.milestoneUpdate.targetsGoal exampleStore
      { exampleRequest 2 1 with validationErrors := ["Title is required"], title := "" } 1 ∧
    (∃ goal ∈ exampleStore.goals, goal.id = 1 ∧ goal.user_id = some 1) ∧
    (Route.milestoneUpdate.handle exampleStore 0 none
        { exampleRequest 2 1 with validationErrors := ["Title is required"], title := "" }).1
      ≠ .error (.api (.ForbiddenError "You do not have access to this goal")) ∧
    (Route.milestoneUpdate.handle exampleStore 0 none
        { exampleRequest 2 1 with validationErrors := ["Title is required"], title := "" }).1
      = .error (.api (.ValidationError ["Title is required"])) := by
  refine ⟨by decide, ?_, by decide, by decide, by decide⟩
  exact ⟨exampleMilestone 1 (some 1) (some 0) 10, by decide, by decide, by decide⟩

/-- C4, amended: for every milestone or goal handler that authorizes against a
goal and every acting user different from the owner of the target goal (or of
the target milestone's goal), the store after the request equals the store
before it; the handler fails with ForbiddenError when the request passed input
validation, and with ValidationError when it did not. -/
theorem C4_denied_request_leaves_store (r : Route) (s : Store) (now : Nat)
    (fault : Option Fault) (req : Request) (g u1 : Int)
    (hkeyM : s.milestoneKey) (hkeyG : s.goalKey) (hserial : s.goalSerial)
    (htarget : r.targetsGoal s req g)
    (howner : ∃ goal ∈ s.goals, goal.id = g ∧ goal.user_id = some u1)
    (hother : req.userId ≠ u1) :
    (r.handle s now fault req).2 = s ∧
    (req.validationErrors = [] →
      (r.handle s now fault req).1
        = .error (.api (.ForbiddenError "You do not have access to this goal")) ∧
      (ApiError.ForbiddenError "You do not have access to this goal").statusCode = 403) ∧
    (req.validationErrors ≠ [] →
      (r.handle s now fault req).1 = .error (.api (.ValidationError req.validationErrors))) := by
  by_cases hvalid : req.validationErrors = []
  · have h := handle_denied r s now fault req g u1 hkeyM hkeyG hserial htarget howner hother
      hvalid
    rw [h]
    exact ⟨rfl, fun _ => ⟨rfl, rfl⟩, fun hne => absurd hvalid hne⟩
  · rw [handle_invalid r s now fault req hvalid]
    exact ⟨rfl, fun h => absurd h hvalid, fun _ => rfl⟩

/-- C4 amended, at user 2 toggling milestone 1 of goal 1, which user 1 owns. -/
theorem C4_denied_request_leaves_store_witness :
    exampleStore.milestoneKey ∧ exampleStore.goalKey ∧ exampleStore.goalSerial ∧
    Route.milestoneToggle.targetsGoal exampleStore (exampleRequest 2 1) 1 ∧
    (∃ goal ∈ exampleStore.goals, goal.id = 1 ∧ goal.user_id = some 1) ∧
    (exampleRequest 2 1).userId ≠ 1 ∧
    (Route.milestoneToggle.handle exampleStore 7 none (exampleRequest 2 1)).2 = exampleStore ∧
    (Route.milestoneToggle.handle exampleStore 7 none (exampleRequest 2 1)).1
      = .error (.api (.ForbiddenError "You do not have access to this goal")) :=
  have htarget : Route.milestoneToggle.targetsGoal exampleStore (exampleRequest 2 1) 1 :=
    ⟨exampleMilestone 1 (some 1) (some 0) 10, by decide, by decide, by decide⟩
  have h := C4_denied_request_leaves_store Route.milestoneToggle exampleStore 7 none
    (exampleRequest 2 1) 1 1 (by decide) (by decide) (by decide) htarget (by decide) (by decide)
  ⟨by decide, by decide, by decide, htarget, by decide, by decide, h.1, (h.2.1 rfl).1⟩

/-- C5: for a milestone row `m` with goal id `g` and a user `u`,
`checkMilestoneOwnership(m.id, u)` succeeds exactly when
`checkGoalOwnership(g, u)` succeeds, that is exactly when a goal row with id `g`
and `user_id = u` exists, and on success it returns `g`. -/
theorem C5_two_hop_agrees_with_goal_ownership (s : Store) (m : MilestoneRow) (g u : Int)
    (hkey : s.milestoneKey) (hserial : s.goalSerial)
    (hm : m ∈ s.milestones) (hg : m.goal_id = some g) :
    ((∃ g', checkMilestoneOwnership s m.id u = .ok g') ↔ checkGoalOwnership s g u = .ok ()) ∧
    (checkGoalOwnership s g u = .ok () ↔
      ∃ goal ∈ s.goals, goal.id = g ∧ goal.user_id = some u) ∧
    (∀ g', checkMilestoneOwnership s m.id u = .ok g' → g' = g) := by
  have hgoal : checkGoalOwnership s g u = .ok () ↔
      ∃ goal ∈ s.goals, goal.id = g ∧ goal.user_id = some u := by
    rw [checkGoalOwnership_ok_iff, isOwner_iff]
  by_cases hg0 : g = 0
  · -- no goal row has id 0, and the lookup treats goal id 0 as unset
    subst hg0
    have hmile : checkMilestoneOwnership s m.id u = .error (.NotFoundError "Milestone") := by
      unfold checkMilestoneOwnership checkMilestoneOwnershipAt
      rw [getGoalId_of_mem s m hkey hm, hg]
      rfl
    have hno : ¬ (checkGoalOwnership s 0 u = .ok ()) := by
      rw [hgoal]
      rintro ⟨goal, hmem, hid, _⟩
      have := hserial goal hmem
      omega
    refine ⟨?_, hgoal, ?_⟩
    · rw [hmile]
      constructor
      · rintro ⟨g', h⟩; cases h
      · intro h; exact absurd h hno
    · intro g' h
      rw [hmile] at h
      cases h
  · have hmile := checkMilestoneOwnership_of_goal s m.id g u
      (by rw [getGoalId_of_mem s m hkey hm, hg, orNull_of_ne_zero g hg0])
    rw [hmile]
    refine ⟨?_, hgoal, ?_⟩
    · cases hc : checkGoalOwnership s g u with
      | error e => simp
      | ok v => simp
    · intro g' h
      cases hc : checkGoalOwnership s g u with
      | error e => rw [hc] at h; cases h
      | ok v =>
        rw [hc] at h
        simp only [Except.ok.injEq] at h
        exact h.symm

/-- C5 at milestone 1 of goal 1: its owner, user 1, passes both checks and the
two-hop check returns goal 1. -/
theorem C5_two_hop_agrees_with_goal_ownership_witness :
    exampleStore.milestoneKey ∧ exampleStore.goalSerial ∧
    exampleMilestone 1 (some 1) (some 0) 10 ∈ exampleStore.milestones ∧
    checkGoalOwnership exampleStore 1 1 = .ok () ∧
    (∃ g', checkMilestoneOwnership exampleStore 1 1 = .ok g') ∧
    (∀ g', checkMilestoneOwnership exampleStore 1 1 = .ok g' → g' = 1) :=
  have h := C5_two_hop_agrees_with_goal_ownership exampleStore
    (exampleMilestone 1 (some 1) (some 0) 10) 1 1 (by decide) (by decide) (by decide) rfl
  ⟨by decide, by decide, by decide, by decide, h.1.mpr (by decide), h.2.2⟩

/-- Within one state of a store that satisfies the primary key of `milestones`
and the foreign key from `milestones.goal_id` to `goals`, a milestone row whose
goal reference names no goal row has its goal reference unset, and
`checkMilestoneOwnership` fails on it with NotFoundError for every acting user. -/
theorem checkMilestoneOwnership_unreferenced (s : Store) (m : MilestoneRow) (u : Int)
    (hkey : s.milestoneKey) (href : s.milestoneGoalRef) (hm : m ∈ s.milestones)
    (hmissing : ∀ goal ∈ s.goals, m.goal_id ≠ some goal.id) :
    m.goal_id = none ∧
    checkMilestoneOwnership s m.id u = .error (.NotFoundError "Milestone") := by
  have hunset : m.goal_id = none := by
    rcases href m hm with h | ⟨goal, hgoal, h⟩
    · exact h
    · exact absurd h (hmissing goal hgoal)
  exact ⟨hunset, checkMilestoneOwnership_unset s m u hkey hm hunset⟩

/-- C6, the code at the failing input: milestone 1 belongs to goal 1, which
user 1 owns.  A request of user 1 for milestone 1 has run `Milestone.getGoalId`,
which returned 1, when DELETE `/api/goals/1` is committed; `Goal.isOwner` runs
after it.  The store before and the store after the delete both satisfy the
primary keys and the foreign key of `milestones.goal_id`.  The goal of the
milestone no longer exists, and the check fails with ForbiddenError, not
NotFoundError; GET `/api/goals/1` answers NotFoundError in the same state.  A
milestone whose goal reference is unset, milestone 5 of the last store, is
answered NotFoundError. -/
theorem C6_goal_deleted_during_check_forbidden :
    (exampleStore.milestoneKey ∧ exampleStore.goalKey ∧ exampleStore.milestoneGoalRef) ∧
    ((Goal.delete exampleStore 1).2.milestoneKey ∧ (Goal.delete exampleStore 1).2.goalKey ∧
      (Goal.delete exampleStore 1).2.milestoneGoalRef) ∧
    Milestone.getGoalId exampleStore 1 = some 1 ∧
    (∀ goal ∈ (Goal.delete exampleStore 1).2.goals, goal.id ≠ 1) ∧
    checkMilestoneOwnershipAt exampleStore (Goal.delete exampleStore 1).2 1 1
      = .error (.ForbiddenError "You do not have access to this goal") ∧
    checkMilestoneOwnershipAt exampleStore (Goal.delete exampleStore 1).2 1 1
      ≠ .error (.NotFoundError "Milestone") ∧
    (ApiError.ForbiddenError "You do not have access to this goal").statusCode = 403 ∧
    (goalsRouter.get (Goal.delete exampleStore 1).2 (exampleRequest 1 1)).1
      = .error (.api (.NotFoundError "Goal")) ∧
    checkMilestoneOwnership exampleOrphan 5 1 = .error (.NotFoundError "Milestone") := by
  decide

/-- C7, the code at the failing input: no goal has id 99, and each handler that
authorizes by goal id answers a valid request of user 1 for goal 99 with
ForbiddenError (403), not NotFoundError (404). -/
theorem C7_missing_goal_answers_forbidden :
    (∀ goal ∈ exampleStore.goals, goal.id ≠ 99) ∧
    (Route.goalUpdate.handle exampleStore 0 none (exampleRequest 1 99)).1
      = .error (.api (.ForbiddenError "You do not have access to this goal")) ∧
    (Route.goalDelete.handle exampleStore 0 none (exampleRequest 1 99)).1
      = .error (.api (.ForbiddenError "You do not have access to this goal")) ∧
    (Route.goalStatus.handle exampleStore 0 none (exampleRequest 1 99)).1
      = .error (.api (.ForbiddenError "You do not have access to this goal")) ∧
    (Route.milestoneList.handle exampleStore 0 none (exampleRequest 1 99)).1
      = .error (.api (.ForbiddenError "You do not have access to this goal")) ∧
    (Route.milestoneCreate.handle exampleStore 0 none (exampleRequest 1 99)).1
      = .error (.api (.ForbiddenError "You do not have access to this goal")) ∧
    (Route.milestoneReorder.handle exampleStore 0 none (exampleRequest 1 99)).1
      = .error (.api (.ForbiddenError "You do not have access to this goal")) ∧
    (ApiError.ForbiddenError "You do not have access to this goal").statusCode = 403 := by
  decide

/-- C8: for a milestone found with `completed = false`, `Milestone.toggleComplete`
returns it with `completed = true` and `completed_at` set to the current
timestamp and stores exactly that: every row with the id is written with
`completed = true` and the timestamp, every other row and table is as before.  A
second `toggleComplete` on the same id returns it with `completed = false` and
`completed_at` null and stores that: every row with the id is written with
`completed = false` and a null `completed_at`, so that `Milestone.findById` reads
the flag flipped after each call.  For an id with no milestone it returns null
and leaves the store as it was. -/
theorem C8_toggle_is_a_flip (s : Store) (now₁ now₂ : Nat) (id : Int) :
    (∀ m, Milestone.findById s id = some m → m.completed = some false →
      ((Milestone.toggleComplete s now₁ id).1
          = some { m with completed := some true, completed_at := some now₁ } ∧
        (Milestone.toggleComplete s now₁ id).2
          = { s with milestones := s.milestones.map (fun r =>
                if r.id = id then { r with completed := some true, completed_at := some now₁ }
                else r) } ∧
        Milestone.findById (Milestone.toggleComplete s now₁ id).2 id
          = some { m with completed := some true, completed_at := some now₁ }) ∧
      ((Milestone.toggleComplete (Milestone.toggleComplete s now₁ id).2 now₂ id).1
          = some { m with completed := some false, completed_at := none } ∧
        (Milestone.toggleComplete (Milestone.toggleComplete s now₁ id).2 now₂ id).2
          = { s with milestones := s.milestones.map (fun r =>
                if r.id = id then { r with completed := some false, completed_at := none }
                else r) } ∧
        Milestone.findById
            (Milestone.toggleComplete (Milestone.toggleComplete s now₁ id).2 now₂ id).2 id
          = some { m with completed := some false, completed_at := none })) ∧
    (Milestone.findById s id = none → Milestone.toggleComplete s now₁ id = (none, s)) := by
  constructor
  · intro m hfound hfalse
    have hfirst : Milestone.toggleComplete s now₁ id = Milestone.complete s now₁ id := by
      unfold Milestone.toggleComplete
      rw [hfound]
      simp [hfalse]
    obtain ⟨hret, hfound'⟩ := complete_of_found s now₁ id m hfound
    have hstore₁ : (Milestone.complete s now₁ id).2
        = { s with milestones := s.milestones.map (fun r =>
              if r.id = id then { r with completed := some true, completed_at := some now₁ }
              else r) } := by
      simp [Milestone.complete, sqlUpdate]
    have hsecond : Milestone.toggleComplete (Milestone.complete s now₁ id).2 now₂ id
        = Milestone.uncomplete (Milestone.complete s now₁ id).2 id := by
      unfold Milestone.toggleComplete
      rw [hfound']
      simp
    have hret₂ := uncomplete_of_found (Milestone.complete s now₁ id).2 id _ hfound'
    have hfound₂ := uncomplete_findById (Milestone.complete s now₁ id).2 id _ hfound'
    have hstore₂ : (Milestone.uncomplete (Milestone.complete s now₁ id).2 id).2
        = { s with milestones := s.milestones.map (fun r =>
              if r.id = id then { r with completed := some false, completed_at := none }
              else r) } := by
      rw [hstore₁]
      simp only [Milestone.uncomplete, sqlUpdate, List.map_map]
      congr 1
      apply List.map_congr_left
      intro r _
      by_cases hr : r.id = id <;> simp [hr]
    rw [hfirst, hsecond]
    exact ⟨⟨hret, hstore₁, hfound'⟩, ⟨hret₂, hstore₂, hfound₂⟩⟩
  · intro hnone
    unfold Milestone.toggleComplete
    rw [hnone]

/-- C8 at milestone 1 (not completed) toggled at times 20 and 30, and at id 99,
which names no milestone. -/
theorem C8_toggle_is_a_flip_witness :
    Milestone.findById exampleStore 1 = some (exampleMilestone 1 (some 1) (some 0) 10) ∧
    (exampleMilestone 1 (some 1) (some 0) 10).completed = some false ∧
    (Milestone.toggleComplete exampleStore 20 1).1
      = some { exampleMilestone 1 (some 1) (some 0) 10 with
                completed := some true, completed_at := some 20 } ∧
    (Milestone.toggleComplete (Milestone.toggleComplete exampleStore 20 1).2 30 1).1
      = some { exampleMilestone 1 (some 1) (some 0) 10 with
                completed := some false, completed_at := none } ∧
    (Milestone.toggleComplete exampleStore 20 1).2.milestones.map
        (fun r => (r.id, r.completed, r.completed_at))
      = [(1, some true, some 20), (2, some false, none), (3, some false, none),
         (4, some false, none)] ∧
    (Milestone.toggleComplete (Milestone.toggleComplete exampleStore 20 1).2 30 1).2
      = exampleStore ∧
    Milestone.findById
        (Milestone.toggleComplete (Milestone.toggleComplete exampleStore 20 1).2 30 1).2 1
      = some { exampleMilestone 1 (some 1) (some 0) 10 with
                completed := some false, completed_at := none } ∧
    Milestone.findById exampleStore 99 = none ∧
    Milestone.toggleComplete exampleStore 20 99 = (none, exampleStore) :=
  have h := (C8_toggle_is_a_flip exampleStore 20 30 1).1
    (exampleMilestone 1 (some 1) (some 0) 10) (by decide) (by decide)
  ⟨by decide, by decide, h.1.1, h.2.1, by decide, by decide, h.2.2.2, by decide,
    (C8_toggle_is_a_flip exampleStore 20 30 99).2 (by decide)⟩

/-- C9: for a goal id with a row, `Goal.findByIdWithMilestones` returns that row
together with exactly the milestones whose `goal_id` is the id, each listed
before every row with a greater order index and, among equal order indices,
before every row created no earlier (NULL last in both columns); for a goal id
with no row it returns null. -/
theorem C9_aggregate_fetch_ordering (s : Store) (id : Int) :
    (∀ goal, (s.goals.filter (fun g => g.id == id)).head? = some goal →
      ∃ r, Goal.findByIdWithMilestones s id = some r ∧ r.goal = goal ∧
        r.milestones.Perm (s.milestones.filter (fun m => m.goal_id == some id)) ∧
        r.milestones.Pairwise (fun a b =>
          nullsLastLt a.order_index b.order_index = true ∨
          (a.order_index = b.order_index ∧
            nullsLastLe a.created_at b.created_at = true))) ∧
    ((∀ goal ∈ s.goals, goal.id ≠ id) → Goal.findByIdWithMilestones s id = none) := by
  constructor
  · intro goal hgoal
    unfold Goal.findByIdWithMilestones
    cases hrows : s.goals.filter (fun g => g.id == id) with
    | nil => rw [hrows] at hgoal; cases hgoal
    | cons first rest =>
      rw [hrows] at hgoal
      simp only [List.head?_cons, Option.some.injEq] at hgoal
      subst hgoal
      refine ⟨_, rfl, rfl, List.perm_insertionSort _ _, ?_⟩
      have hsorted := List.sorted_insertionSort MilestoneRow.le
        (s.milestones.filter (fun m => m.goal_id == some id))
      refine List.Pairwise.imp ?_ hsorted
      intro a b hab
      unfold MilestoneRow.le orderByIndexCreated at hab
      simpa using hab
  · intro hnone
    have hfilter : s.goals.filter (fun g => g.id == id) = [] := by
      rw [List.filter_eq_nil_iff]
      intro goal hmem hcond
      exact hnone goal hmem (by simpa using hcond)
    unfold Goal.findByIdWithMilestones
    rw [hfilter]

/-- C9 at goal 1 whose milestones 1, 2, 3 were created in that order with the
order indices 2, 0, 1: they are returned as 2, 3, 1, that is by index 0, 1, 2;
goal id 99 has no row. -/
theorem C9_aggregate_fetch_ordering_witness :
    (exampleShuffled.goals.filter (fun g => g.id == 1)).head? = some (exampleGoal 1 1) ∧
    (∃ r, Goal.findByIdWithMilestones exampleShuffled 1 = some r ∧ r.goal = exampleGoal 1 1 ∧
        r.milestones.Perm (exampleShuffled.milestones.filter (fun m => m.goal_id == some 1)) ∧
        r.milestones.Pairwise (fun a b =>
          nullsLastLt a.order_index b.order_index = true ∨
          (a.order_index = b.order_index ∧
            nullsLastLe a.created_at b.created_at = true))) ∧
    (Goal.findByIdWithMilestones exampleShuffled 1).map
        (fun r => indexById r.milestones)
      = some [(2, some 0), (3, some 1), (1, some 2)] ∧
    (∀ goal ∈ exampleShuffled.goals, goal.id ≠ 99) ∧
    Goal.findByIdWithMilestones exampleShuffled 99 = none :=
  ⟨by decide, (C9_aggregate_fetch_ordering exampleShuffled 1).1 _ (by decide), by decide,
    by decide, (C9_aggregate_fetch_ordering exampleShuffled 99).2 (by decide)⟩

/-- C10: after a successful `Milestone.reorder(G, ids)`, a milestone of goal `G`
whose id occurs in `ids`, once or several times, has the position of the last
occurrence of its id as order index. -/
theorem C10_reorder_last_write_wins (s : Store) (fault : Option Fault) (G : Int)
    (ids : List Int) (m : MilestoneRow) (j : Nat) (hj : j < ids.length)
    (hok : (Milestone.reorder s fault G ids).1 = .ok true)
    (hm : m ∈ (Milestone.reorder s fault G ids).2.milestones)
    (hG : m.goal_id = some G) (hat : ids[j] = m.id)
    (hlast : ∀ (k : Nat) (hk : k < ids.length), j < k → ids[k] ≠ m.id) :
    m.order_index = some (j : Int) := by
  rw [reorder_of_ok s fault G ids hok] at hm
  obtain ⟨m0, _, rfl⟩ := List.mem_map.mp hm
  rw [reorderRow_goal_id] at hG
  rw [reorderRow_id] at hat hlast
  have := reorderRow_last G ids 0 m0 j hj hG hat hlast
  simpa using this

/-- C10 at goal 1 reordered with `[1, 2, 1]`: milestone 1 occurs at positions 0
and 2 and ends at order index 2. -/
theorem C10_reorder_last_write_wins_witness :
    (Milestone.reorder exampleStore none 1 [1, 2, 1]).1 = .ok true ∧
    exampleMilestone 1 (some 1) (some 2) 10
      ∈ (Milestone.reorder exampleStore none 1 [1, 2, 1]).2.milestones ∧
    ([1, 2, 1] : List Int)[0] = 1 ∧ ([1, 2, 1] : List Int)[2] = 1 ∧
    (exampleMilestone 1 (some 1) (some 2) 10).order_index = some ((2 : Nat) : Int) :=
  ⟨by decide, by decide, by decide, by decide,
    C10_reorder_last_write_wins exampleStore none 1 [1, 2, 1]
      (exampleMilestone 1 (some 1) (some 2) 10) 2 (by decide) (by decide) (by decide) rfl
      (by decide) (by intro k hk hlt; simp at hk; omega)⟩

/-- C11: `Milestone.reorder(G, [])` returns true under every fault plan, so no
UPDATE is sent that the store could reject, and the store, hence the list
returned by `Milestone.findByGoalId`, is left as it was. -/
theorem C11_reorder_empty_is_noop (s : Store) (fault : Option Fault) (G : Int) :
    Milestone.reorder s fault G [] = (.ok true, s) ∧
    Milestone.findByGoalId (Milestone.reorder s fault G []).2 G
      = Milestone.findByGoalId s G := by
  have h : Milestone.reorder s fault G [] = (.ok true, s) := by
    unfold Milestone.reorder Milestone.reorderOn
    rw [Milestone.reorderLoop]
  rw [h]
  exact ⟨rfl, rfl⟩

/-- C12: after `Goal.delete(G)` no milestone with `goal_id = G` and no goal
with id `G` remains; the milestones and goals left are exactly the rows of other
goals, unchanged; every saved course that referenced `G` is still there with its
goal reference null, every other saved course is unchanged, none is added or
removed; the users are unchanged. -/
theorem C12_goal_delete_cascades (s : Store) (G : Int) :
    (∀ m, m ∈ (Goal.delete s G).2.milestones ↔ m ∈ s.milestones ∧ m.goal_id ≠ some G) ∧
    (∀ g, g ∈ (Goal.delete s G).2.goals ↔ g ∈ s.goals ∧ g.id ≠ G) ∧
    (Goal.delete s G).2.saved_courses.length = s.saved_courses.length ∧
    (∀ c ∈ s.saved_courses, c.goal_id = some G →
      { c with goal_id := none } ∈ (Goal.delete s G).2.saved_courses) ∧
    (∀ c ∈ s.saved_courses, c.goal_id ≠ some G → c ∈ (Goal.delete s G).2.saved_courses) ∧
    (∀ c ∈ (Goal.delete s G).2.saved_courses, c.goal_id ≠ some G) ∧
    (Goal.delete s G).2.users = s.users := by
  unfold Goal.delete
  refine ⟨?_, ?_, ?_, ?_, ?_, ?_, rfl⟩
  · intro m
    simp [List.mem_filter]
  · intro g
    simp [List.mem_filter]
  · simp
  · intro c hc hG
    simp only [List.mem_map]
    exact ⟨c, hc, by simp [hG]⟩
  · intro c hc hG
    simp only [List.mem_map]
    exact ⟨c, hc, by simp [hG]⟩
  · intro c hc
    simp only [List.mem_map] at hc
    obtain ⟨c0, _, rfl⟩ := hc
    by_cases h : c0.goal_id = some G
    · simp [h]
    · simp [h]

/-- C12 at goal 1 of the example store with saved courses: milestone 4 of goal 2
is all that is left of the milestones, and course 1 stays with its goal
reference cleared. -/
theorem C12_goal_delete_cascades_witness :
    exampleCourse 1 1 "c-1" (some 1) ∈ exampleSaved.saved_courses ∧
    exampleCourse 1 1 "c-1" none ∈ (Goal.delete exampleSaved 1).2.saved_courses ∧
    exampleCourse 2 2 "c-2" (some 2) ∈ (Goal.delete exampleSaved 1).2.saved_courses ∧
    (Goal.delete exampleSaved 1).2.milestones = [exampleMilestone 4 (some 2) (some 5) 13] ∧
    (∀ m, m ∈ (Goal.delete exampleSaved 1).2.milestones ↔
      m ∈ exampleSaved.milestones ∧ m.goal_id ≠ some 1) :=
  ⟨by decide,
    (C12_goal_delete_cascades exampleSaved 1).2.2.2.1 (exampleCourse 1 1 "c-1" (some 1))
      (by decide) rfl,
    (C12_goal_delete_cascades exampleSaved 1).2.2.2.2.1 (exampleCourse 2 2 "c-2" (some 2))
      (by decide) (by decide),
    by decide, (C12_goal_delete_cascades exampleSaved 1).1⟩

/-- C13: the error handler answers a ValidationError with 400 and the list in
`details`, an UnauthorizedError with 401, a ForbiddenError with 403, a
NotFoundError with 404 and the message `<resource> not found`, a store error
with code 23505 with 409, an unclassified error with 500; every body carries a
non-empty label in `error` and a message. -/
theorem C13_error_handler_maps_kinds (nodeEnv : Option String) :
    (∀ errors, errorHandler nodeEnv (.api (.ValidationError errors))
      = { status := 400,
          body := { error := "ValidationError", message := "Validation failed",
                    details := some (some errors) } }) ∧
    (∀ message, errorHandler nodeEnv (.api (.UnauthorizedError message))
      = { status := 401,
          body := { error := "UnauthorizedError", message := message,
                    details := some none } }) ∧
    (∀ message, errorHandler nodeEnv (.api (.ForbiddenError message))
      = { status := 403,
          body := { error := "ForbiddenError", message := message, details := some none } }) ∧
    (∀ resource, errorHandler nodeEnv (.api (.NotFoundError resource))
      = { status := 404,
          body := { error := "NotFoundError", message := resource ++ " not found",
                    details := some none } }) ∧
    (∀ e : JsError, e.code = some "23505" →
      errorHandler nodeEnv (.error e)
        = { status := 409,
            body := { error := "Conflict",
                      message := "A resource with this identifier already exists",
                      details := none } }) ∧
    (∀ e : JsError, e.unclassified →
      (errorHandler nodeEnv (.error e)).status = 500 ∧
      (errorHandler nodeEnv (.error e)).body.error = "Internal Server Error") ∧
    (∀ err, (errorHandler nodeEnv err).body.error ≠ "") := by
  refine ⟨fun _ => rfl, fun _ => rfl, fun _ => rfl, fun _ => rfl, ?_, ?_, ?_⟩
  · intro e h
    simp [errorHandler, h]
  · rintro e ⟨h1, h2, h3, h4, h5⟩
    simp [errorHandler, h1, h2, h3, h4, h5]
  · intro err
    cases err with
    | api e =>
      simp only [errorHandler]
      split
      · decide
      · assumption
    | error e =>
      simp only [errorHandler]
      split_ifs <;> simp

/-- C13 at a duplicate-key store error and at a TypeError. -/
theorem C13_error_handler_maps_kinds_witness :
    (errorHandler (some "production")
        (.error { name := "error", message := "duplicate key value", code := some "23505" })).status
      = 409 ∧
    JsError.unclassified { name := "TypeError", message := "x is undefined", code := none } ∧
    (errorHandler (some "production")
        (.error { name := "TypeError", message := "x is undefined", code := none })).status
      = 500 :=
  ⟨congrArg ErrorResponse.status
      ((C13_error_handler_maps_kinds (some "production")).2.2.2.2.1
        { name := "error", message := "duplicate key value", code := some "23505" } rfl),
    by decide,
    ((C13_error_handler_maps_kinds (some "production")).2.2.2.2.2.1
      { name := "TypeError", message := "x is undefined", code := none } (by decide)).1⟩

/-- C14: with NODE_ENV `production` any two unclassified errors get the same
response, status 500 with the message `An unexpected error occurred`; and under
any NODE_ENV two store errors with the same code among 23505, 23503, 22P02 get
the same response, whatever their messages. -/
theorem C14_production_suppresses_detail (e₁ e₂ : JsError) :
    (e₁.unclassified → e₂.unclassified →
      errorHandler (some "production") (.error e₁)
        = errorHandler (some "production") (.error e₂) ∧
      errorHandler (some "production") (.error e₁)
        = { status := 500,
            body := { error := "Internal Server Error",
                      message := "An unexpected error occurred", details := none } }) ∧
    (∀ nodeEnv code, code ∈ ["23505", "23503", "22P02"] →
      e₁.code = some code → e₂.code = some code →
      errorHandler nodeEnv (.error e₁) = errorHandler nodeEnv (.error e₂)) := by
  constructor
  · rintro ⟨a1, a2, a3, a4, a5⟩ ⟨b1, b2, b3, b4, b5⟩
    simp [errorHandler, a1, a2, a3, a4, a5, b1, b2, b3, b4, b5]
  · intro nodeEnv code hcode h1 h2
    simp only [List.mem_cons, List.mem_singleton, List.not_mem_nil, or_false] at hcode
    rcases hcode with rfl | rfl | rfl <;> simp [errorHandler, h1, h2]

/-- C14 at two unclassified errors with different messages, and at two
duplicate-key errors with different messages. -/
theorem C14_production_suppresses_detail_witness :
    JsError.unclassified { name := "TypeError", message := "x is undefined", code := none } ∧
    JsError.unclassified
      { name := "Error", message := "connect ECONNREFUSED", code := some "ECONNREFUSED" } ∧
    errorHandler (some "production")
        (.error { name := "TypeError", message := "x is undefined", code := none })
      = errorHandler (some "production")
        (.error { name := "Error", message := "connect ECONNREFUSED",
                  code := some "ECONNREFUSED" }) :=
  ⟨by decide, by decide,
    ((C14_production_suppresses_detail
      { name := "TypeError", message := "x is undefined", code := none }
      { name := "Error", message := "connect ECONNREFUSED", code := some "ECONNREFUSED" }).1
      (by decide) (by decide)).1⟩

/-! ## Lemmas on the authentication middleware -/

theorem authenticate_verified (verify : Verifier) (h : String) (p : TokenPayload)
    (hh : h ≠ "") (htoken : bearerToken h ≠ "") (hok : verify (bearerToken h) = .ok p) :
    authenticate verify (some h) = { user := some p, nextCalls := [none] } := by
  simp [authenticate, hh, htoken, hok]

theorem authenticate_rejected (verify : Verifier) (h : String) (e : JsError)
    (hh : h ≠ "") (htoken : bearerToken h ≠ "") (herr : verify (bearerToken h) = .error e) :
    authenticate verify (some h)
      = (if e.name = "JsonWebTokenError" ∨ e.name = "TokenExpiredError" then
          { user := none,
            nextCalls := [some (.api (.UnauthorizedError "Invalid or expired token"))] }
        else { user := none, nextCalls := [some (.error e)] }) := by
  simp [authenticate, hh, htoken, herr]

/-- The requests `authenticate` lets through are those whose token verifies. -/
theorem authenticate_user_iff (verify : Verifier) (authorization : Option String)
    (p : TokenPayload) :
    (authenticate verify authorization).user = some p ↔
      ∃ h, authorization = some h ∧ h ≠ "" ∧ bearerToken h ≠ "" ∧
        verify (bearerToken h) = .ok p := by
  cases authorization with
  | none => simp [authenticate]
  | some h =>
    by_cases hh : h = ""
    · simp [authenticate, hh]
    · by_cases htoken : bearerToken h = ""
      · simp [authenticate, hh, htoken]
      · cases hv : verify (bearerToken h) with
        | ok q =>
          rw [authenticate_verified verify h q hh htoken hv]
          simp [hh, htoken, hv]
        | error e =>
          rw [authenticate_rejected verify h e hh htoken hv]
          split <;> simp [hh, htoken, hv]

theorem authenticate_next_iff (verify : Verifier) (authorization : Option String) :
    (authenticate verify authorization).nextCalls = [none] ↔
      ∃ h p, authorization = some h ∧ h ≠ "" ∧ bearerToken h ≠ "" ∧
        verify (bearerToken h) = .ok p := by
  cases authorization with
  | none => simp [authenticate]
  | some h =>
    by_cases hh : h = ""
    · simp [authenticate, hh]
    · by_cases htoken : bearerToken h = ""
      · simp [authenticate, hh, htoken]
      · cases hv : verify (bearerToken h) with
        | ok q =>
          rw [authenticate_verified verify h q hh htoken hv]
          simp [hh, htoken, hv]
        | error e =>
          rw [authenticate_rejected verify h e hh htoken hv]
          split <;> simp [hh, htoken, hv]

theorem optionalAuth_failed (verify : Verifier) (h : String) (e : JsError)
    (herr : verify (bearerToken h) = .error e) :
    optionalAuth verify (some h) = { user := none, nextCalls := [none] } := by
  unfold optionalAuth
  simp only
  split_ifs
  · rfl
  · rfl
  · rw [herr]

/-- C15: `authenticate` passes an UnauthorizedError (401) to `next` and sets no
user when the Authorization header is absent or empty, when the token left
after stripping `Bearer ` is empty, and when verification throws a
JsonWebTokenError (malformed) or a TokenExpiredError; when the token verifies it
sets `req.user` to the decoded payload and calls `next` without error; and it
sets a user, or calls `next` without error, exactly when the token verifies. -/
theorem C15_authenticate_admits_verified_token (verify : Verifier)
    (authorization : Option String) :
    ((authorization = none ∨ authorization = some "") →
      authenticate verify authorization
        = { user := none,
            nextCalls :=
              [some (.api (.UnauthorizedError "No authorization header provided"))] }) ∧
    (∀ h, authorization = some h → h ≠ "" → bearerToken h = "" →
      authenticate verify authorization
        = { user := none,
            nextCalls := [some (.api (.UnauthorizedError "No token provided"))] }) ∧
    (∀ h e, authorization = some h → h ≠ "" → bearerToken h ≠ "" →
      verify (bearerToken h) = .error e →
      (e.name = "JsonWebTokenError" ∨ e.name = "TokenExpiredError") →
      authenticate verify authorization
        = { user := none,
            nextCalls := [some (.api (.UnauthorizedError "Invalid or expired token"))] }) ∧
    (∀ h p, authorization = some h → h ≠ "" → bearerToken h ≠ "" →
      verify (bearerToken h) = .ok p →
      authenticate verify authorization = { user := some p, nextCalls := [none] }) ∧
    (∀ p, (authenticate verify authorization).user = some p ↔
      ∃ h, authorization = some h ∧ h ≠ "" ∧ bearerToken h ≠ "" ∧
        verify (bearerToken h) = .ok p) ∧
    ((authenticate verify authorization).nextCalls = [none] ↔
      ∃ h p, authorization = some h ∧ h ≠ "" ∧ bearerToken h ≠ "" ∧
        verify (bearerToken h) = .ok p) ∧
    (∀ message, (ApiError.UnauthorizedError message).statusCode = 401) := by
  refine ⟨?_, ?_, ?_, ?_, authenticate_user_iff verify authorization,
    authenticate_next_iff verify authorization, fun _ => rfl⟩
  · rintro (rfl | rfl) <;> simp [authenticate]
  · rintro h rfl hh htoken
    simp [authenticate, hh, htoken]
  · rintro h e rfl hh htoken herr hname
    rw [authenticate_rejected verify h e hh htoken herr, if_pos hname]
  · rintro h p rfl hh htoken hok
    exact authenticate_verified verify h p hh htoken hok

/-- C15 at a request without header, at the header `Bearer ` with nothing after
it, at an expired token and at a token that verifies. -/
theorem C15_authenticate_admits_verified_token_witness :
    authenticate exampleVerify none
      = { user := none,
          nextCalls :=
            [some (.api (.UnauthorizedError "No authorization header provided"))] } ∧
    bearerToken "Bearer " = "" ∧
    authenticate exampleVerify (some "Bearer ")
      = { user := none, nextCalls := [some (.api (.UnauthorizedError "No token provided"))] } ∧
    bearerToken "Bearer expired" = "expired" ∧
    authenticate exampleVerify (some "Bearer expired")
      = { user := none,
          nextCalls := [some (.api (.UnauthorizedError "Invalid or expired token"))] } ∧
    bearerToken "Bearer valid" = "valid" ∧
    authenticate exampleVerify (some "Bearer valid")
      = { user := some examplePayload, nextCalls := [none] } :=
  ⟨(C15_authenticate_admits_verified_token exampleVerify none).1 (Or.inl rfl),
    by decide,
    (C15_authenticate_admits_verified_token exampleVerify (some "Bearer ")).2.1 "Bearer " rfl
      (by decide) (by decide),
    by decide,
    (C15_authenticate_admits_verified_token exampleVerify (some "Bearer expired")).2.2.1
      "Bearer expired" { name := "TokenExpiredError", message := "jwt expired", code := none }
      rfl (by decide) (by decide) (by decide) (Or.inr rfl),
    by decide,
    (C15_authenticate_admits_verified_token exampleVerify (some "Bearer valid")).2.2.2.1
      "Bearer valid" examplePayload rfl (by decide) (by decide) (by decide)⟩

/-- C16 as stated fails: a request whose token is expired, or malformed, gets
from `optionalAuth` the very outcome of a request without Authorization header:
`next` is called without error and no user is set. -/
theorem C16_failed_token_like_absent :
    exampleVerify (bearerToken "Bearer expired")
      = .error { name := "TokenExpiredError", message := "jwt expired", code := none } ∧
    exampleVerify (bearerToken "Bearer garbled")
      = .error { name := "JsonWebTokenError", message := "jwt malformed", code := none } ∧
    optionalAuth exampleVerify (some "Bearer expired") = optionalAuth exampleVerify none ∧
    optionalAuth exampleVerify (some "Bearer garbled") = optionalAuth exampleVerify none ∧
    optionalAuth exampleVerify none = { user := none, nextCalls := [none] } := by
  decide

/-- C16, amended: `optionalAuth` treats a token that fails verification like an
absent one: for a request with no Authorization header and for a request whose
token fails verification the outcome is the same, `next` called once without
error and no user set. -/
theorem C16_optionalAuth_ignores_failed_token (verify : Verifier) (h : String) (e : JsError)
    (herr : verify (bearerToken h) = .error e) :
    optionalAuth verify (some h) = optionalAuth verify none ∧
    optionalAuth verify none = { user := none, nextCalls := [none] } := by
  rw [optionalAuth_failed verify h e herr]
  exact ⟨rfl, rfl⟩

/-- C16 amended, at an expired token. -/
theorem C16_optionalAuth_ignores_failed_token_witness :
    exampleVerify (bearerToken "Bearer expired")
      = .error { name := "TokenExpiredError", message := "jwt expired", code := none } ∧
    optionalAuth exampleVerify (some "Bearer expired") = optionalAuth exampleVerify none :=
  ⟨by decide,
    (C16_optionalAuth_ignores_failed_token exampleVerify "Bearer expired"
      { name := "TokenExpiredError", message := "jwt expired", code := none } (by decide)).1⟩

/-- C17: for every request `optionalAuth` calls `next` exactly once, without
error; `req.user` is the decoded payload when a non-empty token is present and
verifies, and is unset otherwise. -/
theorem C17_optionalAuth_never_fails (verify : Verifier) (authorization : Option String) :
    (optionalAuth verify authorization).nextCalls = [none] ∧
    (∀ p, (optionalAuth verify authorization).user = some p ↔
      ∃ h, authorization = some h ∧ h ≠ "" ∧ bearerToken h ≠ "" ∧
        verify (bearerToken h) = .ok p) := by
  cases authorization with
  | none => simp [optionalAuth]
  | some h =>
    by_cases hh : h = ""
    · simp [optionalAuth, hh]
    · by_cases htoken : bearerToken h = ""
      · simp [optionalAuth, hh, htoken]
      · cases hv : verify (bearerToken h) with
        | ok q => simp [optionalAuth, hh, htoken, hv]
        | error e => simp [optionalAuth, hh, htoken, hv]

/-- C17 at a token that verifies and at a malformed one. -/
theorem C17_optionalAuth_never_fails_witness :
    optionalAuth exampleVerify (some "Bearer valid")
      = { user := some examplePayload, nextCalls := [none] } ∧
    (optionalAuth exampleVerify (some "Bearer garbled")).nextCalls = [none] ∧
    (optionalAuth exampleVerify (some "Bearer valid")).user = some examplePayload :=
  ⟨by decide, (C17_optionalAuth_never_fails exampleVerify (some "Bearer garbled")).1,
    ((C17_optionalAuth_never_fails exampleVerify (some "Bearer valid")).2 examplePayload).mpr
      ⟨"Bearer valid", rfl, by decide, by decide, by decide⟩⟩

/-! ## Lemmas on milestone creation -/

theorem int_max?_eq_some_iff (xs : List Int) (a : Int) :
    xs.max? = some a ↔ a ∈ xs ∧ ∀ b ∈ xs, b ≤ a := by
  haveI : Std.Antisymm (fun (x y : Int) => x ≤ y) := ⟨fun h1 h2 => Int.le_antisymm h1 h2⟩
  exact List.max?_eq_some_iff (fun _ => Int.le_refl _)
    (fun a b => by rcases Int.le_total a b with h | h <;> simp [Int.max_def, h])
    (fun a b c => by simp only [Int.max_def]; split <;> omega)

/-- The order indices that are set among the milestones of goal `G`. -/
theorem mem_goal_indices (s : Store) (G i : Int) :
    i ∈ (s.milestones.filter (fun m => m.goal_id == some G)).filterMap (fun m => m.order_index)
      ↔ ∃ m ∈ s.milestones, m.goal_id = some G ∧ m.order_index = some i := by
  simp only [List.mem_filterMap, List.mem_filter, beq_iff_eq]
  constructor
  · rintro ⟨m, ⟨hm, hG⟩, hi⟩
    exact ⟨m, hm, hG, hi⟩
  · rintro ⟨m, hm, hG, hi⟩
    exact ⟨m, ⟨hm, hG⟩, hi⟩

theorem maxOrder_ge (s : Store) (G : Int) (m : MilestoneRow) (i : Int)
    (hm : m ∈ s.milestones) (hG : m.goal_id = some G) (hi : m.order_index = some i) :
    i ≤ Milestone.maxOrder s G := by
  unfold Milestone.maxOrder
  have hmem := (mem_goal_indices s G i).mpr ⟨m, hm, hG, hi⟩
  cases hmax : ((s.milestones.filter (fun m => m.goal_id == some G)).filterMap
      (fun m => m.order_index)).max? with
  | none =>
    rw [List.max?_eq_none_iff] at hmax
    rw [hmax] at hmem
    cases hmem
  | some w => exact ((int_max?_eq_some_iff _ w).mp hmax).2 i hmem

theorem maxOrder_unset (s : Store) (G : Int)
    (h : ∀ m ∈ s.milestones, m.goal_id = some G → m.order_index = none) :
    Milestone.maxOrder s G = -1 := by
  unfold Milestone.maxOrder
  cases hmax : ((s.milestones.filter (fun m => m.goal_id == some G)).filterMap
      (fun m => m.order_index)).max? with
  | none => rfl
  | some w =>
    exfalso
    obtain ⟨m, hm, hG, hi⟩ := (mem_goal_indices s G w).mp ((int_max?_eq_some_iff _ w).mp hmax).1
    rw [h m hm hG] at hi
    cases hi

theorem maxOrder_eq (s : Store) (G v : Int)
    (hv : ∃ m ∈ s.milestones, m.goal_id = some G ∧ m.order_index = some v)
    (hmax : ∀ m ∈ s.milestones, m.goal_id = some G → ∀ i, m.order_index = some i → i ≤ v) :
    Milestone.maxOrder s G = v := by
  unfold Milestone.maxOrder
  have : ((s.milestones.filter (fun m => m.goal_id == some G)).filterMap
      (fun m => m.order_index)).max? = some v := by
    rw [int_max?_eq_some_iff]
    refine ⟨(mem_goal_indices s G v).mpr hv, ?_⟩
    intro b hb
    obtain ⟨m, hm, hG, hi⟩ := (mem_goal_indices s G b).mp hb
    exact hmax m hm hG b hi
  rw [this]

theorem maxOrder_bounds (s : Store) (G : Int) (hcolumn : s.orderIndexColumn) :
    -2147483648 ≤ Milestone.maxOrder s G ∧ Milestone.maxOrder s G ≤ 2147483647 := by
  unfold Milestone.maxOrder
  cases hmax : ((s.milestones.filter (fun m => m.goal_id == some G)).filterMap
      (fun m => m.order_index)).max? with
  | none => simp
  | some w =>
    obtain ⟨m, hm, _, hi⟩ := (mem_goal_indices s G w).mp ((int_max?_eq_some_iff _ w).mp hmax).1
    have h := hcolumn m hm
    rw [hi] at h
    simp only [Option.all_some, int4, decide_eq_true_eq] at h
    simp only
    omega

theorem varcharError_of_length (n : Nat) (v : String) (h : v.length ≤ n) :
    varcharError n v = none := by
  have hdrop : v.data.drop n = [] := List.drop_eq_nil_of_le h
  simp [varcharError, hdrop]

theorem varcharValue_of_length (n : Nat) (v : String) (h : v.length ≤ n) :
    varcharValue n v = v := by
  have htake : v.data.take n = v.data := List.take_of_length_le h
  simp [varcharValue, htake]

theorem le_index_of_orderBy_int (a b : MilestoneRow) (i j : Int)
    (ha : a.order_index = some i) (hb : b.order_index = some j)
    (h : MilestoneRow.le a b) : i ≤ j := by
  unfold MilestoneRow.le orderByIndexCreated at h
  rw [ha, hb] at h
  simp [nullsLastLt] at h
  omega

/-- The INSERT of `Milestone.create` when its values fit the columns and the
goal exists. -/
theorem insert_ok (s : Store) (now : Nat) (G : Int) (title : String)
    (description : Option String) (orderIndex : Option Int)
    (hgoal : ∃ goal ∈ s.goals, goal.id = G) (hG : int4 G = true)
    (htitle : title.length ≤ 255) (hindex : ∀ i, orderIndex = some i → int4 i = true) :
    Milestone.insert s now G title description orderIndex
      = (.ok { id := s.milestones_id_seq + 1, goal_id := some G, title := title,
               description := description, completed := some false, completed_at := none,
               order_index := orderIndex, created_at := some now, updated_at := some now },
         { s with
           milestones := s.milestones ++ [
             { id := s.milestones_id_seq + 1, goal_id := some G, title := title,
               description := description, completed := some false, completed_at := none,
               order_index := orderIndex, created_at := some now, updated_at := some now }],
           milestones_id_seq := s.milestones_id_seq + 1 }) := by
  have h1 : integerError G = none := integerError_eq_none G hG
  have h2 : orderIndex.bind integerError = none := by
    cases orderIndex with
    | none => rfl
    | some i => exact integerError_eq_none i (hindex i rfl)
  have h3 : varcharError 255 title = none := varcharError_of_length 255 title htitle
  have h4 : s.goals.any (fun g => g.id == G) = true := by
    obtain ⟨goal, hmem, hid⟩ := hgoal
    exact List.any_eq_true.mpr ⟨goal, hmem, by simp [hid]⟩
  unfold Milestone.insert
  simp only [h1, h2, h3, firstError, h4, if_true, varcharValue_of_length 255 title htitle]

/-- The INSERT of `Milestone.create` sent an order index outside the range of
INTEGER. -/
theorem insert_out_of_range (s : Store) (now : Nat) (G : Int) (title : String)
    (description : Option String) (v : Int) (hG : int4 G = true) (hv : int4 v = false) :
    Milestone.insert s now G title description (some v) = (.error DbError.outOfRange, s) := by
  unfold Milestone.insert
  simp [firstError, integerError_eq_none G hG, integerError_of_not v hv]

/-- The INSERT of `Milestone.create` sent a goal id outside the range of
INTEGER. -/
theorem insert_goal_out_of_range (s : Store) (now : Nat) (G : Int) (title : String)
    (description : Option String) (orderIndex : Option Int) (hG : int4 G = false) :
    Milestone.insert s now G title description orderIndex = (.error DbError.outOfRange, s) := by
  unfold Milestone.insert
  simp [firstError, integerError_of_not G hG]

/-- The INSERT of `Milestone.create` sent a title that does not fit
VARCHAR(255). -/
theorem insert_too_long (s : Store) (now : Nat) (G : Int) (title : String)
    (description : Option String) (orderIndex : Option Int) (hG : int4 G = true)
    (hindex : ∀ i, orderIndex = some i → int4 i = true)
    (htitle : (title.data.drop 255).all (fun c => c == ' ') = false) :
    Milestone.insert s now G title description orderIndex = (.error DbError.tooLong, s) := by
  have h2 : orderIndex.bind integerError = none := by
    cases orderIndex with
    | none => rfl
    | some i => exact integerError_eq_none i (hindex i rfl)
  have h3 : varcharError 255 title = some DbError.tooLong := by
    unfold varcharError
    rw [htitle]
    rfl
  unfold Milestone.insert
  simp only [integerError_eq_none G hG, h2, h3, firstError]

/-- The INSERT of `Milestone.create` for a goal id without a goal row: the
foreign key rejects the row after the sequence has handed out its id. -/
theorem insert_foreign_key (s : Store) (now : Nat) (G : Int) (title : String)
    (description : Option String) (orderIndex : Option Int) (hG : int4 G = true)
    (hindex : ∀ i, orderIndex = some i → int4 i = true) (htitle : title.length ≤ 255)
    (hmissing : ∀ goal ∈ s.goals, goal.id ≠ G) :
    Milestone.insert s now G title description orderIndex
      = (.error DbError.foreignKey, { s with milestones_id_seq := s.milestones_id_seq + 1 }) := by
  have h2 : orderIndex.bind integerError = none := by
    cases orderIndex with
    | none => rfl
    | some i => exact integerError_eq_none i (hindex i rfl)
  have h4 : s.goals.any (fun g => g.id == G) = false := by
    rw [List.any_eq_false]
    intro goal hgoal
    simp [hmissing goal hgoal]
  unfold Milestone.insert
  simp only [integerError_eq_none G hG, h2, varcharError_of_length 255 title htitle, firstError,
    h4]
  rfl

/-- Where a row with an order index above every index of its goal stands in the
listing of the goal: after the rows with an order index, before the rows
without one. -/
theorem findByGoalId_appended (s s' : Store) (G : Int) (row : MilestoneRow) (k : Int)
    (hs' : s'.milestones = s.milestones ++ [row])
    (hrowG : row.goal_id = some G) (hk : row.order_index = some k)
    (habove : ∀ m ∈ s.milestones, m.goal_id = some G → ∀ i, m.order_index = some i → i < k) :
    ∃ before after,
      Milestone.findByGoalId s' G = before ++ row :: after ∧
      (∀ m ∈ before, m ∈ s.milestones ∧ ∃ i, m.order_index = some i ∧ i < k) ∧
      (∀ m ∈ after, m ∈ s.milestones ∧ m.goal_id = some G ∧ m.order_index = none) := by
  have hfilter : s'.milestones.filter (fun m => m.goal_id == some G)
      = s.milestones.filter (fun m => m.goal_id == some G) ++ [row] := by
    rw [hs', List.filter_append]
    simp [hrowG]
  have hperm : (Milestone.findByGoalId s' G).Perm
      (s.milestones.filter (fun m => m.goal_id == some G) ++ [row]) := by
    rw [← hfilter]
    exact findByGoalId_perm s' G
  have hsorted := findByGoalId_sorted s' G
  have hnew : row ∈ Milestone.findByGoalId s' G := hperm.symm.subset (by simp)
  have hnotold : row ∉ s.milestones.filter (fun m => m.goal_id == some G) := by
    intro hold
    have := habove row (List.mem_filter.mp hold).1 hrowG k hk
    omega
  have hcount : (Milestone.findByGoalId s' G).count row = 1 := by
    rw [hperm.count_eq row, List.count_append, List.count_eq_zero.mpr hnotold]
    simp
  obtain ⟨before, after, hL⟩ := List.append_of_mem hnew
  rw [hL] at hcount hsorted hperm
  rw [List.count_append, List.count_cons_self] at hcount
  have hb0 : row ∉ before := by
    intro h
    have := List.count_pos_iff.mpr h
    omega
  have ha0 : row ∉ after := by
    intro h
    have := List.count_pos_iff.mpr h
    omega
  have hold : ∀ m, m ∈ before ++ row :: after → m ≠ row →
      m ∈ s.milestones ∧ m.goal_id = some G := by
    intro m hm hne
    rcases List.mem_append.mp (hperm.subset hm) with h | h
    · obtain ⟨hmem, hG⟩ := List.mem_filter.mp h
      exact ⟨hmem, by simpa using hG⟩
    · exact absurd (by simpa using h) hne
  obtain ⟨_, htail, hcross⟩ := List.pairwise_append.mp hsorted
  refine ⟨before, after, hL, ?_, ?_⟩
  · intro m hm
    have hne : m ≠ row := fun h => hb0 (h ▸ hm)
    obtain ⟨hmem, hG⟩ := hold m (List.mem_append_left _ hm) hne
    refine ⟨hmem, ?_⟩
    have hle : MilestoneRow.le m row := hcross m hm row (by simp)
    cases hi : m.order_index with
    | none =>
      unfold MilestoneRow.le orderByIndexCreated at hle
      rw [hi, hk] at hle
      simp [nullsLastLt] at hle
    | some i => exact ⟨i, rfl, habove m hmem hG i hi⟩
  · intro m hm
    have hne : m ≠ row := fun h => ha0 (h ▸ hm)
    obtain ⟨hmem, hG⟩ := hold m (List.mem_append_right _ (List.mem_cons_of_mem _ hm)) hne
    refine ⟨hmem, hG, ?_⟩
    have hle : MilestoneRow.le row m := (List.pairwise_cons.mp htail).1 m hm
    cases hi : m.order_index with
    | none => rfl
    | some i =>
      have h1 := habove m hmem hG i hi
      have h2 := le_index_of_orderBy_int row m k i hk hi hle
      omega

theorem nextOrder_ok (s : Store) (G : Int) (hG : int4 G = true)
    (hcolumn : s.orderIndexColumn) (hroom : Milestone.maxOrder s G < 2147483647) :
    Milestone.nextOrder s G = .ok (Milestone.maxOrder s G + 1) := by
  have hb := maxOrder_bounds s G hcolumn
  have hnext : int4 (Milestone.maxOrder s G + 1) = true := by
    unfold int4
    rw [decide_eq_true_eq]
    omega
  unfold Milestone.nextOrder
  simp only [integerError_eq_none G hG, integerError_eq_none _ hnext]

theorem nextOrder_overflow (s : Store) (G : Int) (hG : int4 G = true)
    (hfull : 2147483647 ≤ Milestone.maxOrder s G) :
    Milestone.nextOrder s G = .error DbError.outOfRange := by
  have hnext : int4 (Milestone.maxOrder s G + 1) = false := by
    unfold int4
    rw [decide_eq_false_iff_not]
    omega
  unfold Milestone.nextOrder
  simp only [integerError_eq_none G hG, integerError_of_not _ hnext]

/-- C18 as stated fails in three ways.  Goal 1 of the example store gets a
milestone with order index 2147483647, which the route admits; the next
`Milestone.create` without an orderIndex computes MAX + 1 outside the range of
INTEGER, the SELECT is rejected with SQLSTATE 22003 and no milestone is
created.  An orderIndex of 2147483648 is not stored as given but rejected.  And
after a `Milestone.create` with `orderIndex: null`, which inserts NULL, the
milestone created next without an orderIndex gets index 3 and is listed before
the row without an index, not last. -/
theorem C18_create_rejected_or_not_last :
    (milestoneValidation
      { exampleRequest 1 1 with title := "top", orderIndex := some 2147483647 }).validationErrors
      = [] ∧
    (Route.milestoneCreate.handle exampleStore 14 none
        (milestoneValidation
          { exampleRequest 1 1 with title := "top", orderIndex := some 2147483647 })).2
      = exampleTop ∧
    (Route.milestoneCreate.handle exampleTop 20 none
        (milestoneValidation { exampleRequest 1 1 with title := "next" }))
      = (.error (.db DbError.outOfRange), exampleTop) ∧
    Milestone.create exampleTop 20 1 "next" none none
      = (.error DbError.outOfRange, exampleTop) ∧
    Milestone.create exampleStore 20 1 "next" none (some (some 2147483648))
      = (.error DbError.outOfRange, exampleStore) ∧
    (Milestone.create exampleStore 20 1 "loose" none (some none)).1.toOption.map
        (fun m => (m.id, m.order_index)) = some (5, none) ∧
    (Milestone.create (Milestone.create exampleStore 20 1 "loose" none (some none)).2
        21 1 "next" none none).1.toOption.map (fun m => (m.id, m.order_index))
      = some (6, some 3) ∧
    indexById (Milestone.findByGoalId
        (Milestone.create (Milestone.create exampleStore 20 1 "loose" none (some none)).2
          21 1 "next" none none).2 1)
      = [(1, some 0), (2, some 1), (3, some 2), (6, some 3), (5, none)] := by
  decide

/-- C18, amended: let the stored order indices be INTEGER values.
`COALESCE(MAX(order_index), -1)` over the milestones of `G` is -1 when none of
them has an order index and their greatest order index otherwise.  For a goal
`G` that exists, with an id within the range of INTEGER, and a title of at most
255 characters: when that value is below 2147483647, `Milestone.create` without
an orderIndex appends a milestone of `G` with the value + 1 as order index,
which is greater than every order index of `G`; `Milestone.findByGoalId` lists
it after the milestones of `G` that have an order index and before those that
have none, hence last when all have one; an orderIndex within the range of
INTEGER is stored as given; and `orderIndex: null` stores NULL.  The call is
rejected with SQLSTATE 22003, the store staying as it was, when the value is
2147483647, when the orderIndex is outside the range of INTEGER, and when the
goal id is; with 22001, the store staying as it was, when the title does not
fit VARCHAR(255); and with 23503 when the goal does not exist, the sequence of
ids having advanced. -/
theorem C18_create_assigns_next_index (s : Store) (now : Nat) (G : Int) (title : String)
    (description : Option String) (hcolumn : s.orderIndexColumn) :
    ((∀ m ∈ s.milestones, m.goal_id = some G → m.order_index = none) →
      Milestone.maxOrder s G = -1) ∧
    (∀ v, (∃ m ∈ s.milestones, m.goal_id = some G ∧ m.order_index = some v) →
      (∀ m ∈ s.milestones, m.goal_id = some G → ∀ i, m.order_index = some i → i ≤ v) →
      Milestone.maxOrder s G = v) ∧
    (int4 G = true → (∃ goal ∈ s.goals, goal.id = G) → title.length ≤ 255 →
      (Milestone.maxOrder s G < 2147483647 →
        ∃ row : MilestoneRow,
          Milestone.create s now G title description none
            = (.ok row, { s with milestones := s.milestones ++ [row],
                                 milestones_id_seq := s.milestones_id_seq + 1 }) ∧
          row.order_index = some (Milestone.maxOrder s G + 1) ∧
          row.goal_id = some G ∧ row.title = title ∧ row.description = description ∧
          row.completed = some false ∧ row.completed_at = none ∧
          (∀ m ∈ s.milestones, m.goal_id = some G → ∀ i, m.order_index = some i →
            i < Milestone.maxOrder s G + 1) ∧
          (∃ before after,
            Milestone.findByGoalId (Milestone.create s now G title description none).2 G
              = before ++ row :: after ∧
            (∀ m ∈ before, m ∈ s.milestones ∧
              ∃ i, m.order_index = some i ∧ i < Milestone.maxOrder s G + 1) ∧
            (∀ m ∈ after, m ∈ s.milestones ∧ m.goal_id = some G ∧ m.order_index = none)) ∧
          ((∀ m ∈ s.milestones, m.goal_id = some G → m.order_index ≠ none) →
            (Milestone.findByGoalId (Milestone.create s now G title description none).2
              G).getLast? = some row)) ∧
      (∀ v, int4 v = true →
        ∃ row : MilestoneRow,
          Milestone.create s now G title description (some (some v))
            = (.ok row, { s with milestones := s.milestones ++ [row],
                                 milestones_id_seq := s.milestones_id_seq + 1 }) ∧
          row.order_index = some v ∧ row.goal_id = some G ∧ row.title = title) ∧
      (∃ row : MilestoneRow,
        Milestone.create s now G title description (some none)
          = (.ok row, { s with milestones := s.milestones ++ [row],
                               milestones_id_seq := s.milestones_id_seq + 1 }) ∧
        row.order_index = none ∧ row.goal_id = some G ∧ row.title = title)) ∧
    (int4 G = true → 2147483647 ≤ Milestone.maxOrder s G →
      Milestone.create s now G title description none = (.error DbError.outOfRange, s)) ∧
    (∀ v, int4 v = false →
      Milestone.create s now G title description (some (some v))
        = (.error DbError.outOfRange, s)) ∧
    (int4 G = false → ∀ orderIndex,
      Milestone.create s now G title description orderIndex
        = (.error DbError.outOfRange, s)) ∧
    (int4 G = true → (title.data.drop 255).all (fun c => c == ' ') = false →
      ∀ orderIndex : Option Int, (∀ v, orderIndex = some v → int4 v = true) →
      Milestone.create s now G title description (some orderIndex)
        = (.error DbError.tooLong, s)) ∧
    (int4 G = true → title.length ≤ 255 → (∀ goal ∈ s.goals, goal.id ≠ G) →
      ∀ orderIndex : Option Int, (∀ v, orderIndex = some v → int4 v = true) →
      Milestone.create s now G title description (some orderIndex)
        = (.error DbError.foreignKey,
           { s with milestones_id_seq := s.milestones_id_seq + 1 })) := by
  refine ⟨maxOrder_unset s G, fun v hv hmax => maxOrder_eq s G v hv hmax, ?_, ?_, ?_, ?_, ?_, ?_⟩
  · intro hG hgoal htitle
    refine ⟨?_, ?_, ?_⟩
    · intro hroom
      have hcreate : Milestone.create s now G title description none
          = Milestone.insert s now G title description (some (Milestone.maxOrder s G + 1)) := by
        unfold Milestone.create
        simp only [nextOrder_ok s G hG hcolumn hroom]
      have hb := maxOrder_bounds s G hcolumn
      have hinsert := insert_ok s now G title description (some (Milestone.maxOrder s G + 1))
        hgoal hG htitle (by
          intro i hi
          cases hi
          unfold int4
          rw [decide_eq_true_eq]
          omega)
      have habove : ∀ m ∈ s.milestones, m.goal_id = some G → ∀ i, m.order_index = some i →
          i < Milestone.maxOrder s G + 1 := by
        intro m hm hmG i hi
        have := maxOrder_ge s G m i hm hmG hi
        omega
      rw [hcreate, hinsert]
      obtain ⟨before, after, hL, hbefore, hafter⟩ := findByGoalId_appended s
        { s with
          milestones := s.milestones ++ [
            { id := s.milestones_id_seq + 1, goal_id := some G, title := title,
              description := description, completed := some false, completed_at := none,
              order_index := some (Milestone.maxOrder s G + 1), created_at := some now,
              updated_at := some now }],
          milestones_id_seq := s.milestones_id_seq + 1 } G
        { id := s.milestones_id_seq + 1, goal_id := some G, title := title,
          description := description, completed := some false, completed_at := none,
          order_index := some (Milestone.maxOrder s G + 1), created_at := some now,
          updated_at := some now } (Milestone.maxOrder s G + 1) rfl rfl rfl habove
      refine ⟨_, rfl, rfl, rfl, rfl, rfl, rfl, rfl, habove,
        ⟨before, after, hL, hbefore, hafter⟩, ?_⟩
      intro hset
      have hnil : after = [] := by
        cases after with
        | nil => rfl
        | cons m rest =>
          obtain ⟨hmem, hmG, hnone⟩ := hafter m (by simp)
          exact absurd hnone (hset m hmem hmG)
      rw [hL, hnil]
      simp
    · intro v hv
      exact ⟨_, insert_ok s now G title description (some v) hgoal hG htitle
        (by intro i hi; cases hi; exact hv), rfl, rfl, rfl⟩
    · exact ⟨_, insert_ok s now G title description none hgoal hG htitle
        (by intro i hi; cases hi), rfl, rfl, rfl⟩
  · intro hG hfull
    unfold Milestone.create
    simp only [nextOrder_overflow s G hG hfull]
  · intro v hv
    cases hG : int4 G with
    | true => exact insert_out_of_range s now G title description v hG hv
    | false => exact insert_goal_out_of_range s now G title description (some v) hG
  · intro hG orderIndex
    cases orderIndex with
    | none =>
      unfold Milestone.create Milestone.nextOrder
      simp only [integerError_of_not G hG]
    | some orderIndex => exact insert_goal_out_of_range s now G title description orderIndex hG
  · intro hG htitle orderIndex hindex
    exact insert_too_long s now G title description orderIndex hG hindex htitle
  · intro hG htitle hmissing orderIndex hindex
    exact insert_foreign_key s now G title description orderIndex hG hindex htitle hmissing

/-- C18 amended, at goal 1 of the example store, whose milestones carry the
indices 0, 1, 2: the new milestone gets index 3 and is listed last; with index
7 supplied it is stored with 7; for goal 99, which does not exist, the INSERT
is rejected. -/
theorem C18_create_assigns_next_index_witness :
    exampleStore.orderIndexColumn ∧
    (∃ goal ∈ exampleStore.goals, goal.id = 1) ∧ int4 1 = true ∧ "next".length ≤ 255 ∧
    Milestone.maxOrder exampleStore 1 = 2 ∧
    (Milestone.create exampleStore 20 1 "next" none none).1.toOption.map
      (fun m => (m.id, m.order_index)) = some (5, some 3) ∧
    (∃ row : MilestoneRow,
      Milestone.create exampleStore 20 1 "next" none none
        = (.ok row, { exampleStore with
                      milestones := exampleStore.milestones ++ [row],
                      milestones_id_seq := exampleStore.milestones_id_seq + 1 }) ∧
      row.order_index = some (Milestone.maxOrder exampleStore 1 + 1) ∧
      (Milestone.findByGoalId (Milestone.create exampleStore 20 1 "next" none none).2
        1).getLast? = some row) ∧
    (∃ row : MilestoneRow,
      Milestone.create exampleStore 20 1 "next" none (some (some 7))
        = (.ok row, { exampleStore with
                      milestones := exampleStore.milestones ++ [row],
                      milestones_id_seq := exampleStore.milestones_id_seq + 1 }) ∧
      row.order_index = some 7) ∧
    Milestone.create exampleStore 20 99 "next" none (some (some 7))
      = (.error DbError.foreignKey,
         { exampleStore with milestones_id_seq := exampleStore.milestones_id_seq + 1 }) :=
  have h := C18_create_assigns_next_index exampleStore 20 1 "next" none (by decide)
  have h99 := C18_create_assigns_next_index exampleStore 20 99 "next" none (by decide)
  have hgoal : ∃ goal ∈ exampleStore.goals, goal.id = 1 := ⟨exampleGoal 1 1, by decide, rfl⟩
  ⟨by decide, hgoal, by decide, by decide, by decide, by decide,
    (let ⟨row, hcreate, hindex, _, _, _, _, _, _, _, hlast⟩ :=
      (h.2.2.1 (by decide) hgoal (by decide)).1 (by decide)
     ⟨row, hcreate, hindex, hlast (by decide)⟩),
    (let ⟨row, hcreate, hindex, _⟩ := (h.2.2.1 (by decide) hgoal (by decide)).2.1 7 (by decide)
     ⟨row, hcreate, hindex⟩),
    h99.2.2.2.2.2.2.2 (by decide) (by decide) (by decide) (some 7)
      (by intro v hv; cases hv; decide)⟩

/-! ## Lemmas on users -/

theorem filter_unique_key {α κ : Type} [DecidableEq κ] (key : α → κ) :
    ∀ (l : List α) (a : α), (l.map key).Nodup → a ∈ l →
      l.filter (fun x => key x == key a) = [a] := by
  intro l
  induction l with
  | nil => intro a _ h; simp at h
  | cons x rest ih =>
    intro a hnd hmem
    rw [List.map_cons, List.nodup_cons] at hnd
    rcases List.mem_cons.mp hmem with rfl | hin
    · have hnone : rest.filter (fun x => key x == key a) = [] := by
        rw [List.filter_eq_nil_iff]
        intro y hy hcond
        have : key y = key a := by simpa using hcond
        exact hnd.1 (this ▸ List.mem_map_of_mem key hy)
      simp [List.filter_cons, hnone]
    · have hne : key x ≠ key a := by
        intro e
        exact hnd.1 (e ▸ List.mem_map_of_mem key hin)
      have : (key x == key a) = false := by simp [hne]
      rw [List.filter_cons, this]
      exact ih a hnd.2 hin

theorem findByGoogleId_of_mem (s : Store) (u : UserRow) (hgoogle : s.userGoogleKey)
    (hu : u ∈ s.users) : User.findByGoogleId s u.google_id = some u.view := by
  unfold User.findByGoogleId
  rw [filter_unique_key (fun u : UserRow => u.google_id) s.users u hgoogle hu]
  rfl

theorem findByGoogleId_none (s : Store) (googleId : String)
    (h : ∀ u ∈ s.users, u.google_id ≠ googleId) : User.findByGoogleId s googleId = none := by
  unfold User.findByGoogleId
  have : s.users.filter (fun u => u.google_id == googleId) = [] := by
    rw [List.filter_eq_nil_iff]
    intro u hu hcond
    exact h u hu (by simpa using hcond)
  rw [this]
  rfl

theorem user_update_of_mem (s : Store) (u : UserRow) (name avatarUrl : Option String)
    (hkey : s.userKey) (hu : u ∈ s.users) :
    (User.update s u.id name avatarUrl).1
      = some ({ u with name := coalesce name u.name,
                       avatar_url := coalesce avatarUrl u.avatar_url } : UserRow).view := by
  unfold User.update sqlReturning
  simp only
  rw [filter_unique_key (fun u : UserRow => u.id) s.users u hkey hu]
  rfl

theorem user_update_users (s : Store) (id : Int) (name avatarUrl : Option String) :
    (User.update s id name avatarUrl).2.users
      = s.users.map (fun x => if x.id == id then
          { x with name := coalesce name x.name,
                   avatar_url := coalesce avatarUrl x.avatar_url } else x) := rfl

theorem keepsOrSets_coalesce {α : Type} (param column : Option α) :
    keepsOrSets param column (coalesce param column) := by
  cases param with
  | none => exact ⟨fun v h => (by cases h), fun _ => rfl⟩
  | some v => exact ⟨fun w h => (by cases h; rfl), fun h => (by cases h)⟩

/-- C19 as stated fails: user 1 is stored with the name Ann and an avatar, and
logs in again with an identity that carries neither name nor picture.
`User.findOrCreate` returns user 1 with the stored name and avatar, not with the
supplied (absent) ones. -/
theorem C19_absent_name_keeps_stored :
    User.findByGoogleId exampleNamed "g-1" ≠ none ∧
    ((User.findOrCreate exampleNamed 50 "g-1" "u1@example.org" none none).1.map
        (fun v => (v.id, v.name, v.avatar_url)))
      = some (1, some "Ann", some "https://example.org/ann.png") ∧
    ((User.findOrCreate exampleNamed 50 "g-1" "u1@example.org" none none).1.map
        (fun v => v.name)) ≠ some none := by
  decide

/-- C19, amended: if no user has the given subject id, `User.findOrCreate`
inserts exactly one user with the given subject id, email, name and avatar and
returns it; if a user has it, nothing is inserted and that user is returned under
the same id with email and subject id unchanged, and with name and avatar each
set to the supplied value when that is non-null and kept when it is null; every
other user is unchanged; and after `User.findOrCreate`, `User.create` or
`User.update` every user id of the store is still there. -/
theorem C19_findOrCreate_creates_or_updates (s : Store) (now : Nat) (googleId email : String)
    (name avatarUrl : Option String) (hkey : s.userKey) (hgoogle : s.userGoogleKey) :
    ((∀ u ∈ s.users, u.google_id ≠ googleId) →
      ∃ row : UserRow,
        User.findOrCreate s now googleId email name avatarUrl
          = (some row.view,
             { s with users := s.users ++ [row], users_id_seq := s.users_id_seq + 1 }) ∧
        row.google_id = googleId ∧ row.email = email ∧ row.name = name ∧
        row.avatar_url = avatarUrl) ∧
    (∀ u ∈ s.users, u.google_id = googleId →
      ∃ v : UserView,
        (User.findOrCreate s now googleId email name avatarUrl).1 = some v ∧
        v.id = u.id ∧ v.email = u.email ∧ v.google_id = u.google_id ∧
        keepsOrSets name u.name v.name ∧ keepsOrSets avatarUrl u.avatar_url v.avatar_url ∧
        (User.findOrCreate s now googleId email name avatarUrl).2.users.length
          = s.users.length ∧
        ({ u with name := v.name, avatar_url := v.avatar_url } : UserRow)
          ∈ (User.findOrCreate s now googleId email name avatarUrl).2.users ∧
        (∀ x ∈ s.users, x.id ≠ u.id →
          x ∈ (User.findOrCreate s now googleId email name avatarUrl).2.users)) ∧
    (∀ u ∈ s.users,
      (∃ x ∈ (User.findOrCreate s now googleId email name avatarUrl).2.users, x.id = u.id) ∧
      (∃ x ∈ (User.create s now googleId email name avatarUrl).2.users, x.id = u.id) ∧
      (∀ id, ∃ x ∈ (User.update s id name avatarUrl).2.users, x.id = u.id)) := by
  have hupdate : ∀ u ∈ s.users, ∀ id,
      ∃ x ∈ (User.update s id name avatarUrl).2.users, x.id = u.id := by
    intro u hu id
    rw [user_update_users]
    refine ⟨_, List.mem_map.mpr ⟨u, hu, rfl⟩, ?_⟩
    split <;> rfl
  have hcreate : ∀ u ∈ s.users,
      ∃ x ∈ (User.create s now googleId email name avatarUrl).2.users, x.id = u.id := by
    intro u hu
    exact ⟨u, by simp [User.create, hu], rfl⟩
  refine ⟨?_, ?_, ?_⟩
  · intro hnone
    unfold User.findOrCreate
    rw [findByGoogleId_none s googleId hnone]
    exact ⟨_, rfl, rfl, rfl, rfl, rfl⟩
  · intro u hu hgid
    have hfound : User.findByGoogleId s googleId = some u.view := by
      rw [← hgid]
      exact findByGoogleId_of_mem s u hgoogle hu
    have hresult : User.findOrCreate s now googleId email name avatarUrl
        = User.update s u.id name avatarUrl := by
      unfold User.findOrCreate
      rw [hfound]
      rfl
    rw [hresult]
    refine ⟨_, user_update_of_mem s u name avatarUrl hkey hu, rfl, rfl, rfl,
      keepsOrSets_coalesce name u.name, keepsOrSets_coalesce avatarUrl u.avatar_url, ?_, ?_, ?_⟩
    · rw [user_update_users]
      simp
    · rw [user_update_users]
      exact List.mem_map.mpr ⟨u, hu, by simp [UserRow.view]⟩
    · intro x hx hne
      rw [user_update_users]
      exact List.mem_map.mpr ⟨x, hx, by simp [hne]⟩
  · intro u hu
    refine ⟨?_, hcreate u hu, hupdate u hu⟩
    cases hfound : User.findByGoogleId s googleId with
    | none =>
      refine ⟨u, ?_, rfl⟩
      unfold User.findOrCreate
      rw [hfound]
      simp [User.create, hu]
    | some user =>
      have hresult : User.findOrCreate s now googleId email name avatarUrl
          = User.update s user.id name avatarUrl := by
        unfold User.findOrCreate
        rw [hfound]
      rw [hresult]
      exact hupdate u hu user.id

/-- C19 amended, at the example store: a first login with subject id `g-3`
inserts user 3; a later login of user 1 with a new name and no picture renames
user 1 and keeps the stored avatar. -/
theorem C19_findOrCreate_creates_or_updates_witness :
    exampleNamed.userKey ∧ exampleNamed.userGoogleKey ∧
    (∀ u ∈ exampleNamed.users, u.google_id ≠ "g-3") ∧
    (∃ row : UserRow,
      User.findOrCreate exampleNamed 50 "g-3" "u3@example.org" (some "Cy") none
        = (some row.view,
           { exampleNamed with users := exampleNamed.users ++ [row],
                               users_id_seq := exampleNamed.users_id_seq + 1 }) ∧
      row.google_id = "g-3" ∧ row.email = "u3@example.org" ∧ row.name = some "Cy" ∧
      row.avatar_url = none) ∧
    ((User.findOrCreate exampleNamed 50 "g-1" "new@example.org" (some "Anna") none).1.map
        (fun v => (v.id, v.email, v.name, v.avatar_url)))
      = some (1, "u1@example.org", some "Anna", some "https://example.org/ann.png") :=
  ⟨by decide, by decide, by decide,
    (C19_findOrCreate_creates_or_updates exampleNamed 50 "g-3" "u3@example.org" (some "Cy") none
      (by decide) (by decide)).1 (by decide),
    by decide⟩

/-! ## Lemmas on updates -/

theorem sqlUpdate_no_match {α : Type} (rows : List α) (p : α → Bool) (f : α → α)
    (h : ∀ r ∈ rows, p r = false) : sqlUpdate rows p f = rows := by
  unfold sqlUpdate
  conv => rhs; rw [← List.map_id rows]
  apply List.map_congr_left
  intro r hr
  simp [h r hr]

theorem sqlReturning_no_match {α : Type} (rows : List α) (p : α → Bool) (f : α → α)
    (h : ∀ r ∈ rows, p r = false) : sqlReturning rows p f = [] := by
  unfold sqlReturning
  rw [List.map_eq_nil_iff, List.filter_eq_nil_iff]
  intro r hr
  simp [h r hr]

theorem sqlUpdate_unique {α : Type} (key : α → Int) (rows : List α) (f : α → α) (a : α)
    (hkey : (rows.map key).Nodup) (ha : a ∈ rows) :
    sqlUpdate rows (fun r => key r == key a) f
      = rows.map (fun r => if key r = key a then f a else r) := by
  unfold sqlUpdate
  apply List.map_congr_left
  intro r hr
  by_cases h : key r = key a
  · have : r = a := List.inj_on_of_nodup_map hkey hr ha h
    simp [this]
  · simp [h]

theorem sqlReturning_unique {α : Type} (key : α → Int) (rows : List α) (f : α → α) (a : α)
    (hkey : (rows.map key).Nodup) (ha : a ∈ rows) :
    sqlReturning rows (fun r => key r == key a) f = [f a] := by
  unfold sqlReturning
  rw [filter_key_eq key rows a hkey ha]
  rfl

theorem bind_varcharError (n : Nat) (v : Option String)
    (h : ∀ x, v = some x → x.length ≤ n) : v.bind (varcharError n) = none := by
  cases v with
  | none => rfl
  | some x => exact varcharError_of_length n x (h x rfl)

theorem map_varcharValue (n : Nat) (v : Option String)
    (h : ∀ x, v = some x → x.length ≤ n) : v.map (varcharValue n) = v := by
  cases v with
  | none => rfl
  | some x => simp [varcharValue_of_length n x (h x rfl)]

theorem statusCheck_length (v : String) (h : v ∈ statusCheck) : v.length ≤ 50 := by
  simp only [statusCheck, List.mem_cons, List.mem_singleton, List.not_mem_nil, or_false] at h
  rcases h with rfl | rfl | rfl | rfl <;> decide

/-- `Goal.update` once its parameters are read and fit the column types: the
CHECK constraints on the rows written decide. -/
theorem goalUpdate_of_params (s : Store) (id : Int) (title description category : Option String)
    (targetDate : Option DateParam) (status : Option String)
    (hid : int4 id = true) (htitle : ∀ v, title = some v → v.length ≤ 255)
    (hcategory : ∀ v, category = some v → v.length ≤ 100)
    (hdate : ∀ d, targetDate = some d → d.rejection = none)
    (hstatus : ∀ v, status = some v → v.length ≤ 50) :
    Goal.update s id title description category targetDate status
      = Goal.updateWhere s id
          (Goal.updateRow title description category (targetDate.map (fun d => d.text))
            status) := by
  have hd : targetDate.bind (fun d => d.rejection) = none := by
    cases targetDate with
    | none => rfl
    | some d => exact hdate d rfl
  unfold Goal.update
  simp only [integerError_eq_none id hid, hd, bind_varcharError 255 title htitle,
    bind_varcharError 100 category hcategory, bind_varcharError 50 status hstatus, firstError,
    map_varcharValue 255 title htitle, map_varcharValue 100 category hcategory,
    map_varcharValue 50 status hstatus]

/-- An error of `Goal.update` leaves the store as it was. -/
theorem goalUpdate_error (s : Store) (id : Int) (title description category : Option String)
    (targetDate : Option DateParam) (status : Option String) (e : DbError)
    (h : (Goal.update s id title description category targetDate status).1 = .error e) :
    (Goal.update s id title description category targetDate status).2 = s := by
  unfold Goal.update at h ⊢
  split
  · rfl
  · rename_i hfirst
    simp only [hfirst] at h
    unfold Goal.updateWhere at h ⊢
    simp only at h ⊢
    split
    · rename_i hall
      rw [if_pos hall] at h
      cases h
    · rfl

/-- `Milestone.update` once its parameters fit the column types. -/
theorem milestoneUpdate_of_params (s : Store) (id : Int) (title description : Option String)
    (orderIndex : Option Int)
    (hid : int4 id = true) (htitle : ∀ v, title = some v → v.length ≤ 255)
    (hindex : ∀ i, orderIndex = some i → int4 i = true) :
    Milestone.update s id title description orderIndex
      = Milestone.updateWhere s id (Milestone.updateRow title description orderIndex) := by
  have hi : orderIndex.bind integerError = none := by
    cases orderIndex with
    | none => rfl
    | some i => exact integerError_eq_none i (hindex i rfl)
  unfold Milestone.update
  simp only [integerError_eq_none id hid, hi, bind_varcharError 255 title htitle, firstError,
    map_varcharValue 255 title htitle]

/-- An error of `Milestone.update` leaves the store as it was. -/
theorem milestoneUpdate_error (s : Store) (id : Int) (title description : Option String)
    (orderIndex : Option Int) (e : DbError)
    (h : (Milestone.update s id title description orderIndex).1 = .error e) :
    (Milestone.update s id title description orderIndex).2 = s := by
  unfold Milestone.update at h ⊢
  split
  · rfl
  · rename_i hfirst
    simp only [hfirst, Milestone.updateWhere] at h
    cases h

/-- C20 as stated fails for payloads that the store rejects.  Goal 1 exists and
`Goal.update(1, { status: 'bogus' })` does not set the status: the UPDATE
violates the CHECK constraint of `goals.status` (SQLSTATE 23514), the call
throws and the row is as before.  Milestone 2 exists and
`Milestone.update(2, { orderIndex: 2147483648 })` does not set the order index:
the value is outside the range of INTEGER (22003); the chain of PUT
`/api/milestones/2` admits that payload and the handler passes the error on.  A
target date that the DATE input of the store rejects is not set either. -/
theorem C20_update_rejected_by_store :
    exampleGoal 1 1 ∈ exampleStore.goals ∧
    Goal.update exampleStore 1 none none none none (some "bogus")
      = (.error DbError.checkViolation, exampleStore) ∧
    exampleMilestone 2 (some 1) (some 1) 11 ∈ exampleStore.milestones ∧
    Milestone.update exampleStore 2 none none (some 2147483648)
      = (.error DbError.outOfRange, exampleStore) ∧
    (milestoneValidation
      { exampleRequest 1 2 with orderIndex := some 2147483648 }).validationErrors = [] ∧
    Route.milestoneUpdate.handle exampleStore 0 none
        (milestoneValidation { exampleRequest 1 2 with orderIndex := some 2147483648 })
      = (.error (.db DbError.outOfRange), exampleStore) ∧
    Goal.update exampleStore 1 none none none
        (some { text := "2024-02-30", rejection := some { code := "22008" } }) none
      = (.error { code := "22008" }, exampleStore) := by
  decide

/-- C20, amended.  Let the id be within the range of INTEGER.  For a goal row
with the id, in a store whose goals satisfy the CHECK constraints, and a payload
that the store accepts (title of at most 255 characters, category of at most
100, a target date that the DATE input reads, a status of the CHECK list),
`Goal.update` returns the row with each of title, description, category,
target_date, status set to the supplied value when that is non-null and kept
when it is null, with id, owner, progress and timestamps unchanged, and stores
it in place of the old row, leaving every other row and table as it was; a
status outside the CHECK list is rejected with SQLSTATE 23514.  For a milestone
row with the id and a payload that the store accepts (title of at most 255
characters, order index within the range of INTEGER), `Milestone.update` does
the same for title, description and order_index, with id, goal reference,
completion fields and timestamps unchanged; an order index outside the range is
rejected with 22003.  For an id without a row and a payload that fits the column
types both return null and leave the store as it was.  Whenever a call is
rejected, the store is left as it was.  A call is rejected with 22003 when the
id is outside the range of INTEGER, with the error of the DATE input when that
does not read the target date, and with 22001 when title, category or status do
not fit their VARCHAR column. -/
theorem C20_update_keeps_null_fields (s : Store) (id : Int) :
    (int4 id = true →
    (∀ g ∈ s.goals, g.id = id → s.goalKey → s.goalChecks →
      ∀ (title description category : Option String) (targetDate : Option DateParam)
        (status : Option String),
      (∀ v, title = some v → v.length ≤ 255) → (∀ v, category = some v → v.length ≤ 100) →
      (∀ d, targetDate = some d → d.rejection = none) →
      (∀ v, status = some v → v ∈ statusCheck) →
      ∃ g' : GoalRow,
        (Goal.update s id title description category targetDate status).1 = .ok (some g') ∧
        keepsOrSets title (some g.title) (some g'.title) ∧
        keepsOrSets description g.description g'.description ∧
        keepsOrSets category g.category g'.category ∧
        keepsOrSets (targetDate.map (fun d => d.text)) g.target_date g'.target_date ∧
        keepsOrSets status g.status g'.status ∧
        g'.id = g.id ∧ g'.user_id = g.user_id ∧ g'.progress = g.progress ∧
        g'.created_at = g.created_at ∧ g'.updated_at = g.updated_at ∧
        (Goal.update s id title description category targetDate status).2
          = { s with goals := s.goals.map (fun x => if x.id = id then g' else x) }) ∧
    (∀ g ∈ s.goals, g.id = id → s.goalKey →
      ∀ (title description category : Option String) (targetDate : Option DateParam)
        (v : String),
      (∀ v, title = some v → v.length ≤ 255) → (∀ v, category = some v → v.length ≤ 100) →
      (∀ d, targetDate = some d → d.rejection = none) →
      v.length ≤ 50 → v ∉ statusCheck →
      Goal.update s id title description category targetDate (some v)
        = (.error DbError.checkViolation, s)) ∧
    ((∀ g ∈ s.goals, g.id ≠ id) →
      ∀ (title description category : Option String) (targetDate : Option DateParam)
        (status : Option String),
      (∀ v, title = some v → v.length ≤ 255) → (∀ v, category = some v → v.length ≤ 100) →
      (∀ d, targetDate = some d → d.rejection = none) →
      (∀ v, status = some v → v.length ≤ 50) →
      Goal.update s id title description category targetDate status = (.ok none, s)) ∧
    (∀ (title description category : Option String) (targetDate : Option DateParam)
        (status : Option String) (e : DbError),
      (Goal.update s id title description category targetDate status).1 = .error e →
      (Goal.update s id title description category targetDate status).2 = s) ∧
    (∀ m ∈ s.milestones, m.id = id → s.milestoneKey →
      ∀ (title description : Option String) (orderIndex : Option Int),
      (∀ v, title = some v → v.length ≤ 255) → (∀ i, orderIndex = some i → int4 i = true) →
      ∃ m' : MilestoneRow,
        (Milestone.update s id title description orderIndex).1 = .ok (some m') ∧
        keepsOrSets title (some m.title) (some m'.title) ∧
        keepsOrSets description m.description m'.description ∧
        keepsOrSets orderIndex m.order_index m'.order_index ∧
        m'.id = m.id ∧ m'.goal_id = m.goal_id ∧ m'.completed = m.completed ∧
        m'.completed_at = m.completed_at ∧
        m'.created_at = m.created_at ∧ m'.updated_at = m.updated_at ∧
        (Milestone.update s id title description orderIndex).2
          = { s with milestones := s.milestones.map (fun x => if x.id = id then m' else x) }) ∧
    (∀ (title description : Option String) (i : Int), int4 i = false →
      Milestone.update s id title description (some i) = (.error DbError.outOfRange, s)) ∧
    ((∀ m ∈ s.milestones, m.id ≠ id) →
      ∀ (title description : Option String) (orderIndex : Option Int),
      (∀ v, title = some v → v.length ≤ 255) → (∀ i, orderIndex = some i → int4 i = true) →
      Milestone.update s id title description orderIndex = (.ok none, s)) ∧
    (∀ (title description : Option String) (orderIndex : Option Int) (e : DbError),
      (Milestone.update s id title description orderIndex).1 = .error e →
      (Milestone.update s id title description orderIndex).2 = s)) ∧
    (int4 id = false →
      (∀ (title description category : Option String) (targetDate : Option DateParam)
          (status : Option String),
        Goal.update s id title description category targetDate status
          = (.error DbError.outOfRange, s)) ∧
      (∀ (title description : Option String) (orderIndex : Option Int),
        Milestone.update s id title description orderIndex
          = (.error DbError.outOfRange, s))) ∧
    (int4 id = true →
      ∀ (title description category : Option String) (d : DateParam) (status : Option String)
        (e : DbError), d.rejection = some e →
      Goal.update s id title description category (some d) status = (.error e, s)) ∧
    (int4 id = true →
      ∀ (v : String) (description category : Option String) (targetDate : Option DateParam)
        (status : Option String),
      (∀ d, targetDate = some d → d.rejection = none) →
      (v.data.drop 255).all (fun c => c == ' ') = false →
      Goal.update s id (some v) description category targetDate status
        = (.error DbError.tooLong, s)) ∧
    (int4 id = true →
      ∀ (title description : Option String) (v : String) (targetDate : Option DateParam)
        (status : Option String),
      (∀ d, targetDate = some d → d.rejection = none) →
      (∀ x, title = some x → x.length ≤ 255) →
      (v.data.drop 100).all (fun c => c == ' ') = false →
      Goal.update s id title description (some v) targetDate status
        = (.error DbError.tooLong, s)) ∧
    (int4 id = true →
      ∀ (title description category : Option String) (targetDate : Option DateParam)
        (v : String),
      (∀ d, targetDate = some d → d.rejection = none) →
      (∀ x, title = some x → x.length ≤ 255) → (∀ x, category = some x → x.length ≤ 100) →
      (v.data.drop 50).all (fun c => c == ' ') = false →
      Goal.update s id title description category targetDate (some v)
        = (.error DbError.tooLong, s)) ∧
    (int4 id = true →
      ∀ (v : String) (description : Option String) (orderIndex : Option Int),
      (∀ i, orderIndex = some i → int4 i = true) →
      (v.data.drop 255).all (fun c => c == ' ') = false →
      Milestone.update s id (some v) description orderIndex
        = (.error DbError.tooLong, s)) := by
  have hdate : ∀ targetDate : Option DateParam,
      (∀ d, targetDate = some d → d.rejection = none) →
      targetDate.bind (fun d => d.rejection) = none := by
    intro targetDate h
    cases targetDate with
    | none => rfl
    | some d => exact h d rfl
  have hlong : ∀ (n : Nat) (v : String), (v.data.drop n).all (fun c => c == ' ') = false →
      varcharError n v = some DbError.tooLong := by
    intro n v h
    unfold varcharError
    rw [h]
    rfl
  have hindex : ∀ orderIndex : Option Int, (∀ i, orderIndex = some i → int4 i = true) →
      orderIndex.bind integerError = none := by
    intro orderIndex h
    cases orderIndex with
    | none => rfl
    | some i => exact integerError_eq_none i (h i rfl)
  refine ⟨fun hid => ⟨?_, ?_, ?_, ?_, ?_, ?_, ?_, ?_⟩, fun hid => ⟨?_, ?_⟩, ?_, ?_, ?_, ?_, ?_⟩
  rotate_left 8
  · intro title description category targetDate status
    unfold Goal.update
    simp [firstError, integerError_of_not id hid]
  · intro title description orderIndex
    unfold Milestone.update
    simp [firstError, integerError_of_not id hid]
  · intro hid title description category d status e he
    unfold Goal.update
    simp [firstError, integerError_eq_none id hid, he]
  · intro hid v description category targetDate status hd hv
    unfold Goal.update
    simp only [firstError, integerError_eq_none id hid, hdate targetDate hd, Option.some_bind,
      hlong 255 v hv]
  · intro hid title description v targetDate status hd htitle hv
    unfold Goal.update
    simp only [firstError, integerError_eq_none id hid, hdate targetDate hd,
      bind_varcharError 255 title htitle, Option.some_bind, hlong 100 v hv]
  · intro hid title description category targetDate v hd htitle hcategory hv
    unfold Goal.update
    simp only [firstError, integerError_eq_none id hid, hdate targetDate hd,
      bind_varcharError 255 title htitle, bind_varcharError 100 category hcategory,
      Option.some_bind, hlong 50 v hv]
  · intro hid v description orderIndex hi hv
    unfold Milestone.update
    simp only [firstError, integerError_eq_none id hid, hindex orderIndex hi, Option.some_bind,
      hlong 255 v hv]
  · intro g hg hgid hkey hconstraint title description category targetDate status htitle
      hcategory hdate hstatus
    subst hgid
    have hchecks : g.checks = true := hconstraint g hg
    have hlen : ∀ v, status = some v → v.length ≤ 50 :=
      fun v hv => statusCheck_length v (hstatus v hv)
    have hret : sqlReturning s.goals (fun x => x.id == g.id)
        (Goal.updateRow title description category (targetDate.map (fun d => d.text)) status)
        = [Goal.updateRow title description category (targetDate.map (fun d => d.text))
            status g] :=
      sqlReturning_unique (fun g : GoalRow => g.id) s.goals _ g hkey hg
    have hnew : (Goal.updateRow title description category (targetDate.map (fun d => d.text))
        status g).checks = true := by
      unfold GoalRow.checks at hchecks ⊢
      cases status with
      | none => simpa [Goal.updateRow, coalesce] using hchecks
      | some v =>
        have hv := hstatus v rfl
        simp only [Bool.and_eq_true] at hchecks
        simp only [Goal.updateRow, coalesce, Bool.and_eq_true]
        exact ⟨decide_eq_true hv, hchecks.2⟩
    rw [goalUpdate_of_params s g.id title description category targetDate status hid htitle
      hcategory hdate hlen]
    unfold Goal.updateWhere
    simp only [hret, List.all_cons, List.all_nil, Bool.and_true, hnew, if_true,
      List.head?_cons]
    refine ⟨_, rfl, ?_, keepsOrSets_coalesce _ _, keepsOrSets_coalesce _ _,
      keepsOrSets_coalesce _ _, keepsOrSets_coalesce _ _, rfl, rfl, rfl, rfl, rfl, ?_⟩
    · cases title with
      | none => exact ⟨fun v h => (by cases h), fun _ => rfl⟩
      | some v => exact ⟨fun w h => (by cases h; rfl), fun h => (by cases h)⟩
    · rw [sqlUpdate_unique (fun g : GoalRow => g.id) s.goals _ g hkey hg]
  · intro g hg hgid hkey title description category targetDate v htitle hcategory hdate hlen hout
    subst hgid
    have hret : sqlReturning s.goals (fun x => x.id == g.id)
        (Goal.updateRow title description category (targetDate.map (fun d => d.text)) (some v))
        = [Goal.updateRow title description category (targetDate.map (fun d => d.text))
            (some v) g] :=
      sqlReturning_unique (fun g : GoalRow => g.id) s.goals _ g hkey hg
    have hnew : (Goal.updateRow title description category (targetDate.map (fun d => d.text))
        (some v) g).checks = false := by
      simp [GoalRow.checks, Goal.updateRow, coalesce, hout]
    rw [goalUpdate_of_params s g.id title description category targetDate (some v) hid htitle
      hcategory hdate (by intro w hw; cases hw; exact hlen)]
    unfold Goal.updateWhere
    simp [hret, hnew]
  · intro hnone title description category targetDate status htitle hcategory hdate hstatus
    have hno : ∀ r ∈ s.goals, (fun g : GoalRow => g.id == id) r = false := by
      intro r hr
      simp [hnone r hr]
    rw [goalUpdate_of_params s id title description category targetDate status hid htitle
      hcategory hdate hstatus]
    unfold Goal.updateWhere
    simp only [sqlReturning_no_match _ _ _ hno, sqlUpdate_no_match _ _ _ hno]
    rfl
  · intro title description category targetDate status e h
    exact goalUpdate_error s id title description category targetDate status e h
  · intro m hm hmid hkey title description orderIndex htitle hindex
    subst hmid
    rw [milestoneUpdate_of_params s m.id title description orderIndex hid htitle hindex]
    unfold Milestone.updateWhere
    simp only [sqlReturning_unique (fun m : MilestoneRow => m.id) s.milestones _ m hkey hm]
    refine ⟨_, rfl, ?_, keepsOrSets_coalesce _ _, keepsOrSets_coalesce _ _,
      rfl, rfl, rfl, rfl, rfl, rfl, ?_⟩
    · cases title with
      | none => exact ⟨fun v h => (by cases h), fun _ => rfl⟩
      | some v => exact ⟨fun w h => (by cases h; rfl), fun h => (by cases h)⟩
    · rw [sqlUpdate_unique (fun m : MilestoneRow => m.id) s.milestones _ m hkey hm]
  · intro title description i hi
    unfold Milestone.update
    simp [firstError, integerError_eq_none id hid, integerError_of_not i hi]
  · intro hnone title description orderIndex htitle hindex
    have hno : ∀ r ∈ s.milestones, (fun m : MilestoneRow => m.id == id) r = false := by
      intro r hr
      simp [hnone r hr]
    rw [milestoneUpdate_of_params s id title description orderIndex hid htitle hindex]
    unfold Milestone.updateWhere
    simp only [sqlReturning_no_match _ _ _ hno, sqlUpdate_no_match _ _ _ hno]
    rfl
  · intro title description orderIndex e h
    exact milestoneUpdate_error s id title description orderIndex e h

/-- C20 amended, at goal 1 updated with a new title and status only, at
milestone 2 updated with a new order index only, and at id 99 without a row. -/
theorem C20_update_keeps_null_fields_witness :
    int4 1 = true ∧ int4 2 = true ∧ int4 99 = true ∧
    exampleStore.goalKey ∧ exampleStore.milestoneKey ∧
    exampleGoal 1 1 ∈ exampleStore.goals ∧ exampleStore.goalChecks ∧
    Goal.update exampleStore 1 (some "renamed") none none none (some "paused")
      = (.ok (some { exampleGoal 1 1 with title := "renamed", status := some "paused" }),
         { exampleStore with
           goals := [{ exampleGoal 1 1 with title := "renamed", status := some "paused" },
                     exampleGoal 2 2] }) ∧
    (∃ g' : GoalRow,
      (Goal.update exampleStore 1 (some "renamed") none none none (some "paused")).1
        = .ok (some g') ∧
      g'.user_id = (exampleGoal 1 1).user_id ∧ g'.progress = (exampleGoal 1 1).progress) ∧
    (∀ g ∈ exampleStore.goals, g.id ≠ 99) ∧
    Goal.update exampleStore 99 (some "renamed") none none none none
      = (.ok none, exampleStore) ∧
    (∃ m' : MilestoneRow,
      (Milestone.update exampleStore 2 none none (some 9)).1 = .ok (some m') ∧
      m' = exampleMilestone 2 (some 1) (some 9) 11) ∧
    Milestone.update exampleStore 99 none none (some 9) = (.ok none, exampleStore) :=
  have hgoal := ((C20_update_keeps_null_fields exampleStore 1).1 (by decide)).1 (exampleGoal 1 1)
    (by decide) rfl (by decide) (by decide) (some "renamed") none none none (some "paused")
    (by intro v hv; cases hv; decide) (by intro v hv; cases hv)
    (by intro d hd; cases hd) (by intro v hv; cases hv; decide)
  have hmilestone := ((C20_update_keeps_null_fields exampleStore 2).1 (by decide)).2.2.2.2.1
    (exampleMilestone 2 (some 1) (some 1) 11) (by decide) rfl (by decide) none none (some 9)
    (by intro v hv; cases hv) (by intro i hi; cases hi; decide)
  ⟨by decide, by decide, by decide, by decide, by decide, by decide, by decide, by decide,
    (let ⟨g', hret, _, _, _, _, _, _, huser, hprogress, _⟩ := hgoal
     ⟨g', hret, huser, hprogress⟩),
    by decide,
    ((C20_update_keeps_null_fields exampleStore 99).1 (by decide)).2.2.1 (by decide)
      (some "renamed") none none none none
      (by intro v hv; cases hv; decide) (by intro v hv; cases hv)
      (by intro d hd; cases hd) (by intro v hv; cases hv),
    (let ⟨m', hret, _, _, hindex, hmid, hgoalref, hcompleted, hat, hcreated, hupdated, _⟩ :=
      hmilestone
     ⟨m', hret, by
        have h1 : (Milestone.update exampleStore 2 none none (some 9)).1
            = .ok (some (exampleMilestone 2 (some 1) (some 9) 11)) := by decide
        rw [h1] at hret
        simp only [Except.ok.injEq, Option.some.injEq] at hret
        exact hret.symm⟩),
    ((C20_update_keeps_null_fields exampleStore 99).1 (by decide)).2.2.2.2.2.2.1 (by decide)
      none none (some 9) (by intro v hv; cases hv) (by intro i hi; cases hi; decide)⟩

/-! ## Lemmas on reorder as a map over rows -/

theorem reorderRow_index_indep (G : Int) (ids : List Int) :
    ∀ (i : Nat) (m m1 : MilestoneRow), m1.id = m.id → m1.goal_id = m.goal_id →
      m.goal_id = some G → m.id ∈ ids →
      (reorderRow G ids i m1).order_index = (reorderRow G ids i m).order_index := by
  induction ids with
  | nil => intro i m m1 _ _ _ hmem; cases hmem
  | cons x rest ih =>
    intro i m m1 hid hgoal hG hmem
    rw [reorderRow, reorderRow]
    obtain ⟨hid1, hgoal1⟩ := reorderRow_step G x i m1
    obtain ⟨hid0, hgoal0⟩ := reorderRow_step G x i m
    by_cases hrest : m.id ∈ rest
    · exact ih (i + 1) _ _ (by rw [hid1, hid0, hid]) (by rw [hgoal1, hgoal0, hgoal])
        (by rw [hgoal0]; exact hG) (by rw [hid0]; exact hrest)
    · have hx : m.id = x := by
        rcases List.mem_cons.mp hmem with h | h
        · exact h
        · exact absurd h hrest
      rw [reorderRow_not_mem G rest (i + 1) _ (by rw [hid1, hid]; exact hrest),
        reorderRow_not_mem G rest (i + 1) _ (by rw [hid0]; exact hrest)]
      have c1 : (m1.id == x && m1.goal_id == some G) = true := by simp [hid, hx, hgoal, hG]
      have c0 : (m.id == x && m.goal_id == some G) = true := by simp [hx, hG]
      rw [if_pos c1, if_pos c0]

theorem reorderRow_idempotent (G : Int) (ids : List Int) (m : MilestoneRow) :
    reorderRow G ids 0 (reorderRow G ids 0 m) = reorderRow G ids 0 m := by
  by_cases hG : m.goal_id = some G
  · by_cases hmem : m.id ∈ ids
    · have hindex := reorderRow_index_indep G ids 0 m (reorderRow G ids 0 m)
        (reorderRow_id G ids 0 m) (reorderRow_goal_id G ids 0 m) hG hmem
      rw [reorderRow_frame G ids 0 (reorderRow G ids 0 m), hindex]
    · rw [reorderRow_not_mem G ids 0 m hmem, reorderRow_not_mem G ids 0 m hmem]
  · rw [reorderRow_foreign G ids 0 m hG, reorderRow_foreign G ids 0 m hG]

/-! ## The claims on the frontend and on reorder -/

/-- C24: at each protected route (`/dashboard`, `/goals`, `/goals/new`,
`/goals/:id`, `/courses`, `/profile`) the application renders only the spinner
while authentication is loading, a redirect to `/` when loading has finished and
there is no user, and the page inside the layout when there is a user; and
`ProtectedRoute` never renders its children without a user. -/
theorem C24_protected_routes_redirect (user : Option ClientUser) (loading : Bool)
    (location : Location) (page : Page) (hprotected : location.protectedPage = some page) :
    (loading = true → App user loading location = View.spinner) ∧
    (loading = false → user = none → App user loading location = View.navigate "/") ∧
    (loading = false → user ≠ none → App user loading location = View.layout page) ∧
    (∀ children, ProtectedRoute none false children = View.navigate "/") ∧
    (∀ children, ProtectedRoute none true children = View.spinner) := by
  refine ⟨?_, ?_, ?_, fun _ => rfl, fun _ => rfl⟩
  · intro hl
    subst hl
    cases location <;> simp [Location.protectedPage] at hprotected <;> rfl
  · intro hl hu
    subst hl hu
    cases location <;> simp [Location.protectedPage] at hprotected <;> rfl
  · intro hl hu
    subst hl
    obtain ⟨u, rfl⟩ := Option.ne_none_iff_exists'.mp hu
    cases location <;> simp [Location.protectedPage] at hprotected <;> subst hprotected <;> rfl

/-- C24 at `/goals/7` without a user. -/
theorem C24_protected_routes_redirect_witness :
    (Location.goalsId "7").protectedPage = some Page.goalDetail ∧
    App none false (Location.goalsId "7") = View.navigate "/" ∧
    App none true (Location.goalsId "7") = View.spinner :=
  have h := C24_protected_routes_redirect none false (Location.goalsId "7") Page.goalDetail rfl
  ⟨rfl, h.2.1 rfl rfl,
    (C24_protected_routes_redirect none true (Location.goalsId "7") Page.goalDetail rfl).1 rfl⟩

/-- C26: under any fault plan, after `Milestone.reorder(G, ids)` the milestones
table holds the same rows in the same places, each differing from its old self
in the order index at most, and unchanged when it belongs to another goal or its
id is not in `ids`; the other tables are unchanged. -/
theorem C26_reorder_changes_order_index_only (s : Store) (fault : Option Fault) (G : Int)
    (ids : List Int) :
    List.Forall₂
      (fun m m' => m' = { m with order_index := m'.order_index } ∧
        ((m.goal_id ≠ some G ∨ m.id ∉ ids) → m' = m))
      s.milestones (Milestone.reorder s fault G ids).2.milestones ∧
    (Milestone.reorder s fault G ids).2
      = { s with milestones := (Milestone.reorder s fault G ids).2.milestones } := by
  obtain ⟨ran, hran, hstore⟩ := reorder_rows s fault G ids
  rw [hstore]
  refine ⟨?_, rfl⟩
  simp only
  rw [List.forall₂_map_right_iff, List.forall₂_same]
  intro m _
  refine ⟨reorderRow_frame G ran 0 m, ?_⟩
  rintro (hG | hid)
  · exact reorderRow_foreign G ran 0 m hG
  · exact reorderRow_not_mem G ran 0 m (fun h => hid (hran _ h))

/-- C26 at goal 1 reordered with the list `[3]` alone: milestone 3 moves to index
0, where milestone 1, not listed, stays. -/
theorem C26_reorder_changes_order_index_only_witness :
    indexById (Milestone.reorder exampleStore none 1 [3]).2.milestones
      = [(1, some 0), (2, some 1), (3, some 0), (4, some 5)] ∧
    (Milestone.reorder exampleStore none 1 [3]).2
      = { exampleStore with
          milestones := (Milestone.reorder exampleStore none 1 [3]).2.milestones } :=
  ⟨by decide, (C26_reorder_changes_order_index_only exampleStore none 1 [3]).2⟩

/-- C27: performing `Milestone.reorder(G, ids)` a second time, under the same
fault plan, returns the same result and leaves the store as the first call
left it. -/
theorem C27_reorder_idempotent (s : Store) (fault : Option Fault) (G : Int) (ids : List Int) :
    Milestone.reorder (Milestone.reorder s fault G ids).2 fault G ids
      = Milestone.reorder s fault G ids := by
  obtain ⟨k, r, _, _, hs⟩ := reorder_spec fault G ids
  rw [hs s, hs _]
  simp only [List.map_map]
  congr 2
  apply List.map_congr_left
  intro m _
  exact reorderRow_idempotent G _ m

/-- The wizard state keeps its step between 1 and `totalSteps`, which stays 3. -/
theorem formReducer_in_range (state : FormState) (action : FormAction)
    (h : 1 ≤ state.currentStep ∧ state.currentStep ≤ state.totalSteps ∧ state.totalSteps = 3) :
    1 ≤ (formReducer state action).currentStep ∧
    (formReducer state action).currentStep ≤ (formReducer state action).totalSteps ∧
    (formReducer state action).totalSteps = 3 := by
  obtain ⟨h1, h2, h3⟩ := h
  cases action <;> dsimp only [formReducer, initialState] <;>
    first
    | exact ⟨h1, h2, h3⟩
    | (refine ⟨?_, ?_, ?_⟩ <;> omega)

theorem foldl_formReducer_in_range (actions : List FormAction) :
    ∀ state : FormState,
      (1 ≤ state.currentStep ∧ state.currentStep ≤ state.totalSteps ∧ state.totalSteps = 3) →
      1 ≤ (actions.foldl formReducer state).currentStep ∧
      (actions.foldl formReducer state).currentStep
        ≤ (actions.foldl formReducer state).totalSteps ∧
      (actions.foldl formReducer state).totalSteps = 3 := by
  induction actions with
  | nil => intro state h; exact h
  | cons a rest ih =>
    intro state h
    exact ih (formReducer state a) (formReducer_in_range state a h)

/-- C30: starting from `initialState`, after any sequence of actions the step is
between 1 and `totalSteps`, which is 3; NEXT_STEP at the last step and PREV_STEP
at step 1 leave the step as it is; neither changes `formData`; RESET returns
`initialState`. -/
theorem C30_wizard_step_in_range (actions : List FormAction) :
    (1 ≤ (actions.foldl formReducer initialState).currentStep ∧
      (actions.foldl formReducer initialState).currentStep
        ≤ (actions.foldl formReducer initialState).totalSteps ∧
      (actions.foldl formReducer initialState).totalSteps = 3) ∧
    (∀ state : FormState, state.currentStep = state.totalSteps →
      (formReducer state FormAction.NEXT_STEP).currentStep = state.currentStep) ∧
    (∀ state : FormState, state.currentStep = 1 →
      (formReducer state FormAction.PREV_STEP).currentStep = state.currentStep) ∧
    (∀ state : FormState,
      (formReducer state FormAction.NEXT_STEP).formData = state.formData ∧
      (formReducer state FormAction.PREV_STEP).formData = state.formData) ∧
    (∀ state : FormState, formReducer state FormAction.RESET = initialState) := by
  refine ⟨foldl_formReducer_in_range actions initialState (by decide), ?_, ?_,
    fun _ => ⟨rfl, rfl⟩, fun _ => rfl⟩
  · intro state h
    dsimp only [formReducer]
    omega
  · intro state h
    dsimp only [formReducer]
    omega

/-- C30 at four NEXT_STEP in a row (the step stops at 3) followed by a title
edit, and at PREV_STEP on the initial state. -/
theorem C30_wizard_step_in_range_witness :
    ([FormAction.NEXT_STEP, FormAction.NEXT_STEP, FormAction.NEXT_STEP, FormAction.NEXT_STEP,
        FormAction.UPDATE_FIELD FormField.title "Learn Lean"].foldl formReducer
        initialState).currentStep = 3 ∧
    initialState.currentStep = 1 ∧
    (formReducer initialState FormAction.PREV_STEP).currentStep = initialState.currentStep :=
  ⟨by decide, rfl, (C30_wizard_step_in_range []).2.2.1 initialState rfl⟩

/-! ## Lemmas on sequences of repository calls -/

theorem insert_milestones (s : Store) (now : Nat) (G : Int) (title : String)
    (description : Option String) (orderIndex : Option Int) :
    (Milestone.insert s now G title description orderIndex).2.milestones = s.milestones ∨
    ∃ row : MilestoneRow, row.completed = some false ∧ row.completed_at = none ∧
      (Milestone.insert s now G title description orderIndex).2.milestones
        = s.milestones ++ [row] := by
  unfold Milestone.insert
  split
  · exact Or.inl rfl
  · split
    · exact Or.inr ⟨_, rfl, rfl, rfl⟩
    · exact Or.inl rfl

theorem insert_goals (s : Store) (now : Nat) (G : Int) (title : String)
    (description : Option String) (orderIndex : Option Int) :
    (Milestone.insert s now G title description orderIndex).2.goals = s.goals := by
  unfold Milestone.insert
  split
  · rfl
  · split <;> rfl

theorem create_milestones (s : Store) (now : Nat) (G : Int) (title : String)
    (description : Option String) (orderIndex : Option (Option Int)) :
    (Milestone.create s now G title description orderIndex).2.milestones = s.milestones ∨
    ∃ row : MilestoneRow, row.completed = some false ∧ row.completed_at = none ∧
      (Milestone.create s now G title description orderIndex).2.milestones
        = s.milestones ++ [row] := by
  unfold Milestone.create
  split
  · split
    · exact Or.inl rfl
    · exact insert_milestones s now G title description _
  · exact insert_milestones s now G title description _

theorem create_goals (s : Store) (now : Nat) (G : Int) (title : String)
    (description : Option String) (orderIndex : Option (Option Int)) :
    (Milestone.create s now G title description orderIndex).2.goals = s.goals := by
  unfold Milestone.create
  split
  · split
    · rfl
    · exact insert_goals s now G title description _
  · exact insert_goals s now G title description _

theorem milestoneUpdate_milestones (s : Store) (id : Int) (title description : Option String)
    (orderIndex : Option Int) :
    (Milestone.update s id title description orderIndex).2.milestones = s.milestones ∨
    ∃ title' : Option String,
      (Milestone.update s id title description orderIndex).2.milestones
        = sqlUpdate s.milestones (fun m => m.id == id)
            (Milestone.updateRow title' description orderIndex) := by
  unfold Milestone.update
  split
  · exact Or.inl rfl
  · exact Or.inr ⟨_, rfl⟩

theorem milestoneUpdate_goals (s : Store) (id : Int) (title description : Option String)
    (orderIndex : Option Int) :
    (Milestone.update s id title description orderIndex).2.goals = s.goals := by
  unfold Milestone.update
  split <;> rfl

theorem goalUpdate_goals (s : Store) (id : Int) (title description category : Option String)
    (targetDate : Option DateParam) (status : Option String) :
    (Goal.update s id title description category targetDate status).2.goals = s.goals ∨
    ∃ title' category' targetDate' status' : Option String,
      (Goal.update s id title description category targetDate status).2.goals
        = sqlUpdate s.goals (fun g => g.id == id)
            (Goal.updateRow title' description category' targetDate' status') ∧
      (sqlReturning s.goals (fun g => g.id == id)
        (Goal.updateRow title' description category' targetDate' status')).all
          GoalRow.checks = true := by
  unfold Goal.update
  split
  · exact Or.inl rfl
  · unfold Goal.updateWhere
    simp only
    split
    · rename_i hall
      exact Or.inr ⟨_, _, _, _, rfl, hall⟩
    · exact Or.inl rfl

theorem goalUpdate_milestones (s : Store) (id : Int) (title description category : Option String)
    (targetDate : Option DateParam) (status : Option String) :
    (Goal.update s id title description category targetDate status).2.milestones
      = s.milestones := by
  unfold Goal.update
  split
  · rfl
  · unfold Goal.updateWhere
    simp only
    split <;> rfl

theorem apply_milestones (op : ModelOp) (s : Store) :
    ∀ m' ∈ (op.apply s).milestones,
      (∃ m ∈ s.milestones, m'.id = m.id ∧
        ((m'.completed = m.completed ∧ m'.completed_at = m.completed_at) ∨
          (m'.completed = some true ∧ m'.completed_at ≠ none) ∨
          (m'.completed = some false ∧ m'.completed_at = none))) ∨
      (m'.completed = some false ∧ m'.completed_at = none) := by
  intro m' hm'
  have hkeep : ∀ m ∈ s.milestones, m' = m →
      (∃ m ∈ s.milestones, m'.id = m.id ∧
        ((m'.completed = m.completed ∧ m'.completed_at = m.completed_at) ∨
          (m'.completed = some true ∧ m'.completed_at ≠ none) ∨
          (m'.completed = some false ∧ m'.completed_at = none))) ∨
      (m'.completed = some false ∧ m'.completed_at = none) := by
    intro m hm heq
    exact Or.inl ⟨m, hm, by rw [heq], Or.inl ⟨by rw [heq], by rw [heq]⟩⟩
  have hcomplete : ∀ now id, m' ∈ (Milestone.complete s now id).2.milestones →
      (∃ m ∈ s.milestones, m'.id = m.id ∧
        ((m'.completed = m.completed ∧ m'.completed_at = m.completed_at) ∨
          (m'.completed = some true ∧ m'.completed_at ≠ none) ∨
          (m'.completed = some false ∧ m'.completed_at = none))) ∨
      (m'.completed = some false ∧ m'.completed_at = none) := by
    intro now id h
    simp only [Milestone.complete, sqlUpdate, List.mem_map] at h
    obtain ⟨m, hm, heq⟩ := h
    by_cases hc : (m.id == id) = true
    · rw [if_pos hc] at heq
      subst heq
      exact Or.inl ⟨m, hm, rfl, Or.inr (Or.inl ⟨rfl, by simp⟩)⟩
    · rw [if_neg hc] at heq
      exact hkeep m hm heq.symm
  have huncomplete : ∀ id, m' ∈ (Milestone.uncomplete s id).2.milestones →
      (∃ m ∈ s.milestones, m'.id = m.id ∧
        ((m'.completed = m.completed ∧ m'.completed_at = m.completed_at) ∨
          (m'.completed = some true ∧ m'.completed_at ≠ none) ∨
          (m'.completed = some false ∧ m'.completed_at = none))) ∨
      (m'.completed = some false ∧ m'.completed_at = none) := by
    intro id h
    simp only [Milestone.uncomplete, sqlUpdate, List.mem_map] at h
    obtain ⟨m, hm, heq⟩ := h
    by_cases hc : (m.id == id) = true
    · rw [if_pos hc] at heq
      subst heq
      exact Or.inl ⟨m, hm, rfl, Or.inr (Or.inr ⟨rfl, rfl⟩)⟩
    · rw [if_neg hc] at heq
      exact hkeep m hm heq.symm
  cases op with
  | goalCreate now userId title description category targetDate =>
    exact hkeep m' hm' rfl
  | goalUpdate id title description category targetDate status =>
    simp only [ModelOp.apply, goalUpdate_milestones] at hm'
    exact hkeep m' hm' rfl
  | goalDelete id =>
    simp only [ModelOp.apply, Goal.delete, List.mem_filter] at hm'
    exact hkeep m' hm'.1 rfl
  | milestoneCreate now goalId title description orderIndex =>
    simp only [ModelOp.apply] at hm'
    rcases create_milestones s now goalId title description orderIndex with h | ⟨row, h1, h2, h⟩
    · rw [h] at hm'
      exact hkeep m' hm' rfl
    · rw [h] at hm'
      simp only [List.mem_append, List.mem_singleton] at hm'
      rcases hm' with h' | rfl
      · exact hkeep m' h' rfl
      · exact Or.inr ⟨h1, h2⟩
  | milestoneUpdate id title description orderIndex =>
    simp only [ModelOp.apply] at hm'
    rcases milestoneUpdate_milestones s id title description orderIndex with h | ⟨title', h⟩
    · rw [h] at hm'
      exact hkeep m' hm' rfl
    · rw [h] at hm'
      simp only [sqlUpdate, List.mem_map] at hm'
      obtain ⟨m, hm, heq⟩ := hm'
      by_cases hc : (m.id == id) = true
      · rw [if_pos hc] at heq
        subst heq
        exact Or.inl ⟨m, hm, rfl, Or.inl ⟨rfl, rfl⟩⟩
      · rw [if_neg hc] at heq
        exact hkeep m hm heq.symm
  | milestoneComplete now id => exact hcomplete now id hm'
  | milestoneUncomplete id => exact huncomplete id hm'
  | milestoneToggle now id =>
    simp only [ModelOp.apply, Milestone.toggleComplete] at hm'
    split at hm'
    · exact hkeep m' hm' rfl
    · split at hm'
      · exact huncomplete id hm'
      · exact hcomplete now id hm'
  | milestoneDelete id =>
    simp only [ModelOp.apply, Milestone.delete, List.mem_filter] at hm'
    exact hkeep m' hm'.1 rfl
  | milestoneReorder fault goalId milestoneIds =>
    obtain ⟨ran, _, hstore⟩ := reorder_rows s fault goalId milestoneIds
    simp only [ModelOp.apply, hstore, List.mem_map] at hm'
    obtain ⟨m, hm, rfl⟩ := hm'
    refine Or.inl ⟨m, hm, reorderRow_id goalId ran 0 m, Or.inl ⟨?_, ?_⟩⟩
    · rw [reorderRow_frame]
    · rw [reorderRow_frame]

theorem apply_completionConsistent (op : ModelOp) (s : Store) (h : s.completionConsistent) :
    (op.apply s).completionConsistent := by
  intro m' hm'
  rcases apply_milestones op s m' hm' with ⟨m, hm, _, hsame | hdone | hopen⟩ | hnew
  · rw [hsame.1, hsame.2]
    exact h m hm
  · exact ⟨fun _ => hdone.1, fun _ => hdone.2⟩
  · rw [hopen.1, hopen.2]
    simp
  · rw [hnew.1, hnew.2]
    simp

theorem apply_goals (op : ModelOp) (s : Store) :
    ∀ g' ∈ (op.apply s).goals,
      (∃ g ∈ s.goals, g'.id = g.id ∧ g'.progress = g.progress) ∨
      ((∃ now userId title description category targetDate,
          op = ModelOp.goalCreate now userId title description category targetDate) ∧
        g'.progress = some 0) := by
  intro g' hg'
  have hkeep : ∀ g ∈ s.goals, g' = g →
      (∃ g ∈ s.goals, g'.id = g.id ∧ g'.progress = g.progress) ∨
      ((∃ now userId title description category targetDate,
          op = ModelOp.goalCreate now userId title description category targetDate) ∧
        g'.progress = some 0) := by
    intro g hg heq
    exact Or.inl ⟨g, hg, by rw [heq], by rw [heq]⟩
  cases op with
  | goalCreate now userId title description category targetDate =>
    simp only [ModelOp.apply, Goal.create, List.mem_append, List.mem_singleton] at hg'
    rcases hg' with h | rfl
    · exact hkeep g' h rfl
    · exact Or.inr ⟨⟨now, userId, title, description, category, targetDate, rfl⟩, rfl⟩
  | goalUpdate id title description category targetDate status =>
    simp only [ModelOp.apply] at hg'
    rcases goalUpdate_goals s id title description category targetDate status with
      h | ⟨title', category', targetDate', status', h, _⟩
    · rw [h] at hg'
      exact hkeep g' hg' rfl
    · rw [h] at hg'
      simp only [sqlUpdate, List.mem_map] at hg'
      obtain ⟨g, hg, heq⟩ := hg'
      by_cases hc : (g.id == id) = true
      · rw [if_pos hc] at heq
        subst heq
        exact Or.inl ⟨g, hg, rfl, rfl⟩
      · rw [if_neg hc] at heq
        exact hkeep g hg heq.symm
  | goalDelete id =>
    simp only [ModelOp.apply, Goal.delete, List.mem_filter] at hg'
    exact hkeep g' hg'.1 rfl
  | milestoneCreate now goalId title description orderIndex =>
    simp only [ModelOp.apply, create_goals] at hg'
    exact hkeep g' hg' rfl
  | milestoneUpdate id title description orderIndex =>
    simp only [ModelOp.apply, milestoneUpdate_goals] at hg'
    exact hkeep g' hg' rfl
  | milestoneComplete now id => exact hkeep g' hg' rfl
  | milestoneUncomplete id => exact hkeep g' hg' rfl
  | milestoneToggle now id =>
    simp only [ModelOp.apply, Milestone.toggleComplete] at hg'
    split at hg'
    · exact hkeep g' hg' rfl
    · split at hg'
      · exact hkeep g' hg' rfl
      · exact hkeep g' hg' rfl
  | milestoneDelete id => exact hkeep g' hg' rfl
  | milestoneReorder fault goalId milestoneIds =>
    obtain ⟨ran, _, hstore⟩ := reorder_rows s fault goalId milestoneIds
    simp only [ModelOp.apply, hstore] at hg'
    exact hkeep g' hg' rfl

theorem apply_progressZero (op : ModelOp) (s : Store) (h : s.progressZero) :
    (op.apply s).progressZero := by
  intro g' hg'
  rcases apply_goals op s g' hg' with ⟨g, hg, _, hsame⟩ | ⟨_, hnew⟩
  · rw [hsame]
    exact h g hg
  · exact hnew

theorem runOps_completionConsistent (ops : List ModelOp) :
    ∀ s : Store, s.completionConsistent → (runOps ops s).completionConsistent := by
  induction ops with
  | nil => intro s h; exact h
  | cons op rest ih => intro s h; exact ih _ (apply_completionConsistent op s h)

theorem runOps_progressZero (ops : List ModelOp) :
    ∀ s : Store, s.progressZero → (runOps ops s).progressZero := by
  induction ops with
  | nil => intro s h; exact h
  | cons op rest ih => intro s h; exact ih _ (apply_progressZero op s h)

theorem runOps_append (ops₁ ops₂ : List ModelOp) (s : Store) :
    runOps (ops₁ ++ ops₂) s = runOps ops₂ (runOps ops₁ s) := by
  induction ops₁ generalizing s with
  | nil => rfl
  | cons op rest ih => exact ih (op.apply s)

/-- A handler leaves the store as it was or as one repository call leaves it. -/
theorem handle_store (r : Route) (s : Store) (now : Nat) (fault : Option Fault)
    (req : Request) :
    (r.handle s now fault req).2 = s ∨
      ∃ op : ModelOp, (r.handle s now fault req).2 = op.apply s := by
  cases r
  case goalUpdate =>
    simp only [Route.handle, goalsRouter.update]
    split_ifs
    · exact Or.inl rfl
    · exact Or.inl rfl
    · refine Or.inr ⟨ModelOp.goalUpdate req.id (some req.title) req.description req.category
        req.targetDate req.status, ?_⟩
      split <;> (rename_i heq; simp [ModelOp.apply, heq])
  case goalDelete =>
    simp only [Route.handle, goalsRouter.delete]
    split_ifs
    · exact Or.inl rfl
    · exact Or.inl rfl
    · refine Or.inr ⟨ModelOp.goalDelete req.id, ?_⟩
      split <;> (rename_i heq; simp [ModelOp.apply, heq])
  case goalStatus =>
    simp only [Route.handle, goalsRouter.status]
    split_ifs
    · exact Or.inl rfl
    · exact Or.inl rfl
    · refine Or.inr ⟨ModelOp.goalUpdate req.id none none none none req.status, ?_⟩
      split <;> (rename_i heq; simp [ModelOp.apply, heq])
  case milestoneList =>
    simp only [Route.handle, milestonesRouter.list]
    split_ifs
    · exact Or.inl rfl
    · split <;> exact Or.inl rfl
  case milestoneCreate =>
    simp only [Route.handle, milestonesRouter.create]
    split_ifs
    · exact Or.inl rfl
    · split
      · exact Or.inl rfl
      · refine Or.inr ⟨ModelOp.milestoneCreate now req.id req.title req.description
          (req.orderIndex.map some), ?_⟩
        split <;> (rename_i heq; simp [ModelOp.apply, heq])
  case milestoneReorder =>
    simp only [Route.handle, milestonesRouter.reorder]
    split_ifs
    · exact Or.inl rfl
    · split
      · exact Or.inl rfl
      · refine Or.inr ⟨ModelOp.milestoneReorder fault req.id req.milestoneIds, ?_⟩
        split <;> (rename_i heq; simp [ModelOp.apply, heq])
  case milestoneUpdate =>
    simp only [Route.handle, milestonesRouter.update]
    split_ifs
    · exact Or.inl rfl
    · split
      · exact Or.inl rfl
      · refine Or.inr ⟨ModelOp.milestoneUpdate req.id (some req.title) req.description
          req.orderIndex, ?_⟩
        split <;> (rename_i heq; simp [ModelOp.apply, heq])
  case milestoneComplete =>
    simp only [Route.handle, milestonesRouter.complete]
    split_ifs
    · exact Or.inl rfl
    · split
      · exact Or.inl rfl
      · refine Or.inr ⟨ModelOp.milestoneComplete now req.id, ?_⟩
        split <;> (rename_i heq; simp [ModelOp.apply, heq])
  case milestoneUncomplete =>
    simp only [Route.handle, milestonesRouter.uncomplete]
    split_ifs
    · exact Or.inl rfl
    · split
      · exact Or.inl rfl
      · refine Or.inr ⟨ModelOp.milestoneUncomplete req.id, ?_⟩
        split <;> (rename_i heq; simp [ModelOp.apply, heq])
  case milestoneToggle =>
    simp only [Route.handle, milestonesRouter.toggle]
    split_ifs
    · exact Or.inl rfl
    · split
      · exact Or.inl rfl
      · refine Or.inr ⟨ModelOp.milestoneToggle now req.id, ?_⟩
        split <;> (rename_i heq; simp [ModelOp.apply, heq])
  case milestoneDelete =>
    simp only [Route.handle, milestonesRouter.delete]
    split_ifs
    · exact Or.inl rfl
    · split
      · exact Or.inl rfl
      · refine Or.inr ⟨ModelOp.milestoneDelete req.id, ?_⟩
        split <;> (rename_i heq; simp [ModelOp.apply, heq])

/-- The calls made by the loop of `Milestone.bulkCreate` from iteration `i` on,
up to the first that is rejected. -/
theorem bulkCreateFrom_store (now : Nat) (goalId : Int)
    (milestones : List (String × Option String)) :
    ∀ (i : Nat) (s : Store),
      ∃ ops : List ModelOp, (Milestone.bulkCreateFrom now goalId milestones i s).2 = runOps ops s ∧
        ∀ op ∈ ops, ∃ title description index,
          op = ModelOp.milestoneCreate now goalId title description (some (some index)) := by
  induction milestones with
  | nil => intro i s; exact ⟨[], rfl, fun op h => by cases h⟩
  | cons entry rest ih =>
    intro i s
    obtain ⟨title, description⟩ := entry
    rw [Milestone.bulkCreateFrom]
    cases hc : Milestone.create s now goalId title description (some (some (i : Int))) with
    | mk r s1 =>
      have hs1 : s1 = (ModelOp.milestoneCreate now goalId title description
          (some (some (i : Int)))).apply s := by
        simp [ModelOp.apply, hc]
      cases r with
      | error e =>
        refine ⟨[ModelOp.milestoneCreate now goalId title description (some (some (i : Int)))],
          ?_, ?_⟩
        · simp only [runOps]
          exact hs1
        · intro op hop
          simp only [List.mem_singleton] at hop
          exact ⟨title, description, i, hop⟩
      | ok milestone =>
        obtain ⟨ops, hops, hall⟩ := ih (i + 1) s1
        refine ⟨ModelOp.milestoneCreate now goalId title description (some (some (i : Int)))
          :: ops, ?_, ?_⟩
        · simp only [runOps, ← hs1, ← hops]
          cases Milestone.bulkCreateFrom now goalId rest (i + 1) s1 with
          | mk r2 s2 => cases r2 <;> rfl
        · intro op hop
          rcases List.mem_cons.mp hop with rfl | h
          · exact ⟨title, description, i, rfl⟩
          · exact hall op h

/-- POST `/api/goals` acts on the store through `Goal.create` and
`Milestone.create` only. -/
theorem goalsRouter_create_store (s : Store) (now : Nat) (req : Request) :
    ∃ ops : List ModelOp, (goalsRouter.create s now req).2 = runOps ops s := by
  unfold goalsRouter.create
  split_ifs with hinvalid hmilestones
  · exact ⟨[], rfl⟩
  · obtain ⟨ops, hops, _⟩ := bulkCreateFrom_store now
      (Goal.create s now req.userId req.title req.description req.category
        (req.targetDate.map (fun (d : DateParam) => d.text))).1.id
      req.milestones 0
      (Goal.create s now req.userId req.title req.description req.category
        (req.targetDate.map (fun (d : DateParam) => d.text))).2
    refine ⟨ModelOp.goalCreate now req.userId req.title req.description req.category
      (req.targetDate.map (fun (d : DateParam) => d.text)) :: ops, ?_⟩
    simp only [runOps, ModelOp.apply, ← hops, Milestone.bulkCreate]
    split <;> (rename_i heq; simp [heq])
  · exact ⟨[ModelOp.goalCreate now req.userId req.title req.description req.category
      (req.targetDate.map (fun (d : DateParam) => d.text))], rfl⟩

/-! ## The claims on reachable states -/

/-- C25: from a store in which every milestone has `completed_at` non-null
exactly when `completed` is true (a store without milestones is one), every
sequence of calls to the functions of `models/Milestone.js` and `models/Goal.js`
that write leads to such a store. -/
theorem C25_completion_stays_consistent (ops : List ModelOp) (s : Store)
    (h : s.completionConsistent) : (runOps ops s).completionConsistent :=
  runOps_completionConsistent ops s h

/-- C25 from a store without milestones: a milestone is created, completed,
renamed, toggled and reordered, and a second one is created. -/
theorem C25_completion_stays_consistent_witness :
    ({ exampleStore with milestones := [] } : Store).completionConsistent ∧
    (runOps
      [ModelOp.milestoneCreate 20 1 "first" none none, ModelOp.milestoneComplete 21 5,
        ModelOp.milestoneUpdate 5 (some "renamed") none none, ModelOp.milestoneToggle 22 5,
        ModelOp.milestoneCreate 23 1 "second" none none,
        ModelOp.milestoneReorder none 1 [6, 5], ModelOp.milestoneToggle 24 6]
      { exampleStore with milestones := [] }).completionConsistent ∧
    ((runOps
      [ModelOp.milestoneCreate 20 1 "first" none none, ModelOp.milestoneComplete 21 5,
        ModelOp.milestoneUpdate 5 (some "renamed") none none, ModelOp.milestoneToggle 22 5,
        ModelOp.milestoneCreate 23 1 "second" none none,
        ModelOp.milestoneReorder none 1 [6, 5], ModelOp.milestoneToggle 24 6]
      { exampleStore with milestones := [] }).milestones.map
        (fun m => (m.id, m.completed, m.completed_at)))
      = [(5, some false, none), (6, some true, some 24)] :=
  ⟨by decide, C25_completion_stays_consistent _ _ (by decide), by decide⟩

/-- C28: `Goal.create` stores progress 0; every repository call leaves each goal
with the progress it had (a goal it creates has progress 0); so from a store
whose goals all have progress 0, every sequence of repository calls, every
milestone or goal handler and POST `/api/goals` lead to a store whose goals all
have progress 0. -/
theorem C28_progress_never_changes (ops : List ModelOp) (s : Store) (h : s.progressZero) :
    (runOps ops s).progressZero ∧
    (∀ now userId title description category targetDate,
      (Goal.create s now userId title description category targetDate).1.progress = some 0) ∧
    (∀ (op : ModelOp), ∀ g' ∈ (op.apply s).goals,
      (∃ g ∈ s.goals, g'.id = g.id ∧ g'.progress = g.progress) ∨
      ((∃ now userId title description category targetDate,
          op = ModelOp.goalCreate now userId title description category targetDate) ∧
        g'.progress = some 0)) ∧
    (∀ (r : Route) now fault req, (r.handle s now fault req).2.progressZero) ∧
    (∀ now req, (goalsRouter.create s now req).2.progressZero) := by
  refine ⟨runOps_progressZero ops s h, fun _ _ _ _ _ _ => rfl, fun op => apply_goals op s,
    ?_, ?_⟩
  · intro r now fault req
    rcases handle_store r s now fault req with hsame | ⟨op, hop⟩
    · rw [hsame]; exact h
    · rw [hop]; exact apply_progressZero op s h
  · intro now req
    obtain ⟨ops', hops'⟩ := goalsRouter_create_store s now req
    rw [hops']
    exact runOps_progressZero ops' s h

/-- C28 from a store without goals: a goal is created with two milestones, both
are completed, the goal is set to completed, and its progress is still 0. -/
theorem C28_progress_never_changes_witness :
    ({ exampleStore with goals := [], milestones := [] } : Store).progressZero ∧
    ((runOps
      [ModelOp.goalCreate 20 1 "goal" none none none,
        ModelOp.milestoneCreate 21 3 "first" none none,
        ModelOp.milestoneCreate 22 3 "second" none none,
        ModelOp.milestoneComplete 23 5, ModelOp.milestoneComplete 24 6,
        ModelOp.goalUpdate 3 none none none none (some "completed")]
      { exampleStore with goals := [], milestones := [] }).goals.map
        (fun g => (g.id, g.status, g.progress)))
      = [(3, some "completed", some 0)] ∧
    (runOps
      [ModelOp.goalCreate 20 1 "goal" none none none,
        ModelOp.milestoneCreate 21 3 "first" none none,
        ModelOp.milestoneCreate 22 3 "second" none none,
        ModelOp.milestoneComplete 23 5, ModelOp.milestoneComplete 24 6,
        ModelOp.goalUpdate 3 none none none none (some "completed")]
      { exampleStore with goals := [], milestones := [] }).progressZero :=
  ⟨by decide, by decide, (C28_progress_never_changes _ _ (by decide)).1⟩

/-! ## Lemmas on validation and the goal routes -/

theorem titleFindings_eq_nil_iff (title : String) :
    titleFindings title = [] ↔ title ≠ "" ∧ title.length ≤ 255 := by
  unfold titleFindings
  by_cases h1 : title = "" <;> by_cases h2 : title.length > 255 <;> simp [h1, h2]
  omega

theorem validateStepTitle_eq_none_iff (title : String) :
    validateStepTitle title = none ↔ jsTrim title ≠ "" ∧ jsLength title ≤ 255 := by
  unfold validateStepTitle
  by_cases h1 : jsTrim title = "" <;> by_cases h2 : jsLength title > 255 <;>
    simp [h1, h2]
  omega

theorem statusFinding_invalid (optional : Bool) (v : String) (h : v ∉ goalStatuses) :
    statusFinding optional (some v) = ["Invalid status"] := by
  simp [statusFinding, h]

theorem statusFinding_eq_nil (optional : Bool) (status : Option String)
    (h : statusFinding optional status = []) :
    status = none ∨ statusInSet status = true := by
  cases status with
  | none => exact Or.inl rfl
  | some v =>
    right
    unfold statusFinding at h
    by_cases hv : v ∈ goalStatuses
    · simp [statusInSet, hv]
    · simp [hv] at h

theorem statusFinding_required_eq_nil (status : Option String)
    (h : statusFinding false status = []) : statusInSet status = true := by
  cases status with
  | none => simp [statusFinding] at h
  | some v => exact (statusFinding_eq_nil false (some v) h).resolve_left (by simp)

theorem goalValidation_errors (isISO8601 : String → Bool) (req : Request) :
    ∃ before, (goalValidation isISO8601 req).validationErrors
      = before ++ statusFinding true req.status := ⟨_, rfl⟩

theorem goalValidation_valid (isISO8601 : String → Bool) (req : Request)
    (h : (goalValidation isISO8601 req).validationErrors = []) :
    statusFinding true req.status = [] := by
  obtain ⟨before, hb⟩ := goalValidation_errors isISO8601 req
  rw [hb] at h
  exact (List.append_eq_nil.mp h).2

theorem invalid_of_mem (errors : List String) (e : String) (h : e ∈ errors) :
    (!errors.isEmpty) = true := by
  cases errors with
  | nil => cases h
  | cons a l => rfl

theorem valid_of_not_invalid (errors : List String) (h : ¬ (!errors.isEmpty) = true) :
    errors = [] := by
  cases errors with
  | nil => rfl
  | cons a l => exact absurd rfl h

theorem goalUpdate_inRange (s : Store) (id : Int)
    (title description category : Option String) (targetDate : Option DateParam)
    (status : Option String) (h : s.goalsInRange) :
    (Goal.update s id title description category targetDate status).2.goalsInRange := by
  intro g' hg'
  rcases goalUpdate_goals s id title description category targetDate status with
    h0 | ⟨title', category', targetDate', status', h1, hall⟩
  · rw [h0] at hg'
    exact h g' hg'
  · rw [h1] at hg'
    simp only [sqlUpdate, List.mem_map] at hg'
    obtain ⟨g, hg, heq⟩ := hg'
    by_cases hc : (g.id == id) = true
    · rw [if_pos hc] at heq
      subst heq
      have hchk : (Goal.updateRow title' description category' targetDate' status' g).checks
          = true := by
        apply List.all_eq_true.mp hall
        unfold sqlReturning
        exact List.mem_map.mpr ⟨g, List.mem_filter.mpr ⟨hg, hc⟩, rfl⟩
      refine ⟨?_, (h g hg).2⟩
      cases status' with
      | none => exact (h g hg).1
      | some v =>
        simp only [GoalRow.checks, Goal.updateRow, coalesce, Bool.and_eq_true] at hchk
        exact hchk.1
    · rw [if_neg hc] at heq
      subst heq
      exact h g hg

theorem bulkCreateFrom_goals (now : Nat) (goalId : Int)
    (milestones : List (String × Option String)) :
    ∀ (i : Nat) (s : Store), (Milestone.bulkCreateFrom now goalId milestones i s).2.goals
      = s.goals := by
  induction milestones with
  | nil => intro i s; rfl
  | cons entry rest ih =>
    intro i s
    obtain ⟨title, description⟩ := entry
    rw [Milestone.bulkCreateFrom]
    have hg := create_goals s now goalId title description (some (some (i : Int)))
    cases hc : Milestone.create s now goalId title description (some (some (i : Int))) with
    | mk r s1 =>
      rw [hc] at hg
      cases r with
      | error e => exact hg
      | ok milestone =>
        have hrest := ih (i + 1) s1
        dsimp only
        cases hb : Milestone.bulkCreateFrom now goalId rest (i + 1) s1 with
        | mk r2 s2 =>
          rw [hb] at hrest
          cases r2 with
          | error e => exact hrest.trans hg
          | ok results => exact hrest.trans hg

theorem goalCreate_inRange (s : Store) (now : Nat) (userId : Int) (title : String)
    (description category targetDate : Option String) (h : s.goalsInRange) :
    (Goal.create s now userId title description category targetDate).2.goalsInRange := by
  intro g' hg'
  simp only [Goal.create, List.mem_append, List.mem_singleton] at hg'
  rcases hg' with hold | rfl
  · exact h g' hold
  · constructor
    · show statusInSet (some "active") = true
      decide
    · show progressInRange (some 0) = true
      decide

/-- POST `/api/goals` leaves the goals as they were or as `Goal.create` leaves
them. -/
theorem goalsRouter_create_goals (s : Store) (now : Nat) (req : Request) :
    (goalsRouter.create s now req).2.goals = s.goals ∨
    (goalsRouter.create s now req).2.goals
      = (Goal.create s now req.userId req.title req.description req.category
          (req.targetDate.map (fun (d : DateParam) => d.text))).2.goals := by
  unfold goalsRouter.create
  split_ifs
  · exact Or.inl rfl
  · right
    have hb := bulkCreateFrom_goals now
      (Goal.create s now req.userId req.title req.description req.category
        (req.targetDate.map (fun (d : DateParam) => d.text))).1.id
      req.milestones 0
      (Goal.create s now req.userId req.title req.description req.category
        (req.targetDate.map (fun (d : DateParam) => d.text))).2
    simp only [Milestone.bulkCreate]
    split <;> (rename_i heq; rw [heq] at hb; exact hb)
  · exact Or.inr rfl

theorem serve_inRange (isISO8601 : String → Bool) (call : GoalCall) (s : Store)
    (h : s.goalsInRange) : (call.serve isISO8601 s).2.goalsInRange := by
  cases call with
  | create now req =>
    simp only [GoalCall.serve]
    intro g' hg'
    rcases goalsRouter_create_goals s now (goalValidation isISO8601 req) with h0 | h1
    · rw [h0] at hg'
      exact h g' hg'
    · rw [h1] at hg'
      exact goalCreate_inRange s now _ _ _ _ _ h g' hg'
  | update req =>
    simp only [GoalCall.serve, goalsRouter.update]
    split_ifs with hinvalid
    · exact h
    · exact h
    · have hresult := goalUpdate_inRange s (goalValidation isISO8601 req).id
        (some (goalValidation isISO8601 req).title) (goalValidation isISO8601 req).description
        (goalValidation isISO8601 req).category (goalValidation isISO8601 req).targetDate
        (goalValidation isISO8601 req).status h
      split <;> (rename_i heq; rw [heq] at hresult; exact hresult)
  | status req =>
    simp only [GoalCall.serve, goalsRouter.status]
    split_ifs with hinvalid
    · exact h
    · exact h
    · have hresult := goalUpdate_inRange s (statusValidation req).id none none none none
        (statusValidation req).status h
      split <;> (rename_i heq; rw [heq] at hresult; exact hresult)
  | delete req =>
    simp only [GoalCall.serve, goalsRouter.delete]
    split_ifs
    · exact h
    · exact h
    · have hresult : (Goal.delete s req.id).2.goalsInRange := by
        intro g' hg'
        simp only [Goal.delete, List.mem_filter] at hg'
        exact h g' hg'.1
      split <;> (rename_i heq; rw [heq] at hresult; exact hresult)

theorem serveAll_inRange (isISO8601 : String → Bool) (calls : List GoalCall) :
    ∀ s : Store, s.goalsInRange → (serveAll isISO8601 calls s).goalsInRange := by
  induction calls with
  | nil => intro s h; exact h
  | cons call rest ih => intro s h; exact ih _ (serve_inRange isISO8601 call s h)

/-- C22: from a store whose goals all have a status of the closed set and a
progress from 0 to 100 (a store without goals is one), every sequence of calls
to the goal routes create, update, status patch and delete, each with its
validation chains, leads to a store whose goals all have one; and a create,
update or status request carrying a status outside the set is answered with a
ValidationError that lists `Invalid status`, the store staying as it was. -/
theorem C22_goal_status_in_closed_set (isISO8601 : String → Bool) (calls : List GoalCall)
    (s : Store) (h : s.goalsInRange) :
    (∀ g ∈ (serveAll isISO8601 calls s).goals,
      (∃ v ∈ goalStatuses, g.status = some v) ∧
      (∃ p : Int, g.progress = some p ∧ 0 ≤ p ∧ p ≤ 100)) ∧
    (∀ (req : Request) (v : String), req.status = some v → v ∉ goalStatuses →
      (∀ now, ∃ errors,
        (GoalCall.create now req).serve isISO8601 s
          = (.error (.api (.ValidationError errors)), s) ∧ "Invalid status" ∈ errors) ∧
      (∃ errors,
        (GoalCall.update req).serve isISO8601 s
          = (.error (.api (.ValidationError errors)), s) ∧ "Invalid status" ∈ errors) ∧
      (∃ errors,
        (GoalCall.status req).serve isISO8601 s
          = (.error (.api (.ValidationError errors)), s) ∧ "Invalid status" ∈ errors)) := by
  constructor
  · intro g hg
    obtain ⟨hstatus, hprogress⟩ := serveAll_inRange isISO8601 calls s h g hg
    constructor
    · cases hs : g.status with
      | none => rw [hs] at hstatus; simp [statusInSet] at hstatus
      | some v =>
        rw [hs] at hstatus
        exact ⟨v, by simpa [statusInSet] using hstatus, rfl⟩
    · cases hp : g.progress with
      | none => rw [hp] at hprogress; simp [progressInRange] at hprogress
      | some p =>
        rw [hp] at hprogress
        have : 0 ≤ p ∧ p ≤ 100 := by simpa [progressInRange] using hprogress
        exact ⟨p, rfl, this.1, this.2⟩
  · intro req v hv hout
    have hmem : "Invalid status" ∈ (goalValidation isISO8601 req).validationErrors := by
      obtain ⟨before, hb⟩ := goalValidation_errors isISO8601 req
      rw [hb, hv, statusFinding_invalid true v hout]
      simp
    have hmem' : "Invalid status" ∈ (statusValidation req).validationErrors := by
      simp only [statusValidation]
      rw [hv, statusFinding_invalid false v hout]
      simp
    refine ⟨fun now => ⟨(goalValidation isISO8601 req).validationErrors, ?_, hmem⟩,
      ⟨(goalValidation isISO8601 req).validationErrors, ?_, hmem⟩,
      ⟨(statusValidation req).validationErrors, ?_, hmem'⟩⟩
    · simp only [GoalCall.serve, goalsRouter.create]
      rw [if_pos (invalid_of_mem _ _ hmem)]
    · simp only [GoalCall.serve, goalsRouter.update]
      rw [if_pos (invalid_of_mem _ _ hmem)]
    · simp only [GoalCall.serve, goalsRouter.status]
      rw [if_pos (invalid_of_mem _ _ hmem')]

/-- C22 from the example store: user 1 pauses goal 1, a patch of goal 1 to the
status `done` is rejected, and user 2 creates a goal. -/
theorem C22_goal_status_in_closed_set_witness :
    exampleStore.goalsInRange ∧
    ((serveAll (fun _ => true)
      [GoalCall.status (exampleRequest 1 1),
        GoalCall.status { exampleRequest 1 1 with status := some "done" },
        GoalCall.create 30 { exampleRequest 2 0 with title := " Learn SQL " }]
      exampleStore).goals.map (fun g => (g.id, g.title, g.status, g.progress)))
      = [(1, "goal", some "paused", some 0), (2, "goal", some "active", some 0),
         (3, "Learn SQL", some "active", some 0)] ∧
    (∀ g ∈ (serveAll (fun _ => true)
      [GoalCall.status (exampleRequest 1 1),
        GoalCall.status { exampleRequest 1 1 with status := some "done" },
        GoalCall.create 30 { exampleRequest 2 0 with title := " Learn SQL " }]
      exampleStore).goals,
      (∃ v ∈ goalStatuses, g.status = some v) ∧
      (∃ p : Int, g.progress = some p ∧ 0 ≤ p ∧ p ≤ 100)) ∧
    (∃ errors,
      (GoalCall.status { exampleRequest 1 1 with status := some "done" }).serve
          (fun _ => true) exampleStore
        = (.error (.api (.ValidationError errors)), exampleStore) ∧
      "Invalid status" ∈ errors) :=
  ⟨by decide, by decide,
    (C22_goal_status_in_closed_set (fun _ => true) _ exampleStore (by decide)).1,
    ((C22_goal_status_in_closed_set (fun _ => true) [] exampleStore (by decide)).2
      { exampleRequest 1 1 with status := some "done" } "done" rfl (by decide)).2.2⟩

set_option maxRecDepth 100000 in
/-- C23: a title of exactly 255 characters passes the goal validation, the
milestone validation and the title check of the wizard without any finding,
although the message of all three promises a title of less than 255
characters; the first rejected length is 256. The server checks are
`isLength` with max 255, the wizard check is `length > 255`. -/
theorem C23_title_of_255_accepted :
    title255.length = 255 ∧ jsLength title255 = 255 ∧
    titleFindings (jsTrim title255) = [] ∧
    (goalValidation (fun _ => true) { exampleRequest 1 1 with title := title255 }).validationErrors
      = [] ∧
    (milestoneValidation { exampleRequest 1 1 with title := title255 }).validationErrors = [] ∧
    validateStepTitle title255 = none ∧
    titleFindings (jsTrim title256) = ["Title must be less than 255 characters"] ∧
    validateStepTitle title256 = some "Title must be less than 255 characters" := by
  refine ⟨?_, ?_, ?_, ?_, ?_, ?_, ?_, ?_⟩ <;> decide

/-! ## Lemmas on the goal listing -/

theorem findByUserId_eq (s : Store) (u : Int) (status : Option String)
    (limit offset : Option Nat) :
    Goal.findByUserId s u status limit offset
      = (limitClause limit (offsetClause offset
          ((Goal.listMatching s u status).insertionSort GoalRow.createdDesc))).map
          (Goal.listItem s) := rfl

theorem findByUserId_goals (s : Store) (u : Int) (status : Option String)
    (limit offset : Option Nat) :
    (Goal.findByUserId s u status limit offset).map (fun x => x.goal)
      = limitClause limit (offsetClause offset
          ((Goal.listMatching s u status).insertionSort GoalRow.createdDesc)) := by
  rw [findByUserId_eq, List.map_map]
  exact List.map_id _

theorem offsetClause_sublist {α : Type} (offset : Option Nat) (rows : List α) :
    (offsetClause offset rows).Sublist rows := by
  cases offset with
  | none => exact List.Sublist.refl _
  | some n =>
    simp only [offsetClause]
    split
    · exact List.Sublist.refl _
    · exact List.drop_sublist _ _

theorem limitClause_sublist {α : Type} (limit : Option Nat) (rows : List α) :
    (limitClause limit rows).Sublist rows := by
  cases limit with
  | none => exact List.Sublist.refl _
  | some n =>
    simp only [limitClause]
    split
    · exact List.Sublist.refl _
    · exact List.take_sublist _ _

theorem limitClause_length {α : Type} (n : Nat) (hn : n ≠ 0) (rows : List α) :
    (limitClause (some n) rows).length ≤ n := by
  simp only [limitClause, if_neg hn]
  exact List.length_take_le _ _

theorem listMatching_mem (s : Store) (u : Int) (status : Option String) (g : GoalRow)
    (hg : g ∈ Goal.listMatching s u status) :
    g ∈ s.goals ∧ g.user_id = some u ∧
      ∀ st, status = some st → st ≠ "" → g.status = some st := by
  cases status with
  | none =>
    simp only [Goal.listMatching, List.mem_filter, beq_iff_eq] at hg
    exact ⟨hg.1, hg.2, fun st h => by cases h⟩
  | some v =>
    simp only [Goal.listMatching] at hg
    by_cases hv : v = ""
    · rw [if_pos hv] at hg
      simp only [List.mem_filter, beq_iff_eq] at hg
      exact ⟨hg.1, hg.2, fun st h hne => by cases h; exact absurd hv hne⟩
    · rw [if_neg hv] at hg
      simp only [List.mem_filter, beq_iff_eq] at hg
      exact ⟨hg.1.1, hg.1.2, fun st h _ => by cases h; exact hg.2⟩

theorem findByUserId_sublist (s : Store) (u : Int) (status : Option String)
    (limit offset : Option Nat) :
    ((Goal.findByUserId s u status limit offset).map (fun x => x.goal)).Sublist
      ((Goal.listMatching s u status).insertionSort GoalRow.createdDesc) := by
  rw [findByUserId_goals]
  exact (limitClause_sublist _ _).trans (offsetClause_sublist _ _)

theorem findByUserId_mem (s : Store) (u : Int) (status : Option String)
    (limit offset : Option Nat) (x : GoalListItem)
    (hx : x ∈ Goal.findByUserId s u status limit offset) :
    x.goal ∈ s.goals ∧ x.goal.user_id = some u ∧
      ∀ st, status = some st → st ≠ "" → x.goal.status = some st := by
  have h1 : x.goal ∈ (Goal.findByUserId s u status limit offset).map (fun x => x.goal) :=
    List.mem_map_of_mem _ hx
  have h2 := (findByUserId_sublist s u status limit offset).subset h1
  exact listMatching_mem s u status x.goal
    ((List.perm_insertionSort GoalRow.createdDesc _).subset h2)

theorem findByUserId_length (s : Store) (u : Int) (status : Option String)
    (n : Nat) (hn : n ≠ 0) (offset : Option Nat) :
    (Goal.findByUserId s u status (some n) offset).length ≤ n := by
  rw [findByUserId_eq, List.length_map]
  exact limitClause_length n hn _

theorem listValidation_valid (req : ListRequest)
    (h : (!(listValidation req).validationErrors.isEmpty) = false) :
    (∀ v, req.status = some v → v ∈ goalStatuses) ∧
    (∀ n, req.limit = some n → 1 ≤ n ∧ n ≤ 100) ∧
    (∀ n, req.offset = some n → 0 ≤ n) := by
  have hnil : (listValidation req).validationErrors = [] := by
    cases hl : (listValidation req).validationErrors with
    | nil => rfl
    | cons a l => rw [hl] at h; simp at h
  simp only [listValidation, List.append_eq_nil] at hnil
  obtain ⟨⟨⟨_, hs⟩, hl⟩, ho⟩ := hnil
  refine ⟨fun v hv => ?_, fun n hn => ?_, fun n hn => ?_⟩
  · rw [hv] at hs
    by_contra hc
    simp [hc] at hs
  · rw [hn] at hl
    by_contra hc
    simp [hc] at hl
  · rw [hn] at ho
    by_contra hc
    simp [hc] at ho

/-- C29 as worded fails for the options limit 0 and status empty: the clauses
are added under `if (limit)` and `if (status)`, so with limit 0 the goal of
user 1 is returned (one entry, more than the limit), and with the empty status
the goal is returned although its status is `active`. -/
theorem C29_limit_zero_not_applied :
    (Goal.findByUserId exampleStore 1 none (some 0) none).length = 1 ∧
    ¬ (Goal.findByUserId exampleStore 1 none (some 0) none).length ≤ 0 ∧
    (Goal.findByUserId exampleStore 1 (some "") none none).map (fun x => x.goal.status)
      = [some "active"] ∧
    ¬ (∀ x ∈ Goal.findByUserId exampleStore 1 (some "") none none,
        x.goal.status = some "") := by
  decide

/-- C29 amended: for every store, user and options, every goal returned by
`Goal.findByUserId` is a goal of the store with `user_id` the given user (so no
goal of another user is returned), has the requested status when a non-empty
status is given, the result has at most limit entries when a limit other than 0
is given, and it is ordered by `created_at` descending with NULL first. Through
GET `/api/goals` the validators leave only a status of the closed set and a
limit from 1 to 100, so there the bound and the status hold for every answered
request. -/
theorem C29_listing_confined_to_user (s : Store) (u : Int) (status : Option String)
    (limit offset : Option Nat) :
    (∀ x ∈ Goal.findByUserId s u status limit offset,
      x.goal ∈ s.goals ∧ x.goal.user_id = some u) ∧
    (∀ x ∈ Goal.findByUserId s u status limit offset, ∀ v : Int, v ≠ u →
      x.goal.user_id ≠ some v) ∧
    (∀ st, status = some st → st ≠ "" →
      ∀ x ∈ Goal.findByUserId s u status limit offset, x.goal.status = some st) ∧
    (∀ n, limit = some n → n ≠ 0 →
      (Goal.findByUserId s u status limit offset).length ≤ n) ∧
    ((Goal.findByUserId s u status limit offset).map (fun x => x.goal)).Pairwise
      GoalRow.createdDesc ∧
    (∀ (req : ListRequest) (resp : Response),
      (goalsRouter.index s (listValidation req)).1 = .ok resp →
      ∃ gs, resp.payload = .goals gs ∧ resp.count = some gs.length ∧
        (∀ x ∈ gs, x.goal ∈ s.goals ∧ x.goal.user_id = some req.userId) ∧
        (∀ st, req.status = some st → ∀ x ∈ gs, x.goal.status = some st) ∧
        (∀ n, req.limit = some n → (gs.length : Int) ≤ n)) := by
  refine ⟨fun x hx => ?_, fun x hx v hv => ?_, fun st hst hne x hx => ?_,
    fun n hn hne => ?_, ?_, fun req resp hresp => ?_⟩
  · obtain ⟨h1, h2, _⟩ := findByUserId_mem s u status limit offset x hx
    exact ⟨h1, h2⟩
  · obtain ⟨_, h2, _⟩ := findByUserId_mem s u status limit offset x hx
    rw [h2]
    intro hc
    exact hv (Option.some.inj hc).symm
  · exact (findByUserId_mem s u status limit offset x hx).2.2 st hst hne
  · subst hn
    exact findByUserId_length s u status n hne offset
  · exact (List.sorted_insertionSort GoalRow.createdDesc _).sublist
      (findByUserId_sublist s u status limit offset)
  · unfold goalsRouter.index at hresp
    by_cases hvalid : (!(listValidation req).validationErrors.isEmpty) = true
    · rw [if_pos hvalid] at hresp
      cases hresp
    · rw [if_neg hvalid] at hresp
      obtain ⟨hs, hl, _⟩ := listValidation_valid req (by simpa using hvalid)
      have huser : (listValidation req).userId = req.userId := rfl
      have hstatus : (listValidation req).status = req.status := rfl
      have hlimit : (listValidation req).limit = req.limit := rfl
      simp only [Except.ok.injEq] at hresp
      subst hresp
      refine ⟨_, rfl, rfl, fun x hx => ?_, fun st hst x hx => ?_, fun n hn => ?_⟩
      · obtain ⟨h1, h2, _⟩ := findByUserId_mem _ _ _ _ _ x hx
        exact ⟨h1, huser ▸ h2⟩
      · have hin := hs st hst
        have hne : st ≠ "" := by
          intro hc
          rw [hc] at hin
          exact absurd hin (by decide)
        exact (findByUserId_mem _ _ _ _ _ x hx).2.2 st (hstatus.trans hst) hne
      · obtain ⟨h1, h100⟩ := hl n hn
        have hnat : (listValidation req).limit.map Int.toNat = some n.toNat := by
          rw [hlimit, hn]; rfl
        rw [hnat]
        have hne : n.toNat ≠ 0 := by omega
        have := findByUserId_length s (listValidation req).userId (listValidation req).status
          n.toNat hne ((listValidation req).offset.map Int.toNat)
        omega

/-! ## Lemmas on saving a course -/

theorem savedFor_le_one (s : Store) (h : s.savedCourseKey) (u : Int) (cid : String) :
    (s.savedFor u cid).length ≤ 1 := by
  have hp := List.Pairwise.filter
    (fun c : SavedCourseRow => c.user_id == some u && c.external_id == cid) h
  unfold Store.savedFor
  cases hl : s.saved_courses.filter
      (fun c : SavedCourseRow => c.user_id == some u && c.external_id == cid) with
  | nil => simp
  | cons a l =>
    cases l with
    | nil => simp
    | cons b l =>
      exfalso
      rw [hl] at hp
      have ha : a ∈ s.saved_courses.filter
          (fun c : SavedCourseRow => c.user_id == some u && c.external_id == cid) := by
        rw [hl]; simp
      have hb : b ∈ s.saved_courses.filter
          (fun c : SavedCourseRow => c.user_id == some u && c.external_id == cid) := by
        rw [hl]; simp
      simp only [List.mem_filter, Bool.and_eq_true, beq_iff_eq] at ha hb
      have hab := (List.pairwise_cons.mp hp).1 b (by simp)
      apply hab
      refine ⟨?_, ?_, ?_⟩
      · rw [ha.2.1]; simp
      · rw [ha.2.1, hb.2.1]
      · rw [ha.2.2, hb.2.2]

theorem find_id (catalog : List Course) (id : String) (course : Course)
    (h : catalog.find? (fun c => c.id == id) = some course) : course.id = id := by
  have := List.find?_some h
  simpa using this

theorem save_found (catalog : List Course) (s : Store) (now : Nat) (req : CourseRequest)
    (course : Course) (hvalid : req.validationErrors = [])
    (hfound : catalog.find? (fun c => c.id == req.id) = some course) :
    coursesRouter.save catalog s now req
      = (savedResponse course,
         { s with
           saved_courses :=
             if s.saved_courses.any
                 (fun c => c.user_id == some req.userId && c.external_id == course.id)
             then s.saved_courses
             else s.saved_courses ++ [
               { id := s.saved_courses_id_seq + 1, user_id := some req.userId,
                 external_id := course.id, title := course.title,
                 provider := course.provider, url := course.url,
                 thumbnail_url := course.thumbnailUrl, goal_id := none,
                 created_at := some now }],
           saved_courses_id_seq := s.saved_courses_id_seq + 1 }) := by
  unfold coursesRouter.save
  rw [if_neg (by rw [hvalid]; simp), hfound]
  rfl

theorem save_savedFor (catalog : List Course) (s : Store) (now : Nat) (req : CourseRequest)
    (course : Course) (hvalid : req.validationErrors = [])
    (hfound : catalog.find? (fun c => c.id == req.id) = some course)
    (hle : (s.savedFor req.userId course.id).length ≤ 1) :
    ((coursesRouter.save catalog s now req).2.savedFor req.userId course.id).length = 1 := by
  rw [save_found catalog s now req course hvalid hfound]
  by_cases hc : s.saved_courses.any
      (fun c => c.user_id == some req.userId && c.external_id == course.id) = true
  · simp only [Store.savedFor, if_pos hc]
    have hpos : 0 < (s.saved_courses.filter
        (fun c => c.user_id == some req.userId && c.external_id == course.id)).length := by
      obtain ⟨c, hmem, hpc⟩ := List.any_eq_true.mp hc
      exact List.length_pos_of_mem (List.mem_filter.mpr ⟨hmem, hpc⟩)
    unfold Store.savedFor at hle
    omega
  · simp only [Store.savedFor, if_neg hc, List.filter_append]
    have hnil : s.saved_courses.filter
        (fun c => c.user_id == some req.userId && c.external_id == course.id) = [] := by
      rw [List.filter_eq_nil_iff]
      intro c hmem hpc
      exact hc (List.any_eq_true.mpr ⟨c, hmem, hpc⟩)
    rw [hnil]
    simp

theorem save_others (catalog : List Course) (s : Store) (now : Nat) (req : CourseRequest)
    (q : SavedCourseRow → Bool)
    (hq : ∀ c : SavedCourseRow, c.user_id = some req.userId → q c = false) :
    (coursesRouter.save catalog s now req).2.saved_courses.filter q
      = s.saved_courses.filter q := by
  unfold coursesRouter.save
  split
  · rfl
  · split
    · rfl
    · dsimp only
      split
      · rfl
      · rw [List.filter_append]
        simp [hq]

theorem saveTimes_spec (catalog : List Course) (req : CourseRequest) (course : Course)
    (hvalid : req.validationErrors = [])
    (hfound : catalog.find? (fun c => c.id == req.id) = some course)
    (q : SavedCourseRow → Bool)
    (hq : ∀ c : SavedCourseRow, c.user_id = some req.userId → q c = false)
    (times : List Nat) :
    ∀ s : Store, (s.savedFor req.userId course.id).length ≤ 1 →
      (coursesRouter.saveTimes catalog req times s).1
        = List.replicate times.length (savedResponse course) ∧
      (times ≠ [] →
        ((coursesRouter.saveTimes catalog req times s).2.savedFor
          req.userId course.id).length = 1) ∧
      ((coursesRouter.saveTimes catalog req times s).2.savedFor
          req.userId course.id).length ≤ 1 ∧
      (coursesRouter.saveTimes catalog req times s).2.saved_courses.filter q
        = s.saved_courses.filter q := by
  induction times with
  | nil =>
    intro s hle
    exact ⟨rfl, fun h => absurd rfl h, hle, rfl⟩
  | cons now rest ih =>
    intro s hle
    have hone := save_savedFor catalog s now req course hvalid hfound hle
    have hresp : (coursesRouter.save catalog s now req).1 = savedResponse course := by
      rw [save_found catalog s now req course hvalid hfound]
    obtain ⟨h1, h2, h3, h4⟩ := ih (coursesRouter.save catalog s now req).2 (by omega)
    have hstep : coursesRouter.saveTimes catalog req (now :: rest) s
        = ((coursesRouter.save catalog s now req).1 ::
            (coursesRouter.saveTimes catalog req rest
              (coursesRouter.save catalog s now req).2).1,
           (coursesRouter.saveTimes catalog req rest
              (coursesRouter.save catalog s now req).2).2) := rfl
    rw [hstep]
    refine ⟨?_, fun _ => ?_, h3, ?_⟩
    · simp only [h1, hresp, List.length_cons, List.replicate_succ]
    · cases rest with
      | nil => exact hone
      | cons a l => exact h2 (by simp)
    · rw [h4]
      exact save_others catalog s now req q hq

/-- C21: for a catalog course and a store that respects UNIQUE(user_id,
external_id), a valid save request of a user sent any number of times (at
least once) leaves exactly one `saved_courses` row for that user and course,
every one of the requests is answered 200 `Course saved successfully` with the
course, and the saved rows of every other user are the same list as before;
a valid save request for an id that is not in the catalog fails with the 404
`Course not found` and leaves the store as it was. The INSERT is taken to
succeed, as every statement of the store is. -/
theorem C21_saved_course_unique (catalog : List Course) (s : Store) (req : CourseRequest)
    (course : Course) (times : List Nat)
    (hvalid : req.validationErrors = [])
    (hfound : catalog.find? (fun c => c.id == req.id) = some course)
    (hkey : s.savedCourseKey) (hsome : times ≠ []) :
    course.id = req.id ∧
    ((coursesRouter.saveTimes catalog req times s).2.saved_courses.filter
      (fun c => c.user_id == some req.userId && c.external_id == req.id)).length = 1 ∧
    (coursesRouter.saveTimes catalog req times s).1.length = times.length ∧
    (∀ r ∈ (coursesRouter.saveTimes catalog req times s).1,
      r = .ok { status := 200, message := some "Course saved successfully",
                payload := .course course, count := none }) ∧
    (∀ v : Int, v ≠ req.userId →
      (coursesRouter.saveTimes catalog req times s).2.saved_courses.filter
          (fun c => c.user_id == some v)
        = s.saved_courses.filter (fun c => c.user_id == some v)) ∧
    (∀ (missing : CourseRequest) (now : Nat), missing.validationErrors = [] →
      catalog.find? (fun c => c.id == missing.id) = none →
      coursesRouter.save catalog s now missing
        = (.error (.api (.base 404 "Course not found" none)), s)) := by
  have hid := find_id catalog req.id course hfound
  have hle := savedFor_le_one s hkey req.userId course.id
  refine ⟨hid, ?_, ?_, ?_, ?_, ?_⟩
  · have h := (saveTimes_spec catalog req course hvalid hfound (fun _ => false)
      (fun _ _ => rfl) times s hle).2.1 hsome
    rw [← hid]
    exact h
  · rw [(saveTimes_spec catalog req course hvalid hfound (fun _ => false)
      (fun _ _ => rfl) times s hle).1]
    simp
  · intro r hr
    rw [(saveTimes_spec catalog req course hvalid hfound (fun _ => false)
      (fun _ _ => rfl) times s hle).1] at hr
    exact (List.mem_replicate.mp hr).2
  · intro v hv
    refine (saveTimes_spec catalog req course hvalid hfound
      (fun c => c.user_id == some v) ?_ times s hle).2.2.2
    intro c hc
    show (c.user_id == some v) = false
    rw [hc]
    simp only [beq_eq_false_iff_ne, ne_eq, Option.some.injEq]
    exact fun h => hv h.symm
  · intro missing now hv hnone
    unfold coursesRouter.save
    rw [if_neg (by rw [hv]; simp), hnone]

/-- C21 on a store in which user 2 has saved the course c-1: user 1 saves c-1
three times. -/
theorem C21_saved_course_unique_witness :
    (coursesRouter.saveTimes exampleCatalog (exampleSave 1 "c-1") [20, 21, 22]
      exampleSavedStore).2.saved_courses.map (fun c => (c.id, c.user_id, c.external_id))
      = [(1, some 2, "c-1"), (2, some 1, "c-1")] ∧
    ((coursesRouter.saveTimes exampleCatalog (exampleSave 1 "c-1") [20, 21, 22]
      exampleSavedStore).2.saved_courses.filter
      (fun c => c.user_id == some 1 && c.external_id == "c-1")).length = 1 ∧
    (coursesRouter.saveTimes exampleCatalog (exampleSave 1 "c-1") [20, 21, 22]
      exampleSavedStore).1.length = 3 ∧
    (coursesRouter.save exampleCatalog exampleSavedStore 23 (exampleSave 1 "c-9")
      = (.error (.api (.base 404 "Course not found" none)), exampleSavedStore)) :=
  ⟨by decide,
    (C21_saved_course_unique exampleCatalog exampleSavedStore (exampleSave 1 "c-1")
      { id := "c-1", title := "Lean for programmers", provider := some "Example U",
        url := some "https://example.org/c-1", thumbnailUrl := none }
      [20, 21, 22] rfl (by decide) (by decide) (by decide)).2.1,
    (C21_saved_course_unique exampleCatalog exampleSavedStore (exampleSave 1 "c-1")
      { id := "c-1", title := "Lean for programmers", provider := some "Example U",
        url := some "https://example.org/c-1", thumbnailUrl := none }
      [20, 21, 22] rfl (by decide) (by decide) (by decide)).2.2.1,
    (C21_saved_course_unique exampleCatalog exampleSavedStore (exampleSave 1 "c-1")
      { id := "c-1", title := "Lean for programmers", provider := some "Example U",
        url := some "https://example.org/c-1", thumbnailUrl := none }
      [20, 21, 22] rfl (by decide) (by decide) (by decide)).2.2.2.2.2
      (exampleSave 1 "c-9") 23 rfl (by decide)⟩

/-- C29 amended, on a listing of the example store: user 1 asks for at most two
active goals, and the answered request of GET `/api/goals` with limit 1. -/
theorem C29_listing_confined_to_user_witness :
    (Goal.findByUserId exampleStore 1 (some "active") (some 2) none).map
      (fun x => (x.goal.id, x.milestone_count)) = [(1, 3)] ∧
    (∀ x ∈ Goal.findByUserId exampleStore 1 (some "active") (some 2) none,
      x.goal ∈ exampleStore.goals ∧ x.goal.user_id = some 1) ∧
    (Goal.findByUserId exampleStore 1 (some "active") (some 2) none).length ≤ 2 ∧
    (∃ resp, (goalsRouter.index exampleStore
        (listValidation (exampleList 1 (some "active") (some 1) none))).1 = .ok resp ∧
      ∃ gs, resp.payload = .goals gs ∧ resp.count = some gs.length ∧
        (∀ x ∈ gs, x.goal ∈ exampleStore.goals ∧ x.goal.user_id = some 1) ∧
        (∀ st, some "active" = some st → ∀ x ∈ gs, x.goal.status = some st) ∧
        (∀ n, some (1 : Int) = some n → (gs.length : Int) ≤ n)) :=
  ⟨by decide,
    (C29_listing_confined_to_user exampleStore 1 (some "active") (some 2) none).1,
    (C29_listing_confined_to_user exampleStore 1 (some "active") (some 2) none).2.2.2.1
      2 rfl (by decide),
    ⟨_, rfl,
      (C29_listing_confined_to_user exampleStore 1 none none none).2.2.2.2.2
        (exampleList 1 (some "active") (some 1) none) _ rfl⟩⟩

end LearningTracker
